import Mathlib

set_option linter.unusedTactic false
set_option linter.unreachableTactic false
set_option linter.unusedVariables false
set_option linter.unnecessarySeqFocus false

/-!
# Render-uniform state cache (`Source/Renderer/UniformState.js`)

A shallow embedding of `UniformState`: the primary transform fields, the cached
derived matrices and vectors with their dirty flags, the setters that
invalidate and the getters that lazily recompute.

JavaScript numbers are idealised as rationals.  Every getter of the source
returns a reference to a field of the object; here it returns the value of that
field at the time of the call, together with the state after the call.
-/

/-! ## Core value types

`Matrix4`, `Matrix3`, `Cartesian3`, `EncodedCartesian3` and `BoundingRectangle`
live in `Source/Core`, which `UniformState.js` only imports.  A matrix is its
column-major array of entries: field `mK` is the element the source writes
`matrix[K]`.
-/

/-- Column-major 4x4 matrix: `mK` is `matrix[K]`, the entry in row `K % 4` and
column `K / 4`. -/
@[ext]
structure Matrix4 where
  m0 : ℚ
  m1 : ℚ
  m2 : ℚ
  m3 : ℚ
  m4 : ℚ
  m5 : ℚ
  m6 : ℚ
  m7 : ℚ
  m8 : ℚ
  m9 : ℚ
  m10 : ℚ
  m11 : ℚ
  m12 : ℚ
  m13 : ℚ
  m14 : ℚ
  m15 : ℚ
deriving DecidableEq

/-- Column-major 3x3 matrix: `mK` is `matrix[K]`. -/
@[ext]
structure Matrix3 where
  m0 : ℚ
  m1 : ℚ
  m2 : ℚ
  m3 : ℚ
  m4 : ℚ
  m5 : ℚ
  m6 : ℚ
  m7 : ℚ
  m8 : ℚ
deriving DecidableEq

/-- Three-component vector. -/
@[ext]
structure Cartesian3 where
  x : ℚ
  y : ℚ
  z : ℚ
deriving DecidableEq

/-- Position split into a high and a low part. -/
@[ext]
structure EncodedCartesian3 where
  high : Cartesian3
  low : Cartesian3
deriving DecidableEq

/-- Rectangle given by its corner and its extent. -/
@[ext]
structure BoundingRectangle where
  x : ℚ
  y : ℚ
  width : ℚ
  height : ℚ
deriving DecidableEq

/-- Modelled from the spec: `Matrix4.IDENTITY` of `Core/Matrix4.js` (not under
src/), the identity matrix the constructor clones. -/
def Matrix4.IDENTITY : Matrix4 :=
  ⟨1, 0, 0, 0, 0, 1, 0, 0, 0, 0, 1, 0, 0, 0, 0, 1⟩

/-- Modelled from the spec: `new Matrix4()` of `Core/Matrix4.js` (not under
src/); every entry defaults to zero.  It is only the initial content of a cache
entry whose dirty flag is set. -/
def Matrix4.ZERO : Matrix4 :=
  ⟨0, 0, 0, 0, 0, 0, 0, 0, 0, 0, 0, 0, 0, 0, 0, 0⟩

/-- Modelled from the spec: `new Matrix3()` of `Core/Matrix3.js` (not under
src/); every entry defaults to zero. -/
def Matrix3.ZERO : Matrix3 :=
  ⟨0, 0, 0, 0, 0, 0, 0, 0, 0⟩

/-- Modelled from the spec: `new Cartesian3()` of `Core/Cartesian3.js` (not
under src/); every component defaults to zero. -/
def Cartesian3.ZERO : Cartesian3 :=
  ⟨0, 0, 0⟩

/-- Modelled from the spec: `new EncodedCartesian3()` of
`Core/EncodedCartesian3.js` (not under src/); both parts are zero vectors. -/
def EncodedCartesian3.ZERO : EncodedCartesian3 :=
  ⟨Cartesian3.ZERO, Cartesian3.ZERO⟩

/-- Modelled from the spec: `new BoundingRectangle()` of
`Core/BoundingRectangle.js` (not under src/); corner and extent default to
zero. -/
def BoundingRectangle.ZERO : BoundingRectangle :=
  ⟨0, 0, 0, 0⟩

/-- Modelled from the spec: `BoundingRectangle.equals` of
`Core/BoundingRectangle.js` (not under src/), the comparison by value of
`x`, `y`, `width` and `height`. -/
def BoundingRectangle.equals (left right : BoundingRectangle) : Bool :=
  decide (left.x = right.x) && decide (left.y = right.y) &&
    decide (left.width = right.width) && decide (left.height = right.height)

/-- Modelled from the spec: `Matrix4.multiply(left, right, result)` of
`Core/Matrix4.js` (not under src/), the matrix product `left * right` on
column-major arrays. -/
def Matrix4.multiply (left right : Matrix4) : Matrix4 where
  m0 := left.m0 * right.m0 + left.m4 * right.m1 + left.m8 * right.m2 + left.m12 * right.m3
  m1 := left.m1 * right.m0 + left.m5 * right.m1 + left.m9 * right.m2 + left.m13 * right.m3
  m2 := left.m2 * right.m0 + left.m6 * right.m1 + left.m10 * right.m2 + left.m14 * right.m3
  m3 := left.m3 * right.m0 + left.m7 * right.m1 + left.m11 * right.m2 + left.m15 * right.m3
  m4 := left.m0 * right.m4 + left.m4 * right.m5 + left.m8 * right.m6 + left.m12 * right.m7
  m5 := left.m1 * right.m4 + left.m5 * right.m5 + left.m9 * right.m6 + left.m13 * right.m7
  m6 := left.m2 * right.m4 + left.m6 * right.m5 + left.m10 * right.m6 + left.m14 * right.m7
  m7 := left.m3 * right.m4 + left.m7 * right.m5 + left.m11 * right.m6 + left.m15 * right.m7
  m8 := left.m0 * right.m8 + left.m4 * right.m9 + left.m8 * right.m10 + left.m12 * right.m11
  m9 := left.m1 * right.m8 + left.m5 * right.m9 + left.m9 * right.m10 + left.m13 * right.m11
  m10 := left.m2 * right.m8 + left.m6 * right.m9 + left.m10 * right.m10 + left.m14 * right.m11
  m11 := left.m3 * right.m8 + left.m7 * right.m9 + left.m11 * right.m10 + left.m15 * right.m11
  m12 := left.m0 * right.m12 + left.m4 * right.m13 + left.m8 * right.m14 + left.m12 * right.m15
  m13 := left.m1 * right.m12 + left.m5 * right.m13 + left.m9 * right.m14 + left.m13 * right.m15
  m14 := left.m2 * right.m12 + left.m6 * right.m13 + left.m10 * right.m14 + left.m14 * right.m15
  m15 := left.m3 * right.m12 + left.m7 * right.m13 + left.m11 * right.m14 + left.m15 * right.m15


/-- Modelled from the spec: `Matrix4.transpose` of `Core/Matrix4.js` (not under
src/). -/
def Matrix4.transpose (m : Matrix4) : Matrix4 :=
  ⟨m.m0, m.m4, m.m8, m.m12, m.m1, m.m5, m.m9, m.m13,
   m.m2, m.m6, m.m10, m.m14, m.m3, m.m7, m.m11, m.m15⟩

/-- Modelled from the spec: `Matrix4.getRotation` of `Core/Matrix4.js` (not
under src/), the upper-left 3x3 block. -/
def Matrix4.getRotation (m : Matrix4) : Matrix3 :=
  ⟨m.m0, m.m1, m.m2, m.m4, m.m5, m.m6, m.m8, m.m9, m.m10⟩

/-- Modelled from the spec: `Matrix4.multiplyByPoint` of `Core/Matrix4.js` (not
under src/): the matrix applied to the point `(x, y, z, 1)`. -/
def Matrix4.multiplyByPoint (m : Matrix4) (p : Cartesian3) : Cartesian3 :=
  ⟨m.m0 * p.x + m.m4 * p.y + m.m8 * p.z + m.m12,
   m.m1 * p.x + m.m5 * p.y + m.m9 * p.z + m.m13,
   m.m2 * p.x + m.m6 * p.y + m.m10 * p.z + m.m14⟩

/-- Modelled from the spec: `Matrix3.multiplyByVector` of `Core/Matrix3.js`
(not under src/). -/
def Matrix3.multiplyByVector (m : Matrix3) (v : Cartesian3) : Cartesian3 :=
  ⟨m.m0 * v.x + m.m3 * v.y + m.m6 * v.z,
   m.m1 * v.x + m.m4 * v.y + m.m7 * v.z,
   m.m2 * v.x + m.m5 * v.y + m.m8 * v.z⟩

/-- Entrywise product of a matrix with a scalar. -/
def Matrix4.multiplyByScalar (m : Matrix4) (k : ℚ) : Matrix4 :=
  ⟨m.m0 * k, m.m1 * k, m.m2 * k, m.m3 * k, m.m4 * k, m.m5 * k, m.m6 * k, m.m7 * k,
   m.m8 * k, m.m9 * k, m.m10 * k, m.m11 * k, m.m12 * k, m.m13 * k, m.m14 * k, m.m15 * k⟩

/-- Transposed matrix of cofactors, column-major. -/
def Matrix4.adjugate (m : Matrix4) : Matrix4 where
  m0 := m.m5 * m.m10 * m.m15 - m.m5 * m.m14 * m.m11 - m.m9 * m.m6 * m.m15 + m.m9 * m.m14 * m.m7 + m.m13 * m.m6 * m.m11 - m.m13 * m.m10 * m.m7
  m1 := -(m.m1 * m.m10 * m.m15) + m.m1 * m.m14 * m.m11 + m.m9 * m.m2 * m.m15 - m.m9 * m.m14 * m.m3 - m.m13 * m.m2 * m.m11 + m.m13 * m.m10 * m.m3
  m2 := m.m1 * m.m6 * m.m15 - m.m1 * m.m14 * m.m7 - m.m5 * m.m2 * m.m15 + m.m5 * m.m14 * m.m3 + m.m13 * m.m2 * m.m7 - m.m13 * m.m6 * m.m3
  m3 := -(m.m1 * m.m6 * m.m11) + m.m1 * m.m10 * m.m7 + m.m5 * m.m2 * m.m11 - m.m5 * m.m10 * m.m3 - m.m9 * m.m2 * m.m7 + m.m9 * m.m6 * m.m3
  m4 := -(m.m4 * m.m10 * m.m15) + m.m4 * m.m14 * m.m11 + m.m8 * m.m6 * m.m15 - m.m8 * m.m14 * m.m7 - m.m12 * m.m6 * m.m11 + m.m12 * m.m10 * m.m7
  m5 := m.m0 * m.m10 * m.m15 - m.m0 * m.m14 * m.m11 - m.m8 * m.m2 * m.m15 + m.m8 * m.m14 * m.m3 + m.m12 * m.m2 * m.m11 - m.m12 * m.m10 * m.m3
  m6 := -(m.m0 * m.m6 * m.m15) + m.m0 * m.m14 * m.m7 + m.m4 * m.m2 * m.m15 - m.m4 * m.m14 * m.m3 - m.m12 * m.m2 * m.m7 + m.m12 * m.m6 * m.m3
  m7 := m.m0 * m.m6 * m.m11 - m.m0 * m.m10 * m.m7 - m.m4 * m.m2 * m.m11 + m.m4 * m.m10 * m.m3 + m.m8 * m.m2 * m.m7 - m.m8 * m.m6 * m.m3
  m8 := m.m4 * m.m9 * m.m15 - m.m4 * m.m13 * m.m11 - m.m8 * m.m5 * m.m15 + m.m8 * m.m13 * m.m7 + m.m12 * m.m5 * m.m11 - m.m12 * m.m9 * m.m7
  m9 := -(m.m0 * m.m9 * m.m15) + m.m0 * m.m13 * m.m11 + m.m8 * m.m1 * m.m15 - m.m8 * m.m13 * m.m3 - m.m12 * m.m1 * m.m11 + m.m12 * m.m9 * m.m3
  m10 := m.m0 * m.m5 * m.m15 - m.m0 * m.m13 * m.m7 - m.m4 * m.m1 * m.m15 + m.m4 * m.m13 * m.m3 + m.m12 * m.m1 * m.m7 - m.m12 * m.m5 * m.m3
  m11 := -(m.m0 * m.m5 * m.m11) + m.m0 * m.m9 * m.m7 + m.m4 * m.m1 * m.m11 - m.m4 * m.m9 * m.m3 - m.m8 * m.m1 * m.m7 + m.m8 * m.m5 * m.m3
  m12 := -(m.m4 * m.m9 * m.m14) + m.m4 * m.m13 * m.m10 + m.m8 * m.m5 * m.m14 - m.m8 * m.m13 * m.m6 - m.m12 * m.m5 * m.m10 + m.m12 * m.m9 * m.m6
  m13 := m.m0 * m.m9 * m.m14 - m.m0 * m.m13 * m.m10 - m.m8 * m.m1 * m.m14 + m.m8 * m.m13 * m.m2 + m.m12 * m.m1 * m.m10 - m.m12 * m.m9 * m.m2
  m14 := -(m.m0 * m.m5 * m.m14) + m.m0 * m.m13 * m.m6 + m.m4 * m.m1 * m.m14 - m.m4 * m.m13 * m.m2 - m.m12 * m.m1 * m.m6 + m.m12 * m.m5 * m.m2
  m15 := m.m0 * m.m5 * m.m10 - m.m0 * m.m9 * m.m6 - m.m4 * m.m1 * m.m10 + m.m4 * m.m9 * m.m2 + m.m8 * m.m1 * m.m6 - m.m8 * m.m5 * m.m2

/-- Determinant, expanded along the first row. -/
def Matrix4.determinant (m : Matrix4) : ℚ :=
  m.m0 * m.adjugate.m0 + m.m4 * m.adjugate.m1 + m.m8 * m.adjugate.m2 + m.m12 * m.adjugate.m3

/-- Modelled from the spec: `Matrix4.inverse` of `Core/Matrix4.js` (not under
src/), the matrix inverse: the adjugate scaled by the reciprocal of the
determinant.  The spec has the cache treat a singular matrix as a numeric
degeneracy it does not detect; over the rationals the reciprocal of zero is
zero, and nothing below depends on the value at a singular matrix. -/
def Matrix4.inverse (m : Matrix4) : Matrix4 :=
  m.adjugate.multiplyByScalar (1 / m.determinant)

/-- Modelled from the spec: `Matrix4.computeOrthographicOffCenter` of
`Core/Matrix4.js` (not under src/), the orthographic projection of the box
`[left, right] x [bottom, top] x [near, far]`. -/
def Matrix4.computeOrthographicOffCenter (left right bottom top near far : ℚ) : Matrix4 :=
  let a := 1 / (right - left)
  let b := 1 / (top - bottom)
  let c := 1 / (far - near)
  let tx := -(right + left) * a
  let ty := -(top + bottom) * b
  let tz := -(far + near) * c
  ⟨2 * a, 0, 0, 0, 0, 2 * b, 0, 0, 0, 0, -2 * c, 0, tx, ty, tz, 1⟩

/-- Modelled from the spec: `Matrix4.computeViewportTransformation` of
`Core/Matrix4.js` (not under src/), the transform from normalized device
coordinates to the window coordinates of the rectangle and depth range. -/
def Matrix4.computeViewportTransformation (viewport : BoundingRectangle)
    (nearDepthRange farDepthRange : ℚ) : Matrix4 :=
  let halfWidth := viewport.width / 2
  let halfHeight := viewport.height / 2
  let halfDepth := (farDepthRange - nearDepthRange) / 2
  ⟨halfWidth, 0, 0, 0, 0, halfHeight, 0, 0, 0, 0, halfDepth, 0,
   viewport.x + halfWidth, viewport.y + halfHeight, nearDepthRange + halfDepth, 1⟩

/-- Functions of `Source/Core` that have no exact rational model and are taken
as parameters: `Cartesian3.normalize` divides by a square root and
`EncodedCartesian3.fromCartesian` splits a double into two single-precision
parts. -/
structure CoreNumerics where
  normalize : Cartesian3 → Cartesian3
  fromCartesian : Cartesian3 → EncodedCartesian3

/-- The error a setter throws when a required argument is absent. -/
inductive DeveloperError where
  | sunPositionRequired
deriving DecidableEq

/-- Frustum as `updateFrustum` reads it: `getProjectionMatrix()` always, and
`getInfiniteProjectionMatrix()` when the frustum has that method. -/
structure Frustum where
  projectionMatrix : Matrix4
  infiniteProjectionMatrix : Option Matrix4

/-- Camera as `update` reads it. -/
structure Camera where
  viewMatrix : Matrix4
  inverseViewMatrix : Matrix4
  positionWC : Cartesian3
  frustum : Frustum

/-! ## The state -/

/-- Fields of a `UniformState` object, named as in the constructor.  The last
field is the property `__inverseViewProjectionDirty`, which the constructor
does not create: it is absent (`none`) until the public `setProjection`
assigns it.  The frame number is `none` when `setFrameNumber` has stored an
absent argument. -/
structure UniformState where
  _viewport : BoundingRectangle
  _viewportDirty : Bool
  _viewportOrthographicMatrix : Matrix4
  _viewportTransformation : Matrix4
  _model : Matrix4
  _view : Matrix4
  _inverseView : Matrix4
  _projection : Matrix4
  _infiniteProjection : Matrix4
  _sunPosition : Cartesian3
  _frameNumber : Option ℚ
  _inverseModelDirty : Bool
  _inverseModel : Matrix4
  _viewRotation : Matrix3
  _inverseViewRotation : Matrix3
  _inverseProjectionDirty : Bool
  _inverseProjection : Matrix4
  _modelViewDirty : Bool
  _modelView : Matrix4
  _modelViewRelativeToEyeDirty : Bool
  _modelViewRelativeToEye : Matrix4
  _inverseModelViewDirty : Bool
  _inverseModelView : Matrix4
  _viewProjectionDirty : Bool
  _viewProjection : Matrix4
  _inverseViewProjectionDirty : Bool
  _inverseViewProjection : Matrix4
  _modelViewProjectionDirty : Bool
  _modelViewProjection : Matrix4
  _inverseModelViewProjectionDirty : Bool
  _inverseModelViewProjection : Matrix4
  _modelViewProjectionRelativeToEyeDirty : Bool
  _modelViewProjectionRelativeToEye : Matrix4
  _modelViewInfiniteProjectionDirty : Bool
  _modelViewInfiniteProjection : Matrix4
  _normalDirty : Bool
  _normal : Matrix3
  _inverseNormalDirty : Bool
  _inverseNormal : Matrix3
  _encodedCameraPositionMCDirty : Bool
  _encodedCameraPositionMC : EncodedCartesian3
  _cameraPosition : Cartesian3
  _sunDirectionECDirty : Bool
  _sunDirectionEC : Cartesian3
  _sunDirectionWCDirty : Bool
  _sunDirectionWC : Cartesian3
  __inverseViewProjectionDirty : Option Bool
deriving DecidableEq

/-- Modelled from the spec: `2.0 * Ellipsoid.WGS84.getRadii().x` of
`Core/Ellipsoid.js` (not under src/), twice the WGS84 equatorial radius of
6378137 metres. -/
def defaultSunPositionX : ℚ := 2 * 6378137

/-- The constructor `new UniformState()`. -/
def UniformState.new : UniformState where
  _viewport := BoundingRectangle.ZERO
  _viewportDirty := false
  _viewportOrthographicMatrix := Matrix4.IDENTITY
  _viewportTransformation := Matrix4.IDENTITY
  _model := Matrix4.IDENTITY
  _view := Matrix4.IDENTITY
  _inverseView := Matrix4.IDENTITY
  _projection := Matrix4.IDENTITY
  _infiniteProjection := Matrix4.IDENTITY
  _sunPosition := ⟨defaultSunPositionX, 0, 0⟩
  _frameNumber := some 1
  _inverseModelDirty := true
  _inverseModel := Matrix4.ZERO
  _viewRotation := Matrix3.ZERO
  _inverseViewRotation := Matrix3.ZERO
  _inverseProjectionDirty := true
  _inverseProjection := Matrix4.ZERO
  _modelViewDirty := true
  _modelView := Matrix4.ZERO
  _modelViewRelativeToEyeDirty := true
  _modelViewRelativeToEye := Matrix4.ZERO
  _inverseModelViewDirty := true
  _inverseModelView := Matrix4.ZERO
  _viewProjectionDirty := true
  _viewProjection := Matrix4.ZERO
  _inverseViewProjectionDirty := true
  _inverseViewProjection := Matrix4.ZERO
  _modelViewProjectionDirty := true
  _modelViewProjection := Matrix4.ZERO
  _inverseModelViewProjectionDirty := true
  _inverseModelViewProjection := Matrix4.ZERO
  _modelViewProjectionRelativeToEyeDirty := true
  _modelViewProjectionRelativeToEye := Matrix4.ZERO
  _modelViewInfiniteProjectionDirty := true
  _modelViewInfiniteProjection := Matrix4.ZERO
  _normalDirty := true
  _normal := Matrix3.ZERO
  _inverseNormalDirty := true
  _inverseNormal := Matrix3.ZERO
  _encodedCameraPositionMCDirty := true
  _encodedCameraPositionMC := EncodedCartesian3.ZERO
  _cameraPosition := Cartesian3.ZERO
  _sunDirectionECDirty := true
  _sunDirectionEC := Cartesian3.ZERO
  _sunDirectionWCDirty := true
  _sunDirectionWC := Cartesian3.ZERO
  __inverseViewProjectionDirty := none

/-! ## Module-level setters (lines 100-139) -/

/-- The function `setView(uniformState, matrix)`. -/
def setView (uniformState : UniformState) (matrix : Matrix4) : UniformState :=
  { uniformState with
    _view := matrix
    _viewRotation := matrix.getRotation
    _modelViewDirty := true
    _modelViewRelativeToEyeDirty := true
    _inverseModelViewDirty := true
    _viewProjectionDirty := true
    _modelViewProjectionDirty := true
    _modelViewProjectionRelativeToEyeDirty := true
    _modelViewInfiniteProjectionDirty := true
    _normalDirty := true
    _inverseNormalDirty := true
    _sunDirectionECDirty := true }

/-- The function `setInverseView(uniformState, matrix)`. -/
def setInverseView (uniformState : UniformState) (matrix : Matrix4) : UniformState :=
  { uniformState with
    _inverseView := matrix
    _inverseViewRotation := matrix.getRotation }

/-- The module-level function `setProjection(uniformState, matrix)`, the one
`updateFrustum` calls. -/
def setProjection (uniformState : UniformState) (matrix : Matrix4) : UniformState :=
  { uniformState with
    _projection := matrix
    _inverseProjectionDirty := true
    _viewProjectionDirty := true
    _modelViewProjectionDirty := true
    _modelViewProjectionRelativeToEyeDirty := true }

/-- The function `setInfiniteProjection(uniformState, matrix)`. -/
def setInfiniteProjection (uniformState : UniformState) (matrix : Matrix4) : UniformState :=
  { uniformState with
    _infiniteProjection := matrix
    _modelViewInfiniteProjectionDirty := true }

/-- The function `setCameraPosition(uniformState, position)`. -/
def setCameraPosition (uniformState : UniformState) (position : Cartesian3) : UniformState :=
  { uniformState with
    _cameraPosition := position
    _encodedCameraPositionMCDirty := true }

/-! ## Public setters -/

/-- The method `updateFrustum(frustum)`. -/
def UniformState.updateFrustum (this : UniformState) (frustum : Frustum) : UniformState :=
  let s := setProjection this frustum.projectionMatrix
  match frustum.infiniteProjectionMatrix with
  | some m => setInfiniteProjection s m
  | none => s

/-- The method `update(camera)`. -/
def UniformState.update (this : UniformState) (camera : Camera) : UniformState :=
  let s1 := setView this camera.viewMatrix
  let s2 := setInverseView s1 camera.inverseViewMatrix
  let s3 := setCameraPosition s2 camera.positionWC
  s3.updateFrustum camera.frustum

/-- The method `setViewport(viewport)`. -/
def UniformState.setViewport (this : UniformState) (viewport : BoundingRectangle) :
    UniformState :=
  if !BoundingRectangle.equals viewport this._viewport then
    { this with _viewport := viewport, _viewportDirty := true }
  else this

/-- The method `setModel(matrix)`. -/
def UniformState.setModel (this : UniformState) (matrix : Matrix4) : UniformState :=
  { this with
    _model := matrix
    _inverseModelDirty := true
    _modelViewDirty := true
    _inverseModelViewDirty := true
    _viewProjectionDirty := true
    _inverseViewProjectionDirty := true
    _modelViewRelativeToEyeDirty := true
    _modelViewProjectionDirty := true
    _inverseModelViewProjectionDirty := true
    _modelViewProjectionRelativeToEyeDirty := true
    _modelViewInfiniteProjectionDirty := true
    _normalDirty := true
    _inverseNormalDirty := true
    _encodedCameraPositionMCDirty := true
    _sunDirectionWCDirty := true }

/-- The public method `setProjection(matrix)`; an absent argument is replaced
by the identity (`defaultValue(matrix, Matrix4.IDENTITY)`).  The third
assignment of the source writes `__inverseViewProjectionDirty`. -/
def UniformState.setProjection (this : UniformState) (matrix : Option Matrix4) :
    UniformState :=
  { this with
    _projection := matrix.getD Matrix4.IDENTITY
    _inverseProjectionDirty := true
    _viewProjectionDirty := true
    __inverseViewProjectionDirty := some true
    _modelViewProjectionDirty := true
    _inverseModelViewProjectionDirty := true }

/-- The method `setSunPosition(sunPosition)`; an absent argument throws. -/
def UniformState.setSunPosition (this : UniformState) (sunPosition : Option Cartesian3) :
    Except DeveloperError UniformState :=
  match sunPosition with
  | none => .error .sunPositionRequired
  | some p =>
    .ok { this with
          _sunPosition := p
          _sunDirectionECDirty := true
          _sunDirectionWCDirty := true }

/-- The method `setFrameNumber(frameNumber)`; the argument is stored as it is,
an absent one (`none`) included. -/
def UniformState.setFrameNumber (this : UniformState) (frameNumber : Option ℚ) :
    UniformState :=
  { this with _frameNumber := frameNumber }

/-! ## Lazy getters

Each `clean...` function returns the state it leaves behind; each getter
returns the cached value after cleaning, paired with that state.  The getters
of primary fields (`getModel`, `getView`, `getProjection`, ...) return a stored
field and change nothing; they are the field projections. -/

/-- The function `cleanViewport(uniformState)`. -/
def cleanViewport (uniformState : UniformState) : UniformState :=
  if uniformState._viewportDirty then
    let v := uniformState._viewport
    { uniformState with
      _viewportOrthographicMatrix :=
        Matrix4.computeOrthographicOffCenter v.x (v.x + v.width) v.y (v.y + v.height) 0 1
      _viewportTransformation := Matrix4.computeViewportTransformation v 0 1
      _viewportDirty := false }
  else uniformState

/-- The method `getViewportOrthographic()`. -/
def UniformState.getViewportOrthographic (this : UniformState) : Matrix4 × UniformState :=
  let s := cleanViewport this
  (s._viewportOrthographicMatrix, s)

/-- The method `getViewportTransformation()`. -/
def UniformState.getViewportTransformation (this : UniformState) : Matrix4 × UniformState :=
  let s := cleanViewport this
  (s._viewportTransformation, s)

/-- The method `getInverseModel()`. -/
def UniformState.getInverseModel (this : UniformState) : Matrix4 × UniformState :=
  let s :=
    if this._inverseModelDirty then
      { this with _inverseModelDirty := false, _inverseModel := this._model.inverse }
    else this
  (s._inverseModel, s)

/-- The function `cleanInverseProjection(uniformState)`. -/
def cleanInverseProjection (uniformState : UniformState) : UniformState :=
  if uniformState._inverseProjectionDirty then
    { uniformState with
      _inverseProjectionDirty := false
      _inverseProjection := uniformState._projection.inverse }
  else uniformState

/-- The method `getInverseProjection()`. -/
def UniformState.getInverseProjection (this : UniformState) : Matrix4 × UniformState :=
  let s := cleanInverseProjection this
  (s._inverseProjection, s)

/-- The function `cleanModelView(uniformState)`. -/
def cleanModelView (uniformState : UniformState) : UniformState :=
  if uniformState._modelViewDirty then
    { uniformState with
      _modelViewDirty := false
      _modelView := Matrix4.multiply uniformState._view uniformState._model }
  else uniformState

/-- The method `getModelView()`. -/
def UniformState.getModelView (this : UniformState) : Matrix4 × UniformState :=
  let s := cleanModelView this
  (s._modelView, s)

/-- The function `cleanModelViewRelativeToEye(uniformState)`: the flag is
cleared, the model-view matrix is read through its getter, and its entries are
copied with entries 12, 13 and 14 replaced by zero. -/
def cleanModelViewRelativeToEye (uniformState : UniformState) : UniformState :=
  if uniformState._modelViewRelativeToEyeDirty then
    let s1 := { uniformState with _modelViewRelativeToEyeDirty := false }
    let (mv, s2) := s1.getModelView
    { s2 with
      _modelViewRelativeToEye :=
        ⟨mv.m0, mv.m1, mv.m2, mv.m3, mv.m4, mv.m5, mv.m6, mv.m7,
         mv.m8, mv.m9, mv.m10, mv.m11, 0, 0, 0, mv.m15⟩ }
  else uniformState

/-- The method `getModelViewRelativeToEye()`. -/
def UniformState.getModelViewRelativeToEye (this : UniformState) : Matrix4 × UniformState :=
  let s := cleanModelViewRelativeToEye this
  (s._modelViewRelativeToEye, s)

/-- The function `cleanInverseModelView(uniformState)`. -/
def cleanInverseModelView (uniformState : UniformState) : UniformState :=
  if uniformState._inverseModelViewDirty then
    let s1 := { uniformState with _inverseModelViewDirty := false }
    let (mv, s2) := s1.getModelView
    { s2 with _inverseModelView := mv.inverse }
  else uniformState

/-- The method `getInverseModelView()`. -/
def UniformState.getInverseModelView (this : UniformState) : Matrix4 × UniformState :=
  let s := cleanInverseModelView this
  (s._inverseModelView, s)

/-- The function `cleanViewProjection(uniformState)`. -/
def cleanViewProjection (uniformState : UniformState) : UniformState :=
  if uniformState._viewProjectionDirty then
    { uniformState with
      _viewProjectionDirty := false
      _viewProjection := Matrix4.multiply uniformState._projection uniformState._view }
  else uniformState

/-- The method `getViewProjection()`. -/
def UniformState.getViewProjection (this : UniformState) : Matrix4 × UniformState :=
  let s := cleanViewProjection this
  (s._viewProjection, s)

/-- The function `cleanInverseViewProjection(uniformState)`; it tests
`_inverseViewProjectionDirty`. -/
def cleanInverseViewProjection (uniformState : UniformState) : UniformState :=
  if uniformState._inverseViewProjectionDirty then
    let s1 := { uniformState with _inverseViewProjectionDirty := false }
    let (vp, s2) := s1.getViewProjection
    { s2 with _inverseViewProjection := vp.inverse }
  else uniformState

/-- The method `getInverseViewProjection()`. -/
def UniformState.getInverseViewProjection (this : UniformState) : Matrix4 × UniformState :=
  let s := cleanInverseViewProjection this
  (s._inverseViewProjection, s)

/-- The function `cleanModelViewProjection(uniformState)`. -/
def cleanModelViewProjection (uniformState : UniformState) : UniformState :=
  if uniformState._modelViewProjectionDirty then
    let s1 := { uniformState with _modelViewProjectionDirty := false }
    let (mv, s2) := s1.getModelView
    { s2 with _modelViewProjection := Matrix4.multiply s2._projection mv }
  else uniformState

/-- The method `getModelViewProjection()`. -/
def UniformState.getModelViewProjection (this : UniformState) : Matrix4 × UniformState :=
  let s := cleanModelViewProjection this
  (s._modelViewProjection, s)

/-- The function `cleanInverseModelViewProjection(uniformState)`. -/
def cleanInverseModelViewProjection (uniformState : UniformState) : UniformState :=
  if uniformState._inverseModelViewProjectionDirty then
    let s1 := { uniformState with _inverseModelViewProjectionDirty := false }
    let (mvp, s2) := s1.getModelViewProjection
    { s2 with _inverseModelViewProjection := mvp.inverse }
  else uniformState

/-- The method `getInverseModelViewProjection()`. -/
def UniformState.getInverseModelViewProjection (this : UniformState) :
    Matrix4 × UniformState :=
  let s := cleanInverseModelViewProjection this
  (s._inverseModelViewProjection, s)

/-- The function `cleanModelViewProjectionRelativeToEye(uniformState)`. -/
def cleanModelViewProjectionRelativeToEye (uniformState : UniformState) : UniformState :=
  if uniformState._modelViewProjectionRelativeToEyeDirty then
    let s1 := { uniformState with _modelViewProjectionRelativeToEyeDirty := false }
    let (mvRte, s2) := s1.getModelViewRelativeToEye
    { s2 with _modelViewProjectionRelativeToEye := Matrix4.multiply s2._projection mvRte }
  else uniformState

/-- The method `getModelViewProjectionRelativeToEye()`. -/
def UniformState.getModelViewProjectionRelativeToEye (this : UniformState) :
    Matrix4 × UniformState :=
  let s := cleanModelViewProjectionRelativeToEye this
  (s._modelViewProjectionRelativeToEye, s)

/-- The function `cleanModelViewInfiniteProjection(uniformState)`. -/
def cleanModelViewInfiniteProjection (uniformState : UniformState) : UniformState :=
  if uniformState._modelViewInfiniteProjectionDirty then
    let s1 := { uniformState with _modelViewInfiniteProjectionDirty := false }
    let (mv, s2) := s1.getModelView
    { s2 with _modelViewInfiniteProjection := Matrix4.multiply s2._infiniteProjection mv }
  else uniformState

/-- The method `getModelViewInfiniteProjection()`. -/
def UniformState.getModelViewInfiniteProjection (this : UniformState) :
    Matrix4 × UniformState :=
  let s := cleanModelViewInfiniteProjection this
  (s._modelViewInfiniteProjection, s)

/-- The function `cleanNormal(uniformState)`; `normalScratch` is written before
it is read, so it is a local value. -/
def cleanNormal (uniformState : UniformState) : UniformState :=
  if uniformState._normalDirty then
    let s1 := { uniformState with _normalDirty := false }
    let (imv, s2) := s1.getInverseModelView
    let normalScratch := imv.transpose
    { s2 with _normal := normalScratch.getRotation }
  else uniformState

/-- The method `getNormal()`. -/
def UniformState.getNormal (this : UniformState) : Matrix3 × UniformState :=
  let s := cleanNormal this
  (s._normal, s)

/-- The function `cleanInverseNormal(uniformState)`. -/
def cleanInverseNormal (uniformState : UniformState) : UniformState :=
  if uniformState._inverseNormalDirty then
    let s1 := { uniformState with _inverseNormalDirty := false }
    let (imv, s2) := s1.getInverseModelView
    { s2 with _inverseNormal := imv.getRotation }
  else uniformState

/-- The method `getInverseNormal()`. -/
def UniformState.getInverseNormal (this : UniformState) : Matrix3 × UniformState :=
  let s := cleanInverseNormal this
  (s._inverseNormal, s)

/-- The function `cleanSunDirectionEC(uniformState)`; `getViewRotation()`
returns the stored `_viewRotation`. -/
def cleanSunDirectionEC (core : CoreNumerics) (uniformState : UniformState) : UniformState :=
  if uniformState._sunDirectionECDirty then
    let sunPositionScratch :=
      uniformState._viewRotation.multiplyByVector uniformState._sunPosition
    { uniformState with
      _sunDirectionECDirty := false
      _sunDirectionEC := core.normalize sunPositionScratch }
  else uniformState

/-- The method `getSunDirectionEC()`. -/
def UniformState.getSunDirectionEC (core : CoreNumerics) (this : UniformState) :
    Cartesian3 × UniformState :=
  let s := cleanSunDirectionEC core this
  (s._sunDirectionEC, s)

/-- The function `cleanSunDirectionWC(uniformState)`. -/
def cleanSunDirectionWC (core : CoreNumerics) (uniformState : UniformState) : UniformState :=
  if uniformState._sunDirectionWCDirty then
    { uniformState with
      _sunDirectionWCDirty := false
      _sunDirectionWC := core.normalize uniformState._sunPosition }
  else uniformState

/-- The method `getSunDirectionWC()`. -/
def UniformState.getSunDirectionWC (core : CoreNumerics) (this : UniformState) :
    Cartesian3 × UniformState :=
  let s := cleanSunDirectionWC core this
  (s._sunDirectionWC, s)

/-- The function `cleanEncodedCameraPositionMC(uniformState)`. -/
def cleanEncodedCameraPositionMC (core : CoreNumerics) (uniformState : UniformState) :
    UniformState :=
  if uniformState._encodedCameraPositionMCDirty then
    let s1 := { uniformState with _encodedCameraPositionMCDirty := false }
    let (inverseModel, s2) := s1.getInverseModel
    let cameraPositionMC := inverseModel.multiplyByPoint s2._cameraPosition
    { s2 with _encodedCameraPositionMC := core.fromCartesian cameraPositionMC }
  else uniformState

/-- The method `getEncodedCameraPositionMCHigh()`. -/
def UniformState.getEncodedCameraPositionMCHigh (core : CoreNumerics) (this : UniformState) :
    Cartesian3 × UniformState :=
  let s := cleanEncodedCameraPositionMC core this
  (s._encodedCameraPositionMC.high, s)

/-- The method `getEncodedCameraPositionMCLow()`. -/
def UniformState.getEncodedCameraPositionMCLow (core : CoreNumerics) (this : UniformState) :
    Cartesian3 × UniformState :=
  let s := cleanEncodedCameraPositionMC core this
  (s._encodedCameraPositionMC.low, s)

/-! ## Getters of stored fields

These methods return a stored field and leave the object as it is. -/

/-- The method `getViewport()`. -/
def UniformState.getViewport (this : UniformState) : BoundingRectangle :=
  this._viewport

/-- The method `getModel()`. -/
def UniformState.getModel (this : UniformState) : Matrix4 :=
  this._model

/-- The method `getView()`. -/
def UniformState.getView (this : UniformState) : Matrix4 :=
  this._view

/-- The method `getViewRotation()`. -/
def UniformState.getViewRotation (this : UniformState) : Matrix3 :=
  this._viewRotation

/-- The method `getInverseView()`. -/
def UniformState.getInverseView (this : UniformState) : Matrix4 :=
  this._inverseView

/-- The method `getInverseViewRotation()`. -/
def UniformState.getInverseViewRotation (this : UniformState) : Matrix3 :=
  this._inverseViewRotation

/-- The method `getProjection()`. -/
def UniformState.getProjection (this : UniformState) : Matrix4 :=
  this._projection

/-- The method `getInfiniteProjection()`. -/
def UniformState.getInfiniteProjection (this : UniformState) : Matrix4 :=
  this._infiniteProjection

/-- The method `getSunPosition()`. -/
def UniformState.getSunPosition (this : UniformState) : Cartesian3 :=
  this._sunPosition

/-- The method `getFrameNumber()`. -/
def UniformState.getFrameNumber (this : UniformState) : Option ℚ :=
  this._frameNumber

/-! ## Call sequences -/

/-- The getters that can change the state (those that clean a cache entry). -/
inductive Getter where
  | viewportOrthographic
  | viewportTransformation
  | inverseModel
  | inverseProjection
  | modelView
  | modelViewRelativeToEye
  | inverseModelView
  | viewProjection
  | inverseViewProjection
  | modelViewProjection
  | inverseModelViewProjection
  | modelViewProjectionRelativeToEye
  | modelViewInfiniteProjection
  | normal
  | inverseNormal
  | sunDirectionEC
  | sunDirectionWC
  | encodedCameraPositionMCHigh
  | encodedCameraPositionMCLow
deriving DecidableEq

/-- State after a getter read. -/
def UniformState.read (core : CoreNumerics) (this : UniformState) : Getter → UniformState
  | .viewportOrthographic => this.getViewportOrthographic.2
  | .viewportTransformation => this.getViewportTransformation.2
  | .inverseModel => this.getInverseModel.2
  | .inverseProjection => this.getInverseProjection.2
  | .modelView => this.getModelView.2
  | .modelViewRelativeToEye => this.getModelViewRelativeToEye.2
  | .inverseModelView => this.getInverseModelView.2
  | .viewProjection => this.getViewProjection.2
  | .inverseViewProjection => this.getInverseViewProjection.2
  | .modelViewProjection => this.getModelViewProjection.2
  | .inverseModelViewProjection => this.getInverseModelViewProjection.2
  | .modelViewProjectionRelativeToEye => this.getModelViewProjectionRelativeToEye.2
  | .modelViewInfiniteProjection => this.getModelViewInfiniteProjection.2
  | .normal => this.getNormal.2
  | .inverseNormal => this.getInverseNormal.2
  | .sunDirectionEC => (this.getSunDirectionEC core).2
  | .sunDirectionWC => (this.getSunDirectionWC core).2
  | .encodedCameraPositionMCHigh => (this.getEncodedCameraPositionMCHigh core).2
  | .encodedCameraPositionMCLow => (this.getEncodedCameraPositionMCLow core).2

/-- One call of the public interface: a state-changing method or a getter
read. -/
inductive Call where
  | update (camera : Camera)
  | updateFrustum (frustum : Frustum)
  | setViewport (viewport : BoundingRectangle)
  | setModel (matrix : Matrix4)
  | setProjection (matrix : Option Matrix4)
  | setSunPosition (sunPosition : Option Cartesian3)
  | setFrameNumber (frameNumber : Option ℚ)
  | read (getter : Getter)

/-- State after one call; a call that throws leaves the object as it was. -/
def UniformState.call (core : CoreNumerics) (this : UniformState) : Call → UniformState
  | .update camera => this.update camera
  | .updateFrustum frustum => this.updateFrustum frustum
  | .setViewport viewport => this.setViewport viewport
  | .setModel matrix => this.setModel matrix
  | .setProjection matrix => this.setProjection matrix
  | .setSunPosition sunPosition =>
    match this.setSunPosition sunPosition with
    | .ok s => s
    | .error _ => this
  | .setFrameNumber frameNumber => this.setFrameNumber frameNumber
  | .read getter => this.read core getter

/-- State after a sequence of calls, first call first. -/
def UniformState.run (core : CoreNumerics) (this : UniformState) (calls : List Call) :
    UniformState :=
  calls.foldl (UniformState.call core) this

/-- States that a sequence of calls reaches from a newly constructed object. -/
def Reachable (core : CoreNumerics) (s : UniformState) : Prop :=
  ∃ calls : List Call, UniformState.new.run core calls = s

/-! ## Formulas of the derived values

Second definitions, written from the description of each derived value as a
function of the primary fields alone. -/

/-- Formula `modelView = view * model`. -/
def Formula.modelView (s : UniformState) : Matrix4 :=
  Matrix4.multiply s._view s._model

/-- A matrix with its translation entries (column 3, rows 0 to 2: entries 12,
13 and 14) forced to zero. -/
def Matrix4.zeroTranslation (m : Matrix4) : Matrix4 :=
  { m with m12 := 0, m13 := 0, m14 := 0 }

/-- Formula `modelViewRelativeToEye`: `modelView` with zero translation. -/
def Formula.modelViewRelativeToEye (s : UniformState) : Matrix4 :=
  (Formula.modelView s).zeroTranslation

/-- Formula `inverseModel`: matrix inverse of `model`. -/
def Formula.inverseModel (s : UniformState) : Matrix4 :=
  s._model.inverse

/-- Formula `inverseModelView`: matrix inverse of `modelView`. -/
def Formula.inverseModelView (s : UniformState) : Matrix4 :=
  (Formula.modelView s).inverse

/-- Formula `inverseProjection`: matrix inverse of `projection`. -/
def Formula.inverseProjection (s : UniformState) : Matrix4 :=
  s._projection.inverse

/-- Formula `viewProjection = projection * view`. -/
def Formula.viewProjection (s : UniformState) : Matrix4 :=
  Matrix4.multiply s._projection s._view

/-- Formula `inverseViewProjection`: matrix inverse of `viewProjection`. -/
def Formula.inverseViewProjection (s : UniformState) : Matrix4 :=
  (Formula.viewProjection s).inverse

/-- Formula `modelViewProjection = projection * modelView`. -/
def Formula.modelViewProjection (s : UniformState) : Matrix4 :=
  Matrix4.multiply s._projection (Formula.modelView s)

/-- Formula `inverseModelViewProjection`: matrix inverse of
`modelViewProjection`. -/
def Formula.inverseModelViewProjection (s : UniformState) : Matrix4 :=
  (Formula.modelViewProjection s).inverse

/-- Formula `modelViewProjectionRelativeToEye = projection *
modelViewRelativeToEye`. -/
def Formula.modelViewProjectionRelativeToEye (s : UniformState) : Matrix4 :=
  Matrix4.multiply s._projection (Formula.modelViewRelativeToEye s)

/-- Formula `modelViewInfiniteProjection = infiniteProjection * modelView`. -/
def Formula.modelViewInfiniteProjection (s : UniformState) : Matrix4 :=
  Matrix4.multiply s._infiniteProjection (Formula.modelView s)

/-- Formula `normal`: rotation of the transpose of `inverseModelView`. -/
def Formula.normal (s : UniformState) : Matrix3 :=
  (Formula.inverseModelView s).transpose.getRotation

/-- Formula `inverseNormal`: rotation of `inverseModelView`. -/
def Formula.inverseNormal (s : UniformState) : Matrix3 :=
  (Formula.inverseModelView s).getRotation

/-- Formula `sunDirectionWC`: the normalized sun position. -/
def Formula.sunDirectionWC (core : CoreNumerics) (s : UniformState) : Cartesian3 :=
  core.normalize s._sunPosition

/-- Formula `encodedCameraPosition`: the encoding of the camera position
transformed as a point by `inverseModel`. -/
def Formula.encodedCameraPosition (core : CoreNumerics) (s : UniformState) :
    EncodedCartesian3 :=
  core.fromCartesian ((Formula.inverseModel s).multiplyByPoint s._cameraPosition)

/-- Cache entries whose clear flag guarantees a value in agreement with the
primary fields.  The entries `inverseViewProjection`,
`inverseModelViewProjection` and `modelViewProjectionRelativeToEye` are not
listed: their flags can be clear over a stale value. -/
structure Coherent (core : CoreNumerics) (s : UniformState) : Prop where
  inverseModel : s._inverseModelDirty = false → s._inverseModel = Formula.inverseModel s
  inverseProjection :
    s._inverseProjectionDirty = false → s._inverseProjection = Formula.inverseProjection s
  modelView : s._modelViewDirty = false → s._modelView = Formula.modelView s
  modelViewRelativeToEye :
    s._modelViewRelativeToEyeDirty = false →
      s._modelViewRelativeToEye = Formula.modelViewRelativeToEye s
  inverseModelView :
    s._inverseModelViewDirty = false → s._inverseModelView = Formula.inverseModelView s
  viewProjection :
    s._viewProjectionDirty = false → s._viewProjection = Formula.viewProjection s
  modelViewProjection :
    s._modelViewProjectionDirty = false →
      s._modelViewProjection = Formula.modelViewProjection s
  modelViewInfiniteProjection :
    s._modelViewInfiniteProjectionDirty = false →
      s._modelViewInfiniteProjection = Formula.modelViewInfiniteProjection s
  normal : s._normalDirty = false → s._normal = Formula.normal s
  inverseNormal : s._inverseNormalDirty = false → s._inverseNormal = Formula.inverseNormal s
  sunDirectionEC :
    s._sunDirectionECDirty = false →
      s._sunDirectionEC = core.normalize (s._viewRotation.multiplyByVector s._sunPosition)
  sunDirectionWC :
    s._sunDirectionWCDirty = false → s._sunDirectionWC = Formula.sunDirectionWC core s
  encodedCameraPosition :
    s._encodedCameraPositionMCDirty = false →
      s._encodedCameraPositionMC = Formula.encodedCameraPosition core s

/-! ## Sample inputs -/

/-- Sample instance of the numeric parameters, for running the model on
concrete inputs.  Its `normalize` divides by the sum of the absolute values of
the components, which is the length of a vector along a coordinate axis (such
as the default sun position); its `fromCartesian` splits each component at the
multiples of 65536. -/
def CoreNumerics.sample : CoreNumerics where
  normalize v :=
    let n := |v.x| + |v.y| + |v.z|
    ⟨v.x / n, v.y / n, v.z / n⟩
  fromCartesian p :=
    let high (v : ℚ) : ℚ :=
      if 0 ≤ v then (⌊v / 65536⌋ : ℚ) * 65536 else -((⌊-v / 65536⌋ : ℚ) * 65536)
    ⟨⟨high p.x, high p.y, high p.z⟩, ⟨p.x - high p.x, p.y - high p.y, p.z - high p.z⟩⟩

/-- Translation matrix: the identity with the translation in entries 12, 13
and 14. -/
def Matrix4.fromTranslation (t : Cartesian3) : Matrix4 :=
  ⟨1, 0, 0, 0, 0, 1, 0, 0, 0, 0, 1, 0, t.x, t.y, t.z, 1⟩

/-- Scale matrix: the scale factors on the diagonal. -/
def Matrix4.fromScale (k : Cartesian3) : Matrix4 :=
  ⟨k.x, 0, 0, 0, 0, k.y, 0, 0, 0, 0, k.z, 0, 0, 0, 0, 1⟩

/-- Sample projection matrix: scaling by two along each axis. -/
def sampleProjection : Matrix4 :=
  Matrix4.fromScale ⟨2, 2, 2⟩

/-- Sample frustum with the sample projection and no infinite projection. -/
def sampleFrustum : Frustum :=
  ⟨sampleProjection, none⟩

/-- Sample camera at the world position `(10, 0, 0)`, looking along the world
axes, with the sample frustum. -/
def sampleCamera : Camera where
  viewMatrix := Matrix4.fromTranslation ⟨-10, 0, 0⟩
  inverseViewMatrix := Matrix4.fromTranslation ⟨10, 0, 0⟩
  positionWC := ⟨10, 0, 0⟩
  frustum := sampleFrustum

/-- State after `new UniformState()`, a read of `getInverseViewProjection()`
and then `update(sampleCamera)`. -/
def stateReadThenUpdate : UniformState :=
  UniformState.new.run CoreNumerics.sample
    [.read .inverseViewProjection, .update sampleCamera]

/-- State after `new UniformState()`, a read of `getInverseViewProjection()`
and then `setProjection(sampleProjection)`. -/
def stateReadThenSetProjection : UniformState :=
  UniformState.new.run CoreNumerics.sample
    [.read .inverseViewProjection, .setProjection (some sampleProjection)]

/-- State after `new UniformState()` and one read of each of
`getInverseViewProjection()`, `getInverseModelViewProjection()` and
`getModelViewProjectionRelativeToEye()`. -/
def stateAllRead : UniformState :=
  UniformState.new.run CoreNumerics.sample
    [.read .inverseViewProjection, .read .inverseModelViewProjection,
     .read .modelViewProjectionRelativeToEye]

/-- State after `new UniformState()`, a read of
`getInverseModelViewProjection()` and then `updateFrustum(sampleFrustum)`. -/
def stateReadThenUpdateFrustum : UniformState :=
  UniformState.new.run CoreNumerics.sample
    [.read .inverseModelViewProjection, .updateFrustum sampleFrustum]

/-- State after `new UniformState()`, a read of
`getModelViewProjectionRelativeToEye()` and then
`setProjection(sampleProjection)`. -/
def stateReadRelativeToEyeThenSetProjection : UniformState :=
  UniformState.new.run CoreNumerics.sample
    [.read .modelViewProjectionRelativeToEye, .setProjection (some sampleProjection)]

/-- State after `new UniformState()` and `setModel` of the translation by
`(10, 0, 0)`. -/
def stateModelTranslated : UniformState :=
  UniformState.new.run CoreNumerics.sample
    [.setModel (Matrix4.fromTranslation ⟨10, 0, 0⟩)]

/-! ## Getter results and setter outcomes -/

/-- Value returned by a derived getter. -/
inductive Value where
  | matrix4 (m : Matrix4)
  | matrix3 (m : Matrix3)
  | cartesian3 (v : Cartesian3)
deriving DecidableEq

/-- Result of a getter read: the returned value and the state after the
read. -/
def UniformState.get (core : CoreNumerics) (this : UniformState) :
    Getter → Value × UniformState
  | .viewportOrthographic =>
    (.matrix4 this.getViewportOrthographic.1, this.getViewportOrthographic.2)
  | .viewportTransformation =>
    (.matrix4 this.getViewportTransformation.1, this.getViewportTransformation.2)
  | .inverseModel => (.matrix4 this.getInverseModel.1, this.getInverseModel.2)
  | .inverseProjection => (.matrix4 this.getInverseProjection.1, this.getInverseProjection.2)
  | .modelView => (.matrix4 this.getModelView.1, this.getModelView.2)
  | .modelViewRelativeToEye =>
    (.matrix4 this.getModelViewRelativeToEye.1, this.getModelViewRelativeToEye.2)
  | .inverseModelView => (.matrix4 this.getInverseModelView.1, this.getInverseModelView.2)
  | .viewProjection => (.matrix4 this.getViewProjection.1, this.getViewProjection.2)
  | .inverseViewProjection =>
    (.matrix4 this.getInverseViewProjection.1, this.getInverseViewProjection.2)
  | .modelViewProjection =>
    (.matrix4 this.getModelViewProjection.1, this.getModelViewProjection.2)
  | .inverseModelViewProjection =>
    (.matrix4 this.getInverseModelViewProjection.1, this.getInverseModelViewProjection.2)
  | .modelViewProjectionRelativeToEye =>
    (.matrix4 this.getModelViewProjectionRelativeToEye.1,
      this.getModelViewProjectionRelativeToEye.2)
  | .modelViewInfiniteProjection =>
    (.matrix4 this.getModelViewInfiniteProjection.1, this.getModelViewInfiniteProjection.2)
  | .normal => (.matrix3 this.getNormal.1, this.getNormal.2)
  | .inverseNormal => (.matrix3 this.getInverseNormal.1, this.getInverseNormal.2)
  | .sunDirectionEC =>
    (.cartesian3 (this.getSunDirectionEC core).1, (this.getSunDirectionEC core).2)
  | .sunDirectionWC =>
    (.cartesian3 (this.getSunDirectionWC core).1, (this.getSunDirectionWC core).2)
  | .encodedCameraPositionMCHigh =>
    (.cartesian3 (this.getEncodedCameraPositionMCHigh core).1,
      (this.getEncodedCameraPositionMCHigh core).2)
  | .encodedCameraPositionMCLow =>
    (.cartesian3 (this.getEncodedCameraPositionMCLow core).1,
      (this.getEncodedCameraPositionMCLow core).2)

/-- Outcome of one call: the error thrown, or the state after the call.  Only
`setSunPosition` has a `throw` statement. -/
def UniformState.tryCall (core : CoreNumerics) (this : UniformState) :
    Call → Except DeveloperError UniformState
  | .update camera => .ok (this.update camera)
  | .updateFrustum frustum => .ok (this.updateFrustum frustum)
  | .setViewport viewport => .ok (this.setViewport viewport)
  | .setModel matrix => .ok (this.setModel matrix)
  | .setProjection matrix => .ok (this.setProjection matrix)
  | .setSunPosition sunPosition => this.setSunPosition sunPosition
  | .setFrameNumber frameNumber => .ok (this.setFrameNumber frameNumber)
  | .read getter => .ok (this.read core getter)

/-- Formula `viewportOrthographic`: the orthographic projection of the box
`[x, x + width] x [y, y + height] x [0, 1]` of the stored viewport. -/
def Formula.viewportOrthographic (s : UniformState) : Matrix4 :=
  Matrix4.computeOrthographicOffCenter s._viewport.x (s._viewport.x + s._viewport.width)
    s._viewport.y (s._viewport.y + s._viewport.height) 0 1

/-- Formula `viewportTransformation`: the viewport transformation of the stored
viewport with depth range `[0, 1]`. -/
def Formula.viewportTransformation (s : UniformState) : Matrix4 :=
  Matrix4.computeViewportTransformation s._viewport 0 1

/-- What a clear viewport flag guarantees: the two viewport matrices agree
with the stored viewport, or the viewport is still the rectangle of the
constructor and both matrices are the identity of the constructor. -/
def ViewportCoherent (s : UniformState) : Prop :=
  s._viewportDirty = false →
    (s._viewportOrthographicMatrix = Formula.viewportOrthographic s ∧
      s._viewportTransformation = Formula.viewportTransformation s) ∨
    (s._viewport = BoundingRectangle.ZERO ∧
      s._viewportOrthographicMatrix = Matrix4.IDENTITY ∧
      s._viewportTransformation = Matrix4.IDENTITY)

/-- State after `new UniformState()` and a read of `getViewProjection()`. -/
def stateViewProjectionRead : UniformState :=
  UniformState.new.run CoreNumerics.sample [.read .viewProjection]

/-- Sample viewport: the rectangle at the origin, 800 wide and 600 high. -/
def sampleViewport : BoundingRectangle :=
  ⟨0, 0, 800, 600⟩

/-- State after `new UniformState()` and `setViewport(sampleViewport)`. -/
def stateViewportSet : UniformState :=
  UniformState.new.run CoreNumerics.sample [.setViewport sampleViewport]

/-! ## Frames and further invariants -/

/-- Formula `sunDirectionEC`: the normalized image of the sun position under
the rotation (upper-left 3x3 block) of the view matrix. -/
def Formula.sunDirectionEC (core : CoreNumerics) (s : UniformState) : Cartesian3 :=
  core.normalize (s._view.getRotation.multiplyByVector s._sunPosition)

/-- The stored view rotation is the rotation of the stored view matrix. -/
def RotationSynced (s : UniformState) : Prop :=
  s._viewRotation = s._view.getRotation

/-- The nine primary fields of `t` are those of `s`. -/
structure SamePrimary (s t : UniformState) : Prop where
  viewport : t._viewport = s._viewport
  model : t._model = s._model
  view : t._view = s._view
  inverseView : t._inverseView = s._inverseView
  projection : t._projection = s._projection
  infiniteProjection : t._infiniteProjection = s._infiniteProjection
  sunPosition : t._sunPosition = s._sunPosition
  cameraPosition : t._cameraPosition = s._cameraPosition
  frameNumber : t._frameNumber = s._frameNumber

/-- The two unflagged rotation matrices of `t` are those of `s`. -/
structure SameRotations (s t : UniformState) : Prop where
  viewRotation : t._viewRotation = s._viewRotation
  inverseViewRotation : t._inverseViewRotation = s._inverseViewRotation

/-- The stored values of the flagged cache entries of `t`, the two viewport
matrices included, are those of `s`. -/
structure SameCached (s t : UniformState) : Prop where
  viewportOrthographicMatrix : t._viewportOrthographicMatrix = s._viewportOrthographicMatrix
  viewportTransformation : t._viewportTransformation = s._viewportTransformation
  inverseModel : t._inverseModel = s._inverseModel
  inverseProjection : t._inverseProjection = s._inverseProjection
  modelView : t._modelView = s._modelView
  modelViewRelativeToEye : t._modelViewRelativeToEye = s._modelViewRelativeToEye
  inverseModelView : t._inverseModelView = s._inverseModelView
  viewProjection : t._viewProjection = s._viewProjection
  inverseViewProjection : t._inverseViewProjection = s._inverseViewProjection
  modelViewProjection : t._modelViewProjection = s._modelViewProjection
  inverseModelViewProjection : t._inverseModelViewProjection = s._inverseModelViewProjection
  modelViewProjectionRelativeToEye : t._modelViewProjectionRelativeToEye = s._modelViewProjectionRelativeToEye
  modelViewInfiniteProjection : t._modelViewInfiniteProjection = s._modelViewInfiniteProjection
  normal : t._normal = s._normal
  inverseNormal : t._inverseNormal = s._inverseNormal
  encodedCameraPositionMC : t._encodedCameraPositionMC = s._encodedCameraPositionMC
  sunDirectionEC : t._sunDirectionEC = s._sunDirectionEC
  sunDirectionWC : t._sunDirectionWC = s._sunDirectionWC

/-- No dirty flag is set in `t` that was clear in `s`. -/
structure NoFlagRaised (s t : UniformState) : Prop where
  viewportDirty : t._viewportDirty = true → s._viewportDirty = true
  inverseModelDirty : t._inverseModelDirty = true → s._inverseModelDirty = true
  inverseProjectionDirty : t._inverseProjectionDirty = true → s._inverseProjectionDirty = true
  modelViewDirty : t._modelViewDirty = true → s._modelViewDirty = true
  modelViewRelativeToEyeDirty : t._modelViewRelativeToEyeDirty = true → s._modelViewRelativeToEyeDirty = true
  inverseModelViewDirty : t._inverseModelViewDirty = true → s._inverseModelViewDirty = true
  viewProjectionDirty : t._viewProjectionDirty = true → s._viewProjectionDirty = true
  inverseViewProjectionDirty : t._inverseViewProjectionDirty = true → s._inverseViewProjectionDirty = true
  modelViewProjectionDirty : t._modelViewProjectionDirty = true → s._modelViewProjectionDirty = true
  inverseModelViewProjectionDirty : t._inverseModelViewProjectionDirty = true → s._inverseModelViewProjectionDirty = true
  modelViewProjectionRelativeToEyeDirty : t._modelViewProjectionRelativeToEyeDirty = true → s._modelViewProjectionRelativeToEyeDirty = true
  modelViewInfiniteProjectionDirty : t._modelViewInfiniteProjectionDirty = true → s._modelViewInfiniteProjectionDirty = true
  normalDirty : t._normalDirty = true → s._normalDirty = true
  inverseNormalDirty : t._inverseNormalDirty = true → s._inverseNormalDirty = true
  encodedCameraPositionMCDirty : t._encodedCameraPositionMCDirty = true → s._encodedCameraPositionMCDirty = true
  sunDirectionECDirty : t._sunDirectionECDirty = true → s._sunDirectionECDirty = true
  sunDirectionWCDirty : t._sunDirectionWCDirty = true → s._sunDirectionWCDirty = true

/-- The dirty flag that guards the cache entry of a getter. -/
def Getter.flag : Getter → UniformState → Bool
  | .viewportOrthographic => fun s => s._viewportDirty
  | .viewportTransformation => fun s => s._viewportDirty
  | .inverseModel => fun s => s._inverseModelDirty
  | .inverseProjection => fun s => s._inverseProjectionDirty
  | .modelView => fun s => s._modelViewDirty
  | .modelViewRelativeToEye => fun s => s._modelViewRelativeToEyeDirty
  | .inverseModelView => fun s => s._inverseModelViewDirty
  | .viewProjection => fun s => s._viewProjectionDirty
  | .inverseViewProjection => fun s => s._inverseViewProjectionDirty
  | .modelViewProjection => fun s => s._modelViewProjectionDirty
  | .inverseModelViewProjection => fun s => s._inverseModelViewProjectionDirty
  | .modelViewProjectionRelativeToEye => fun s => s._modelViewProjectionRelativeToEyeDirty
  | .modelViewInfiniteProjection => fun s => s._modelViewInfiniteProjectionDirty
  | .normal => fun s => s._normalDirty
  | .inverseNormal => fun s => s._inverseNormalDirty
  | .sunDirectionEC => fun s => s._sunDirectionECDirty
  | .sunDirectionWC => fun s => s._sunDirectionWCDirty
  | .encodedCameraPositionMCHigh => fun s => s._encodedCameraPositionMCDirty
  | .encodedCameraPositionMCLow => fun s => s._encodedCameraPositionMCDirty

/-- Modelled from the spec: `Matrix3.IDENTITY` of `Core/Matrix3.js` (not under
src/), the 3x3 identity matrix. -/
def Matrix3.IDENTITY : Matrix3 :=
  ⟨1, 0, 0, 0, 1, 0, 0, 0, 1⟩

/-- Sample camera at the origin, turned a quarter turn about the z axis, with
the sample frustum. -/
def sampleTurnedCamera : Camera where
  viewMatrix := ⟨0, 1, 0, 0, -1, 0, 0, 0, 0, 0, 1, 0, 0, 0, 0, 1⟩
  inverseViewMatrix := ⟨0, -1, 0, 0, 1, 0, 0, 0, 0, 0, 1, 0, 0, 0, 0, 1⟩
  positionWC := ⟨0, 0, 0⟩
  frustum := sampleFrustum

/-- State after `new UniformState()` and `update(sampleCamera)`. -/
def stateUpdated : UniformState :=
  UniformState.new.run CoreNumerics.sample [.update sampleCamera]

/-- Each getter of the transform family returns the value of its formula in
the state `t`. -/
structure FamilyFresh (t : UniformState) : Prop where
  inverseModel : t.getInverseModel.1 = Formula.inverseModel t
  modelView : t.getModelView.1 = Formula.modelView t
  modelViewRelativeToEye : t.getModelViewRelativeToEye.1 = Formula.modelViewRelativeToEye t
  inverseModelView : t.getInverseModelView.1 = Formula.inverseModelView t
  inverseProjection : t.getInverseProjection.1 = Formula.inverseProjection t
  viewProjection : t.getViewProjection.1 = Formula.viewProjection t
  inverseViewProjection : t.getInverseViewProjection.1 = Formula.inverseViewProjection t
  modelViewProjection : t.getModelViewProjection.1 = Formula.modelViewProjection t
  inverseModelViewProjection :
    t.getInverseModelViewProjection.1 = Formula.inverseModelViewProjection t
  modelViewProjectionRelativeToEye :
    t.getModelViewProjectionRelativeToEye.1 = Formula.modelViewProjectionRelativeToEye t
  modelViewInfiniteProjection :
    t.getModelViewInfiniteProjection.1 = Formula.modelViewInfiniteProjection t
  normal : t.getNormal.1 = Formula.normal t
  inverseNormal : t.getInverseNormal.1 = Formula.inverseNormal t

/-- Modelled from the spec: `Cartesian3.add` of `Core/Cartesian3.js` (not under
src/), the componentwise sum. -/
def Cartesian3.add (left right : Cartesian3) : Cartesian3 :=
  ⟨left.x + right.x, left.y + right.y, left.z + right.z⟩

/-- Modelled from the spec: the precision-split codec
`EncodedCartesian3.fromCartesian` of `Core/EncodedCartesian3.js` (not under
src/).  For each component, `high` is the value rounded to a value
representable in the lower precision and `low` is the component minus `high`.
The rounding to the lower precision is the parameter `round`. -/
def EncodedCartesian3.encode (round : ℚ → ℚ) (position : Cartesian3) : EncodedCartesian3 :=
  ⟨⟨round position.x, round position.y, round position.z⟩,
   ⟨position.x - round position.x, position.y - round position.y,
    position.z - round position.z⟩⟩

/-- The rounding of the sample `fromCartesian`: towards zero to a multiple of
65536. -/
def sampleRound (v : ℚ) : ℚ :=
  if 0 ≤ v then (⌊v / 65536⌋ : ℚ) * 65536 else -((⌊-v / 65536⌋ : ℚ) * 65536)

/-- Camera position in model coordinates: the stored camera position
transformed as a point by the inverse of the stored model matrix. -/
def Formula.cameraPositionMC (s : UniformState) : Cartesian3 :=
  s._model.inverse.multiplyByPoint s._cameraPosition

/-! ## The matrix model -/

theorem Matrix4.multiply_identity_left (m : Matrix4) :
    Matrix4.multiply Matrix4.IDENTITY m = m := by
  ext <;> simp [Matrix4.multiply, Matrix4.IDENTITY]

theorem Matrix4.multiply_identity_right (m : Matrix4) :
    Matrix4.multiply m Matrix4.IDENTITY = m := by
  ext <;> simp [Matrix4.multiply, Matrix4.IDENTITY]

theorem Matrix4.multiply_adjugate (m : Matrix4) :
    Matrix4.multiply m m.adjugate = Matrix4.IDENTITY.multiplyByScalar m.determinant := by
  obtain ⟨a0, a1, a2, a3, a4, a5, a6, a7, a8, a9, a10, a11, a12, a13, a14, a15⟩ := m
  ext <;> simp only [Matrix4.multiply, Matrix4.IDENTITY, Matrix4.multiplyByScalar,
    Matrix4.determinant, Matrix4.adjugate] <;> ring

theorem Matrix4.multiply_multiplyByScalar (a b : Matrix4) (k : ℚ) :
    Matrix4.multiply a (b.multiplyByScalar k) = (Matrix4.multiply a b).multiplyByScalar k := by
  ext <;> simp only [Matrix4.multiply, Matrix4.multiplyByScalar] <;> ring

/-- The modelled `Matrix4.inverse` is a right inverse of every matrix with a
nonzero determinant. -/
theorem Matrix4.multiply_inverse (m : Matrix4) (h : m.determinant ≠ 0) :
    Matrix4.multiply m m.inverse = Matrix4.IDENTITY := by
  rw [Matrix4.inverse, Matrix4.multiply_multiplyByScalar, Matrix4.multiply_adjugate]
  ext <;> simp [Matrix4.multiplyByScalar, Matrix4.IDENTITY, h]

theorem Matrix4.inverse_identity : Matrix4.IDENTITY.inverse = Matrix4.IDENTITY := by
  ext <;> simp [Matrix4.inverse, Matrix4.multiplyByScalar, Matrix4.determinant,
    Matrix4.adjugate, Matrix4.IDENTITY]

/-! ## Preservation of coherence -/

theorem coherent_new (core : CoreNumerics) : Coherent core UniformState.new := by
  constructor <;> intro h <;> simp [UniformState.new] at h

theorem coherent_cleanViewport (core : CoreNumerics) (s : UniformState)
    (h : Coherent core s) : Coherent core (cleanViewport s) := by
  obtain ⟨h1, h2, h3, h4, h5, h6, h7, h8, h9, h10, h11, h12, h13⟩ := h
  unfold cleanViewport
  by_cases hd : s._viewportDirty = true
  · rw [if_pos hd]
    (constructor <;>
        first
        | assumption
        | (intro _; rfl)
        | (intro hc; exact Bool.noConfusion hc)
        | (intro _; simp_all [Formula.inverseModel, Formula.inverseProjection, Formula.modelView,
      Formula.modelViewRelativeToEye, Formula.inverseModelView, Formula.viewProjection,
      Formula.modelViewProjection, Formula.modelViewInfiniteProjection, Formula.normal,
      Formula.inverseNormal, Formula.sunDirectionWC, Formula.encodedCameraPosition,
      Matrix4.zeroTranslation]))
  · rw [if_neg hd]
    exact ⟨h1, h2, h3, h4, h5, h6, h7, h8, h9, h10, h11, h12, h13⟩

theorem coherent_cleanInverseProjection (core : CoreNumerics) (s : UniformState)
    (h : Coherent core s) : Coherent core (cleanInverseProjection s) := by
  obtain ⟨h1, h2, h3, h4, h5, h6, h7, h8, h9, h10, h11, h12, h13⟩ := h
  unfold cleanInverseProjection
  by_cases hd : s._inverseProjectionDirty = true
  · rw [if_pos hd]
    (constructor <;>
        first
        | assumption
        | (intro _; rfl)
        | (intro hc; exact Bool.noConfusion hc)
        | (intro _; simp_all [Formula.inverseModel, Formula.inverseProjection, Formula.modelView,
      Formula.modelViewRelativeToEye, Formula.inverseModelView, Formula.viewProjection,
      Formula.modelViewProjection, Formula.modelViewInfiniteProjection, Formula.normal,
      Formula.inverseNormal, Formula.sunDirectionWC, Formula.encodedCameraPosition,
      Matrix4.zeroTranslation]))
  · rw [if_neg hd]
    exact ⟨h1, h2, h3, h4, h5, h6, h7, h8, h9, h10, h11, h12, h13⟩

theorem coherent_cleanModelView (core : CoreNumerics) (s : UniformState)
    (h : Coherent core s) : Coherent core (cleanModelView s) := by
  obtain ⟨h1, h2, h3, h4, h5, h6, h7, h8, h9, h10, h11, h12, h13⟩ := h
  unfold cleanModelView
  by_cases hd : s._modelViewDirty = true
  · rw [if_pos hd]
    (constructor <;>
        first
        | assumption
        | (intro _; rfl)
        | (intro hc; exact Bool.noConfusion hc)
        | (intro _; simp_all [Formula.inverseModel, Formula.inverseProjection, Formula.modelView,
      Formula.modelViewRelativeToEye, Formula.inverseModelView, Formula.viewProjection,
      Formula.modelViewProjection, Formula.modelViewInfiniteProjection, Formula.normal,
      Formula.inverseNormal, Formula.sunDirectionWC, Formula.encodedCameraPosition,
      Matrix4.zeroTranslation]))
  · rw [if_neg hd]
    exact ⟨h1, h2, h3, h4, h5, h6, h7, h8, h9, h10, h11, h12, h13⟩

theorem coherent_cleanModelViewRelativeToEye (core : CoreNumerics) (s : UniformState)
    (h : Coherent core s) : Coherent core (cleanModelViewRelativeToEye s) := by
  obtain ⟨h1, h2, h3, h4, h5, h6, h7, h8, h9, h10, h11, h12, h13⟩ := h
  unfold cleanModelViewRelativeToEye
  by_cases hd : s._modelViewRelativeToEyeDirty = true
  · rw [if_pos hd]
    by_cases hn0 : s._modelViewDirty = true <;>
      simp only [UniformState.getModelView, cleanModelView, hn0, if_true, if_false,
        Bool.false_eq_true] <;>
      (constructor <;>
        first
        | assumption
        | (intro _; rfl)
        | (intro hc; exact Bool.noConfusion hc)
        | (intro _; simp_all [Formula.inverseModel, Formula.inverseProjection, Formula.modelView,
      Formula.modelViewRelativeToEye, Formula.inverseModelView, Formula.viewProjection,
      Formula.modelViewProjection, Formula.modelViewInfiniteProjection, Formula.normal,
      Formula.inverseNormal, Formula.sunDirectionWC, Formula.encodedCameraPosition,
      Matrix4.zeroTranslation]))
  · rw [if_neg hd]
    exact ⟨h1, h2, h3, h4, h5, h6, h7, h8, h9, h10, h11, h12, h13⟩

theorem coherent_cleanInverseModelView (core : CoreNumerics) (s : UniformState)
    (h : Coherent core s) : Coherent core (cleanInverseModelView s) := by
  obtain ⟨h1, h2, h3, h4, h5, h6, h7, h8, h9, h10, h11, h12, h13⟩ := h
  unfold cleanInverseModelView
  by_cases hd : s._inverseModelViewDirty = true
  · rw [if_pos hd]
    by_cases hn0 : s._modelViewDirty = true <;>
      simp only [UniformState.getModelView, cleanModelView, hn0, if_true, if_false,
        Bool.false_eq_true] <;>
      (constructor <;>
        first
        | assumption
        | (intro _; rfl)
        | (intro hc; exact Bool.noConfusion hc)
        | (intro _; simp_all [Formula.inverseModel, Formula.inverseProjection, Formula.modelView,
      Formula.modelViewRelativeToEye, Formula.inverseModelView, Formula.viewProjection,
      Formula.modelViewProjection, Formula.modelViewInfiniteProjection, Formula.normal,
      Formula.inverseNormal, Formula.sunDirectionWC, Formula.encodedCameraPosition,
      Matrix4.zeroTranslation]))
  · rw [if_neg hd]
    exact ⟨h1, h2, h3, h4, h5, h6, h7, h8, h9, h10, h11, h12, h13⟩

theorem coherent_cleanViewProjection (core : CoreNumerics) (s : UniformState)
    (h : Coherent core s) : Coherent core (cleanViewProjection s) := by
  obtain ⟨h1, h2, h3, h4, h5, h6, h7, h8, h9, h10, h11, h12, h13⟩ := h
  unfold cleanViewProjection
  by_cases hd : s._viewProjectionDirty = true
  · rw [if_pos hd]
    (constructor <;>
        first
        | assumption
        | (intro _; rfl)
        | (intro hc; exact Bool.noConfusion hc)
        | (intro _; simp_all [Formula.inverseModel, Formula.inverseProjection, Formula.modelView,
      Formula.modelViewRelativeToEye, Formula.inverseModelView, Formula.viewProjection,
      Formula.modelViewProjection, Formula.modelViewInfiniteProjection, Formula.normal,
      Formula.inverseNormal, Formula.sunDirectionWC, Formula.encodedCameraPosition,
      Matrix4.zeroTranslation]))
  · rw [if_neg hd]
    exact ⟨h1, h2, h3, h4, h5, h6, h7, h8, h9, h10, h11, h12, h13⟩

theorem coherent_cleanInverseViewProjection (core : CoreNumerics) (s : UniformState)
    (h : Coherent core s) : Coherent core (cleanInverseViewProjection s) := by
  obtain ⟨h1, h2, h3, h4, h5, h6, h7, h8, h9, h10, h11, h12, h13⟩ := h
  unfold cleanInverseViewProjection
  by_cases hd : s._inverseViewProjectionDirty = true
  · rw [if_pos hd]
    by_cases hn0 : s._viewProjectionDirty = true <;>
      simp only [UniformState.getViewProjection, cleanViewProjection, hn0, if_true, if_false,
        Bool.false_eq_true] <;>
      (constructor <;>
        first
        | assumption
        | (intro _; rfl)
        | (intro hc; exact Bool.noConfusion hc)
        | (intro _; simp_all [Formula.inverseModel, Formula.inverseProjection, Formula.modelView,
      Formula.modelViewRelativeToEye, Formula.inverseModelView, Formula.viewProjection,
      Formula.modelViewProjection, Formula.modelViewInfiniteProjection, Formula.normal,
      Formula.inverseNormal, Formula.sunDirectionWC, Formula.encodedCameraPosition,
      Matrix4.zeroTranslation]))
  · rw [if_neg hd]
    exact ⟨h1, h2, h3, h4, h5, h6, h7, h8, h9, h10, h11, h12, h13⟩

theorem coherent_cleanModelViewProjection (core : CoreNumerics) (s : UniformState)
    (h : Coherent core s) : Coherent core (cleanModelViewProjection s) := by
  obtain ⟨h1, h2, h3, h4, h5, h6, h7, h8, h9, h10, h11, h12, h13⟩ := h
  unfold cleanModelViewProjection
  by_cases hd : s._modelViewProjectionDirty = true
  · rw [if_pos hd]
    by_cases hn0 : s._modelViewDirty = true <;>
      simp only [UniformState.getModelView, cleanModelView, hn0, if_true, if_false,
        Bool.false_eq_true] <;>
      (constructor <;>
        first
        | assumption
        | (intro _; rfl)
        | (intro hc; exact Bool.noConfusion hc)
        | (intro _; simp_all [Formula.inverseModel, Formula.inverseProjection, Formula.modelView,
      Formula.modelViewRelativeToEye, Formula.inverseModelView, Formula.viewProjection,
      Formula.modelViewProjection, Formula.modelViewInfiniteProjection, Formula.normal,
      Formula.inverseNormal, Formula.sunDirectionWC, Formula.encodedCameraPosition,
      Matrix4.zeroTranslation]))
  · rw [if_neg hd]
    exact ⟨h1, h2, h3, h4, h5, h6, h7, h8, h9, h10, h11, h12, h13⟩

theorem coherent_cleanInverseModelViewProjection (core : CoreNumerics) (s : UniformState)
    (h : Coherent core s) : Coherent core (cleanInverseModelViewProjection s) := by
  obtain ⟨h1, h2, h3, h4, h5, h6, h7, h8, h9, h10, h11, h12, h13⟩ := h
  unfold cleanInverseModelViewProjection
  by_cases hd : s._inverseModelViewProjectionDirty = true
  · rw [if_pos hd]
    by_cases hn0 : s._modelViewProjectionDirty = true <;>
      by_cases hn1 : s._modelViewDirty = true <;>
      simp only [UniformState.getModelViewProjection, cleanModelViewProjection, UniformState.getModelView, cleanModelView, hn0, hn1, if_true, if_false,
        Bool.false_eq_true] <;>
      (constructor <;>
        first
        | assumption
        | (intro _; rfl)
        | (intro hc; exact Bool.noConfusion hc)
        | (intro _; simp_all [Formula.inverseModel, Formula.inverseProjection, Formula.modelView,
      Formula.modelViewRelativeToEye, Formula.inverseModelView, Formula.viewProjection,
      Formula.modelViewProjection, Formula.modelViewInfiniteProjection, Formula.normal,
      Formula.inverseNormal, Formula.sunDirectionWC, Formula.encodedCameraPosition,
      Matrix4.zeroTranslation]))
  · rw [if_neg hd]
    exact ⟨h1, h2, h3, h4, h5, h6, h7, h8, h9, h10, h11, h12, h13⟩

theorem coherent_cleanModelViewProjectionRelativeToEye (core : CoreNumerics) (s : UniformState)
    (h : Coherent core s) : Coherent core (cleanModelViewProjectionRelativeToEye s) := by
  obtain ⟨h1, h2, h3, h4, h5, h6, h7, h8, h9, h10, h11, h12, h13⟩ := h
  unfold cleanModelViewProjectionRelativeToEye
  by_cases hd : s._modelViewProjectionRelativeToEyeDirty = true
  · rw [if_pos hd]
    by_cases hn0 : s._modelViewRelativeToEyeDirty = true <;>
      by_cases hn1 : s._modelViewDirty = true <;>
      simp only [UniformState.getModelViewRelativeToEye, cleanModelViewRelativeToEye, UniformState.getModelView, cleanModelView, hn0, hn1, if_true, if_false,
        Bool.false_eq_true] <;>
      (constructor <;>
        first
        | assumption
        | (intro _; rfl)
        | (intro hc; exact Bool.noConfusion hc)
        | (intro _; simp_all [Formula.inverseModel, Formula.inverseProjection, Formula.modelView,
      Formula.modelViewRelativeToEye, Formula.inverseModelView, Formula.viewProjection,
      Formula.modelViewProjection, Formula.modelViewInfiniteProjection, Formula.normal,
      Formula.inverseNormal, Formula.sunDirectionWC, Formula.encodedCameraPosition,
      Matrix4.zeroTranslation]))
  · rw [if_neg hd]
    exact ⟨h1, h2, h3, h4, h5, h6, h7, h8, h9, h10, h11, h12, h13⟩

theorem coherent_cleanModelViewInfiniteProjection (core : CoreNumerics) (s : UniformState)
    (h : Coherent core s) : Coherent core (cleanModelViewInfiniteProjection s) := by
  obtain ⟨h1, h2, h3, h4, h5, h6, h7, h8, h9, h10, h11, h12, h13⟩ := h
  unfold cleanModelViewInfiniteProjection
  by_cases hd : s._modelViewInfiniteProjectionDirty = true
  · rw [if_pos hd]
    by_cases hn0 : s._modelViewDirty = true <;>
      simp only [UniformState.getModelView, cleanModelView, hn0, if_true, if_false,
        Bool.false_eq_true] <;>
      (constructor <;>
        first
        | assumption
        | (intro _; rfl)
        | (intro hc; exact Bool.noConfusion hc)
        | (intro _; simp_all [Formula.inverseModel, Formula.inverseProjection, Formula.modelView,
      Formula.modelViewRelativeToEye, Formula.inverseModelView, Formula.viewProjection,
      Formula.modelViewProjection, Formula.modelViewInfiniteProjection, Formula.normal,
      Formula.inverseNormal, Formula.sunDirectionWC, Formula.encodedCameraPosition,
      Matrix4.zeroTranslation]))
  · rw [if_neg hd]
    exact ⟨h1, h2, h3, h4, h5, h6, h7, h8, h9, h10, h11, h12, h13⟩

theorem coherent_cleanNormal (core : CoreNumerics) (s : UniformState)
    (h : Coherent core s) : Coherent core (cleanNormal s) := by
  obtain ⟨h1, h2, h3, h4, h5, h6, h7, h8, h9, h10, h11, h12, h13⟩ := h
  unfold cleanNormal
  by_cases hd : s._normalDirty = true
  · rw [if_pos hd]
    by_cases hn0 : s._inverseModelViewDirty = true <;>
      by_cases hn1 : s._modelViewDirty = true <;>
      simp only [UniformState.getInverseModelView, cleanInverseModelView, UniformState.getModelView, cleanModelView, hn0, hn1, if_true, if_false,
        Bool.false_eq_true] <;>
      (constructor <;>
        first
        | assumption
        | (intro _; rfl)
        | (intro hc; exact Bool.noConfusion hc)
        | (intro _; simp_all [Formula.inverseModel, Formula.inverseProjection, Formula.modelView,
      Formula.modelViewRelativeToEye, Formula.inverseModelView, Formula.viewProjection,
      Formula.modelViewProjection, Formula.modelViewInfiniteProjection, Formula.normal,
      Formula.inverseNormal, Formula.sunDirectionWC, Formula.encodedCameraPosition,
      Matrix4.zeroTranslation]))
  · rw [if_neg hd]
    exact ⟨h1, h2, h3, h4, h5, h6, h7, h8, h9, h10, h11, h12, h13⟩

theorem coherent_cleanInverseNormal (core : CoreNumerics) (s : UniformState)
    (h : Coherent core s) : Coherent core (cleanInverseNormal s) := by
  obtain ⟨h1, h2, h3, h4, h5, h6, h7, h8, h9, h10, h11, h12, h13⟩ := h
  unfold cleanInverseNormal
  by_cases hd : s._inverseNormalDirty = true
  · rw [if_pos hd]
    by_cases hn0 : s._inverseModelViewDirty = true <;>
      by_cases hn1 : s._modelViewDirty = true <;>
      simp only [UniformState.getInverseModelView, cleanInverseModelView, UniformState.getModelView, cleanModelView, hn0, hn1, if_true, if_false,
        Bool.false_eq_true] <;>
      (constructor <;>
        first
        | assumption
        | (intro _; rfl)
        | (intro hc; exact Bool.noConfusion hc)
        | (intro _; simp_all [Formula.inverseModel, Formula.inverseProjection, Formula.modelView,
      Formula.modelViewRelativeToEye, Formula.inverseModelView, Formula.viewProjection,
      Formula.modelViewProjection, Formula.modelViewInfiniteProjection, Formula.normal,
      Formula.inverseNormal, Formula.sunDirectionWC, Formula.encodedCameraPosition,
      Matrix4.zeroTranslation]))
  · rw [if_neg hd]
    exact ⟨h1, h2, h3, h4, h5, h6, h7, h8, h9, h10, h11, h12, h13⟩

theorem coherent_cleanSunDirectionEC (core : CoreNumerics) (s : UniformState)
    (h : Coherent core s) : Coherent core (cleanSunDirectionEC core s) := by
  obtain ⟨h1, h2, h3, h4, h5, h6, h7, h8, h9, h10, h11, h12, h13⟩ := h
  unfold cleanSunDirectionEC
  by_cases hd : s._sunDirectionECDirty = true
  · rw [if_pos hd]
    (constructor <;>
        first
        | assumption
        | (intro _; rfl)
        | (intro hc; exact Bool.noConfusion hc)
        | (intro _; simp_all [Formula.inverseModel, Formula.inverseProjection, Formula.modelView,
      Formula.modelViewRelativeToEye, Formula.inverseModelView, Formula.viewProjection,
      Formula.modelViewProjection, Formula.modelViewInfiniteProjection, Formula.normal,
      Formula.inverseNormal, Formula.sunDirectionWC, Formula.encodedCameraPosition,
      Matrix4.zeroTranslation]))
  · rw [if_neg hd]
    exact ⟨h1, h2, h3, h4, h5, h6, h7, h8, h9, h10, h11, h12, h13⟩

theorem coherent_cleanSunDirectionWC (core : CoreNumerics) (s : UniformState)
    (h : Coherent core s) : Coherent core (cleanSunDirectionWC core s) := by
  obtain ⟨h1, h2, h3, h4, h5, h6, h7, h8, h9, h10, h11, h12, h13⟩ := h
  unfold cleanSunDirectionWC
  by_cases hd : s._sunDirectionWCDirty = true
  · rw [if_pos hd]
    (constructor <;>
        first
        | assumption
        | (intro _; rfl)
        | (intro hc; exact Bool.noConfusion hc)
        | (intro _; simp_all [Formula.inverseModel, Formula.inverseProjection, Formula.modelView,
      Formula.modelViewRelativeToEye, Formula.inverseModelView, Formula.viewProjection,
      Formula.modelViewProjection, Formula.modelViewInfiniteProjection, Formula.normal,
      Formula.inverseNormal, Formula.sunDirectionWC, Formula.encodedCameraPosition,
      Matrix4.zeroTranslation]))
  · rw [if_neg hd]
    exact ⟨h1, h2, h3, h4, h5, h6, h7, h8, h9, h10, h11, h12, h13⟩

theorem coherent_cleanEncodedCameraPositionMC (core : CoreNumerics) (s : UniformState)
    (h : Coherent core s) : Coherent core (cleanEncodedCameraPositionMC core s) := by
  obtain ⟨h1, h2, h3, h4, h5, h6, h7, h8, h9, h10, h11, h12, h13⟩ := h
  unfold cleanEncodedCameraPositionMC
  by_cases hd : s._encodedCameraPositionMCDirty = true
  · rw [if_pos hd]
    by_cases hn0 : s._inverseModelDirty = true <;>
      simp only [UniformState.getInverseModel, hn0, if_true, if_false,
        Bool.false_eq_true] <;>
      (constructor <;>
        first
        | assumption
        | (intro _; rfl)
        | (intro hc; exact Bool.noConfusion hc)
        | (intro _; simp_all [Formula.inverseModel, Formula.inverseProjection, Formula.modelView,
      Formula.modelViewRelativeToEye, Formula.inverseModelView, Formula.viewProjection,
      Formula.modelViewProjection, Formula.modelViewInfiniteProjection, Formula.normal,
      Formula.inverseNormal, Formula.sunDirectionWC, Formula.encodedCameraPosition,
      Matrix4.zeroTranslation]))
  · rw [if_neg hd]
    exact ⟨h1, h2, h3, h4, h5, h6, h7, h8, h9, h10, h11, h12, h13⟩

theorem coherent_getInverseModel (core : CoreNumerics) (s : UniformState)
    (h : Coherent core s) : Coherent core s.getInverseModel.2 := by
  obtain ⟨h1, h2, h3, h4, h5, h6, h7, h8, h9, h10, h11, h12, h13⟩ := h
  unfold UniformState.getInverseModel
  by_cases hd : s._inverseModelDirty = true
  · simp only [if_pos hd]
    (constructor <;>
        first
        | assumption
        | (intro _; rfl)
        | (intro hc; exact Bool.noConfusion hc)
        | (intro _; simp_all [Formula.inverseModel, Formula.inverseProjection, Formula.modelView,
      Formula.modelViewRelativeToEye, Formula.inverseModelView, Formula.viewProjection,
      Formula.modelViewProjection, Formula.modelViewInfiniteProjection, Formula.normal,
      Formula.inverseNormal, Formula.sunDirectionWC, Formula.encodedCameraPosition,
      Matrix4.zeroTranslation]))
  · simp only [if_neg hd]
    exact ⟨h1, h2, h3, h4, h5, h6, h7, h8, h9, h10, h11, h12, h13⟩

theorem coherent_read (core : CoreNumerics) (s : UniformState) (h : Coherent core s)
    (g : Getter) : Coherent core (s.read core g) := by
  cases g
  · exact coherent_cleanViewport core s h
  · exact coherent_cleanViewport core s h
  · exact coherent_getInverseModel core s h
  · exact coherent_cleanInverseProjection core s h
  · exact coherent_cleanModelView core s h
  · exact coherent_cleanModelViewRelativeToEye core s h
  · exact coherent_cleanInverseModelView core s h
  · exact coherent_cleanViewProjection core s h
  · exact coherent_cleanInverseViewProjection core s h
  · exact coherent_cleanModelViewProjection core s h
  · exact coherent_cleanInverseModelViewProjection core s h
  · exact coherent_cleanModelViewProjectionRelativeToEye core s h
  · exact coherent_cleanModelViewInfiniteProjection core s h
  · exact coherent_cleanNormal core s h
  · exact coherent_cleanInverseNormal core s h
  · exact coherent_cleanSunDirectionEC core s h
  · exact coherent_cleanSunDirectionWC core s h
  · exact coherent_cleanEncodedCameraPositionMC core s h
  · exact coherent_cleanEncodedCameraPositionMC core s h

theorem coherent_setModel (core : CoreNumerics) (s : UniformState)
    (h : Coherent core s) (matrix : Matrix4) :
    Coherent core (s.setModel matrix) := by
  obtain ⟨h1, h2, h3, h4, h5, h6, h7, h8, h9, h10, h11, h12, h13⟩ := h
  simp only [UniformState.setModel]
  (constructor <;>
    first
    | assumption
    | (intro hc; exact Bool.noConfusion hc)
    | (intro _; simp_all [Formula.inverseModel, Formula.inverseProjection, Formula.modelView,
      Formula.modelViewRelativeToEye, Formula.inverseModelView, Formula.viewProjection,
      Formula.modelViewProjection, Formula.modelViewInfiniteProjection, Formula.normal,
      Formula.inverseNormal, Formula.sunDirectionWC, Formula.encodedCameraPosition,
      Matrix4.zeroTranslation]))

theorem coherent_setProjection (core : CoreNumerics) (s : UniformState)
    (h : Coherent core s) (matrix : Option Matrix4) :
    Coherent core (s.setProjection matrix) := by
  obtain ⟨h1, h2, h3, h4, h5, h6, h7, h8, h9, h10, h11, h12, h13⟩ := h
  simp only [UniformState.setProjection]
  (constructor <;>
    first
    | assumption
    | (intro hc; exact Bool.noConfusion hc)
    | (intro _; simp_all [Formula.inverseModel, Formula.inverseProjection, Formula.modelView,
      Formula.modelViewRelativeToEye, Formula.inverseModelView, Formula.viewProjection,
      Formula.modelViewProjection, Formula.modelViewInfiniteProjection, Formula.normal,
      Formula.inverseNormal, Formula.sunDirectionWC, Formula.encodedCameraPosition,
      Matrix4.zeroTranslation]))

theorem coherent_setFrameNumber (core : CoreNumerics) (s : UniformState)
    (h : Coherent core s) (frameNumber : Option ℚ) :
    Coherent core (s.setFrameNumber frameNumber) := by
  obtain ⟨h1, h2, h3, h4, h5, h6, h7, h8, h9, h10, h11, h12, h13⟩ := h
  simp only [UniformState.setFrameNumber]
  (constructor <;>
    first
    | assumption
    | (intro hc; exact Bool.noConfusion hc)
    | (intro _; simp_all [Formula.inverseModel, Formula.inverseProjection, Formula.modelView,
      Formula.modelViewRelativeToEye, Formula.inverseModelView, Formula.viewProjection,
      Formula.modelViewProjection, Formula.modelViewInfiniteProjection, Formula.normal,
      Formula.inverseNormal, Formula.sunDirectionWC, Formula.encodedCameraPosition,
      Matrix4.zeroTranslation]))

theorem coherent_updateFrustum (core : CoreNumerics) (s : UniformState)
    (h : Coherent core s) (frustum : Frustum) :
    Coherent core (s.updateFrustum frustum) := by
  obtain ⟨h1, h2, h3, h4, h5, h6, h7, h8, h9, h10, h11, h12, h13⟩ := h
  unfold UniformState.updateFrustum
  cases frustum.infiniteProjectionMatrix <;>
    simp only [setProjection, setInfiniteProjection] <;>
    (constructor <;>
    first
    | assumption
    | (intro hc; exact Bool.noConfusion hc)
    | (intro _; simp_all [Formula.inverseModel, Formula.inverseProjection, Formula.modelView,
      Formula.modelViewRelativeToEye, Formula.inverseModelView, Formula.viewProjection,
      Formula.modelViewProjection, Formula.modelViewInfiniteProjection, Formula.normal,
      Formula.inverseNormal, Formula.sunDirectionWC, Formula.encodedCameraPosition,
      Matrix4.zeroTranslation]))

theorem coherent_update (core : CoreNumerics) (s : UniformState)
    (h : Coherent core s) (camera : Camera) :
    Coherent core (s.update camera) := by
  unfold UniformState.update
  apply coherent_updateFrustum
  obtain ⟨h1, h2, h3, h4, h5, h6, h7, h8, h9, h10, h11, h12, h13⟩ := h
  simp only [setView, setInverseView, setCameraPosition]
  (constructor <;>
    first
    | assumption
    | (intro hc; exact Bool.noConfusion hc)
    | (intro _; simp_all [Formula.inverseModel, Formula.inverseProjection, Formula.modelView,
      Formula.modelViewRelativeToEye, Formula.inverseModelView, Formula.viewProjection,
      Formula.modelViewProjection, Formula.modelViewInfiniteProjection, Formula.normal,
      Formula.inverseNormal, Formula.sunDirectionWC, Formula.encodedCameraPosition,
      Matrix4.zeroTranslation]))

theorem coherent_setViewport (core : CoreNumerics) (s : UniformState)
    (h : Coherent core s) (viewport : BoundingRectangle) :
    Coherent core (s.setViewport viewport) := by
  obtain ⟨h1, h2, h3, h4, h5, h6, h7, h8, h9, h10, h11, h12, h13⟩ := h
  unfold UniformState.setViewport
  split_ifs
  · (constructor <;>
    first
    | assumption
    | (intro hc; exact Bool.noConfusion hc)
    | (intro _; simp_all [Formula.inverseModel, Formula.inverseProjection, Formula.modelView,
      Formula.modelViewRelativeToEye, Formula.inverseModelView, Formula.viewProjection,
      Formula.modelViewProjection, Formula.modelViewInfiniteProjection, Formula.normal,
      Formula.inverseNormal, Formula.sunDirectionWC, Formula.encodedCameraPosition,
      Matrix4.zeroTranslation]))
  · exact ⟨h1, h2, h3, h4, h5, h6, h7, h8, h9, h10, h11, h12, h13⟩

theorem coherent_call (core : CoreNumerics) (s : UniformState) (h : Coherent core s)
    (c : Call) : Coherent core (s.call core c) := by
  cases c with
  | update camera => exact coherent_update core s h camera
  | updateFrustum frustum => exact coherent_updateFrustum core s h frustum
  | setViewport viewport => exact coherent_setViewport core s h viewport
  | setModel matrix => exact coherent_setModel core s h matrix
  | setProjection matrix => exact coherent_setProjection core s h matrix
  | setSunPosition sunPosition =>
    cases sunPosition with
    | none => exact h
    | some p =>
      obtain ⟨h1, h2, h3, h4, h5, h6, h7, h8, h9, h10, h11, h12, h13⟩ := h
      simp only [UniformState.call, UniformState.setSunPosition]
      (constructor <;>
    first
    | assumption
    | (intro hc; exact Bool.noConfusion hc)
    | (intro _; simp_all [Formula.inverseModel, Formula.inverseProjection, Formula.modelView,
      Formula.modelViewRelativeToEye, Formula.inverseModelView, Formula.viewProjection,
      Formula.modelViewProjection, Formula.modelViewInfiniteProjection, Formula.normal,
      Formula.inverseNormal, Formula.sunDirectionWC, Formula.encodedCameraPosition,
      Matrix4.zeroTranslation]))
  | setFrameNumber frameNumber => exact coherent_setFrameNumber core s h frameNumber
  | read getter => exact coherent_read core s h getter

theorem coherent_run (core : CoreNumerics) (calls : List Call) (s : UniformState)
    (h : Coherent core s) : Coherent core (s.run core calls) := by
  induction calls generalizing s with
  | nil => exact h
  | cons c cs ih => exact ih (s.call core c) (coherent_call core s h c)

theorem coherent_of_reachable (core : CoreNumerics) (s : UniformState)
    (h : Reachable core s) : Coherent core s := by
  obtain ⟨calls, rfl⟩ := h
  exact coherent_run core calls UniformState.new (coherent_new core)

/-! ## Claims C1 to C10 -/

/-- Under-invalidation by `update`, at the input `new UniformState();
getInverseViewProjection(); update(sampleCamera)`: the next
`getInverseViewProjection()` returns the identity cached before the update,
while the formula, the inverse of `projection * view` for the stored matrices,
is a different matrix. -/
theorem consistency_fails_after_update :
    stateReadThenUpdate.getInverseViewProjection.1 = Matrix4.IDENTITY ∧
    Formula.inverseViewProjection stateReadThenUpdate =
      ⟨1 / 2, 0, 0, 0, 0, 1 / 2, 0, 0, 0, 0, 1 / 2, 0, 10, 0, 0, 1⟩ ∧
    stateReadThenUpdate.getInverseViewProjection.1 ≠
      Formula.inverseViewProjection stateReadThenUpdate := by
  have h1 : stateReadThenUpdate.getInverseViewProjection.1 = Matrix4.IDENTITY := by
    simp [stateReadThenUpdate, UniformState.run, UniformState.call, UniformState.read,
      UniformState.update, UniformState.updateFrustum, setView, setInverseView,
      setCameraPosition, setProjection, sampleCamera, sampleFrustum,
      UniformState.getInverseViewProjection, cleanInverseViewProjection,
      UniformState.getViewProjection, cleanViewProjection, UniformState.new,
      Matrix4.multiply_identity_left, Matrix4.inverse_identity]
  have h2 : Formula.inverseViewProjection stateReadThenUpdate =
      ⟨1 / 2, 0, 0, 0, 0, 1 / 2, 0, 0, 0, 0, 1 / 2, 0, 10, 0, 0, 1⟩ := by
    simp [stateReadThenUpdate, UniformState.run, UniformState.call, UniformState.read,
      UniformState.update, UniformState.updateFrustum, setView, setInverseView,
      setCameraPosition, setProjection, sampleCamera, sampleFrustum, sampleProjection,
      UniformState.getInverseViewProjection, cleanInverseViewProjection,
      UniformState.getViewProjection, cleanViewProjection, UniformState.new,
      Formula.inverseViewProjection, Formula.viewProjection,
      Matrix4.fromTranslation, Matrix4.fromScale, Matrix4.multiply,
      Matrix4.inverse, Matrix4.multiplyByScalar, Matrix4.determinant, Matrix4.adjugate]
    norm_num
  refine ⟨h1, h2, ?_⟩
  rw [h1, h2]
  intro h
  have h0 := congrArg Matrix4.m0 h
  norm_num [Matrix4.IDENTITY] at h0

/-- C2 (`getInverseViewProjection()` is the inverse of `projection * view` in
every reachable state), at the failing input `new UniformState();
getInverseViewProjection(); setProjection(sampleProjection)`: the state is
reachable, the next `getInverseViewProjection()` returns the identity, and the
inverse of `projection * view` is the scaling by one half. -/
theorem getInverseViewProjection_stale_after_setProjection :
    Reachable CoreNumerics.sample stateReadThenSetProjection ∧
    stateReadThenSetProjection.getInverseViewProjection.1 = Matrix4.IDENTITY ∧
    (Matrix4.multiply stateReadThenSetProjection._projection
        stateReadThenSetProjection._view).inverse =
      Matrix4.fromScale ⟨1 / 2, 1 / 2, 1 / 2⟩ ∧
    stateReadThenSetProjection.getInverseViewProjection.1 ≠
      (Matrix4.multiply stateReadThenSetProjection._projection
        stateReadThenSetProjection._view).inverse := by
  have h1 : stateReadThenSetProjection.getInverseViewProjection.1 = Matrix4.IDENTITY := by
    simp [stateReadThenSetProjection, UniformState.run, UniformState.call,
      UniformState.read, UniformState.setProjection,
      UniformState.getInverseViewProjection, cleanInverseViewProjection,
      UniformState.getViewProjection, cleanViewProjection, UniformState.new,
      Matrix4.multiply_identity_left, Matrix4.inverse_identity]
  have h2 : (Matrix4.multiply stateReadThenSetProjection._projection
        stateReadThenSetProjection._view).inverse =
      Matrix4.fromScale ⟨1 / 2, 1 / 2, 1 / 2⟩ := by
    simp [stateReadThenSetProjection, UniformState.run, UniformState.call,
      UniformState.read, UniformState.setProjection, sampleProjection,
      UniformState.getInverseViewProjection, cleanInverseViewProjection,
      UniformState.getViewProjection, cleanViewProjection, UniformState.new,
      Matrix4.fromScale, Matrix4.multiply, Matrix4.IDENTITY,
      Matrix4.inverse, Matrix4.multiplyByScalar, Matrix4.determinant, Matrix4.adjugate]
    norm_num
  refine ⟨⟨_, rfl⟩, h1, h2, ?_⟩
  rw [h1, h2]
  intro h
  have h0 := congrArg Matrix4.m0 h
  norm_num [Matrix4.IDENTITY, Matrix4.fromScale] at h0

/-- C3 (the public `setProjection` sets the flags of all six projection
dependents): in every state the call sets the flags of `inverseProjection`,
`viewProjection`, `modelViewProjection` and `inverseModelViewProjection`, writes
the property `__inverseViewProjectionDirty`, and leaves the flags of
`inverseViewProjection` and `modelViewProjectionRelativeToEye` as they were; at
the failing input, the state in which both entries have been read, both flags
are clear after `setProjection(sampleProjection)`. -/
theorem setProjection_misses_two_flags :
    (∀ (s : UniformState) (P : Option Matrix4),
      (s.setProjection P)._inverseProjectionDirty = true ∧
      (s.setProjection P)._viewProjectionDirty = true ∧
      (s.setProjection P)._modelViewProjectionDirty = true ∧
      (s.setProjection P)._inverseModelViewProjectionDirty = true ∧
      (s.setProjection P).__inverseViewProjectionDirty = some true ∧
      (s.setProjection P)._inverseViewProjectionDirty = s._inverseViewProjectionDirty ∧
      (s.setProjection P)._modelViewProjectionRelativeToEyeDirty =
        s._modelViewProjectionRelativeToEyeDirty) ∧
    (stateAllRead.setProjection (some sampleProjection))._inverseViewProjectionDirty = false ∧
    (stateAllRead.setProjection (some sampleProjection))._modelViewProjectionRelativeToEyeDirty
      = false := by
  refine ⟨fun s P => ⟨rfl, rfl, rfl, rfl, rfl, rfl, rfl⟩, ?_, ?_⟩ <;> decide

/-- C4 (`updateFrustum` sets the flags of all six projection dependents): in
every state the call sets the flags of `inverseProjection`, `viewProjection`,
`modelViewProjection` and `modelViewProjectionRelativeToEye` and leaves the
flags of `inverseViewProjection` and `inverseModelViewProjection` as they were;
at the failing input, the state in which both entries have been read, both
flags are clear after `updateFrustum(sampleFrustum)`. -/
theorem updateFrustum_misses_two_flags :
    (∀ (s : UniformState) (frustum : Frustum),
      (s.updateFrustum frustum)._inverseProjectionDirty = true ∧
      (s.updateFrustum frustum)._viewProjectionDirty = true ∧
      (s.updateFrustum frustum)._modelViewProjectionDirty = true ∧
      (s.updateFrustum frustum)._modelViewProjectionRelativeToEyeDirty = true ∧
      (s.updateFrustum frustum)._inverseViewProjectionDirty = s._inverseViewProjectionDirty ∧
      (s.updateFrustum frustum)._inverseModelViewProjectionDirty =
        s._inverseModelViewProjectionDirty) ∧
    (stateAllRead.updateFrustum sampleFrustum)._inverseViewProjectionDirty = false ∧
    (stateAllRead.updateFrustum sampleFrustum)._inverseModelViewProjectionDirty = false := by
  refine ⟨fun s frustum => ?_, ?_, ?_⟩
  · unfold UniformState.updateFrustum
    cases frustum.infiniteProjectionMatrix <;> exact ⟨rfl, rfl, rfl, rfl, rfl, rfl⟩
  · decide
  · decide

/-- C5 (`update` sets the flags of all twelve view dependents): in every state
the call sets the flags of `modelView`, `modelViewRelativeToEye`,
`inverseModelView`, `viewProjection`, `modelViewProjection`,
`modelViewProjectionRelativeToEye`, `modelViewInfiniteProjection`, `normal`,
`inverseNormal` and `sunDirectionEC` and leaves the flags of
`inverseViewProjection` and `inverseModelViewProjection` as they were; at the
failing input, the state in which both entries have been read, both flags are
clear after `update(sampleCamera)`. -/
theorem update_misses_two_flags :
    (∀ (s : UniformState) (camera : Camera),
      (s.update camera)._modelViewDirty = true ∧
      (s.update camera)._modelViewRelativeToEyeDirty = true ∧
      (s.update camera)._inverseModelViewDirty = true ∧
      (s.update camera)._viewProjectionDirty = true ∧
      (s.update camera)._modelViewProjectionDirty = true ∧
      (s.update camera)._modelViewProjectionRelativeToEyeDirty = true ∧
      (s.update camera)._modelViewInfiniteProjectionDirty = true ∧
      (s.update camera)._normalDirty = true ∧
      (s.update camera)._inverseNormalDirty = true ∧
      (s.update camera)._sunDirectionECDirty = true ∧
      (s.update camera)._inverseViewProjectionDirty = s._inverseViewProjectionDirty ∧
      (s.update camera)._inverseModelViewProjectionDirty =
        s._inverseModelViewProjectionDirty) ∧
    (stateAllRead.update sampleCamera)._inverseViewProjectionDirty = false ∧
    (stateAllRead.update sampleCamera)._inverseModelViewProjectionDirty = false := by
  refine ⟨fun s camera => ?_, ?_, ?_⟩
  · unfold UniformState.update UniformState.updateFrustum
    cases camera.frustum.infiniteProjectionMatrix <;>
      exact ⟨rfl, rfl, rfl, rfl, rfl, rfl, rfl, rfl, rfl, rfl, rfl, rfl⟩
  · decide
  · decide

/-- C6: in every state and for every matrix `M`, after `setModel(M)` the dirty
flags of all eleven model dependents are set: `inverseModel`, `modelView`,
`modelViewRelativeToEye`, `inverseModelView`, `modelViewProjection`,
`inverseModelViewProjection`, `modelViewProjectionRelativeToEye`,
`modelViewInfiniteProjection`, `normal`, `inverseNormal` and
`encodedCameraPosition`. -/
theorem setModel_sets_model_dependents (s : UniformState) (M : Matrix4) :
    (s.setModel M)._inverseModelDirty = true ∧
    (s.setModel M)._modelViewDirty = true ∧
    (s.setModel M)._modelViewRelativeToEyeDirty = true ∧
    (s.setModel M)._inverseModelViewDirty = true ∧
    (s.setModel M)._modelViewProjectionDirty = true ∧
    (s.setModel M)._inverseModelViewProjectionDirty = true ∧
    (s.setModel M)._modelViewProjectionRelativeToEyeDirty = true ∧
    (s.setModel M)._modelViewInfiniteProjectionDirty = true ∧
    (s.setModel M)._normalDirty = true ∧
    (s.setModel M)._inverseNormalDirty = true ∧
    (s.setModel M)._encodedCameraPositionMCDirty = true :=
  ⟨rfl, rfl, rfl, rfl, rfl, rfl, rfl, rfl, rfl, rfl, rfl⟩

/-- C7: on a newly constructed `UniformState`, for every matrix `P`,
`setProjection(P)` followed by `getInverseViewProjection()` returns the inverse
of `P * identity`, which is the inverse of `P`. -/
theorem getInverseViewProjection_new_setProjection (P : Matrix4) :
    (UniformState.new.setProjection (some P)).getInverseViewProjection.1 =
      (Matrix4.multiply P Matrix4.IDENTITY).inverse ∧
    (UniformState.new.setProjection (some P)).getInverseViewProjection.1 = P.inverse := by
  have h : (UniformState.new.setProjection (some P)).getInverseViewProjection.1 =
      (Matrix4.multiply P Matrix4.IDENTITY).inverse := by
    simp [UniformState.setProjection, UniformState.getInverseViewProjection,
      cleanInverseViewProjection, UniformState.getViewProjection, cleanViewProjection,
      UniformState.new]
  exact ⟨h, by rw [h, Matrix4.multiply_identity_right]⟩

/-- C8 (`getInverseModelViewProjection()` is the inverse of
`projection * view * model` in every reachable state), at the failing input
`new UniformState(); getInverseModelViewProjection();
updateFrustum(sampleFrustum)`: the state is reachable, the next
`getInverseModelViewProjection()` returns the identity, and the inverse of
`projection * (view * model)` is the scaling by one half. -/
theorem getInverseModelViewProjection_stale_after_updateFrustum :
    Reachable CoreNumerics.sample stateReadThenUpdateFrustum ∧
    stateReadThenUpdateFrustum.getInverseModelViewProjection.1 = Matrix4.IDENTITY ∧
    (Matrix4.multiply stateReadThenUpdateFrustum._projection
        (Matrix4.multiply stateReadThenUpdateFrustum._view
          stateReadThenUpdateFrustum._model)).inverse =
      Matrix4.fromScale ⟨1 / 2, 1 / 2, 1 / 2⟩ ∧
    stateReadThenUpdateFrustum.getInverseModelViewProjection.1 ≠
      (Matrix4.multiply stateReadThenUpdateFrustum._projection
        (Matrix4.multiply stateReadThenUpdateFrustum._view
          stateReadThenUpdateFrustum._model)).inverse := by
  have h1 : stateReadThenUpdateFrustum.getInverseModelViewProjection.1 =
      Matrix4.IDENTITY := by
    simp [stateReadThenUpdateFrustum, UniformState.run, UniformState.call,
      UniformState.read, UniformState.updateFrustum, setProjection, sampleFrustum,
      UniformState.getInverseModelViewProjection, cleanInverseModelViewProjection,
      UniformState.getModelViewProjection, cleanModelViewProjection,
      UniformState.getModelView, cleanModelView, UniformState.new,
      Matrix4.multiply_identity_left, Matrix4.inverse_identity]
  have h2 : (Matrix4.multiply stateReadThenUpdateFrustum._projection
        (Matrix4.multiply stateReadThenUpdateFrustum._view
          stateReadThenUpdateFrustum._model)).inverse =
      Matrix4.fromScale ⟨1 / 2, 1 / 2, 1 / 2⟩ := by
    simp [stateReadThenUpdateFrustum, UniformState.run, UniformState.call,
      UniformState.read, UniformState.updateFrustum, setProjection, sampleFrustum,
      sampleProjection,
      UniformState.getInverseModelViewProjection, cleanInverseModelViewProjection,
      UniformState.getModelViewProjection, cleanModelViewProjection,
      UniformState.getModelView, cleanModelView, UniformState.new,
      Matrix4.fromScale, Matrix4.multiply, Matrix4.IDENTITY,
      Matrix4.inverse, Matrix4.multiplyByScalar, Matrix4.determinant, Matrix4.adjugate]
    norm_num
  refine ⟨⟨_, rfl⟩, h1, h2, ?_⟩
  rw [h1, h2]
  intro h
  have h0 := congrArg Matrix4.m0 h
  norm_num [Matrix4.IDENTITY, Matrix4.fromScale] at h0

/-- C9 (`getModelViewProjectionRelativeToEye()` is `projection` times the
model-view matrix without translation in every reachable state), at the failing
input `new UniformState(); getModelViewProjectionRelativeToEye();
setProjection(sampleProjection)`: the state is reachable, the next
`getModelViewProjectionRelativeToEye()` returns the identity, and the formula
gives the sample projection. -/
theorem getModelViewProjectionRelativeToEye_stale_after_setProjection :
    Reachable CoreNumerics.sample stateReadRelativeToEyeThenSetProjection ∧
    stateReadRelativeToEyeThenSetProjection.getModelViewProjectionRelativeToEye.1 =
      Matrix4.IDENTITY ∧
    Matrix4.multiply stateReadRelativeToEyeThenSetProjection._projection
        (Matrix4.multiply stateReadRelativeToEyeThenSetProjection._view
          stateReadRelativeToEyeThenSetProjection._model).zeroTranslation =
      sampleProjection ∧
    stateReadRelativeToEyeThenSetProjection.getModelViewProjectionRelativeToEye.1 ≠
      Matrix4.multiply stateReadRelativeToEyeThenSetProjection._projection
        (Matrix4.multiply stateReadRelativeToEyeThenSetProjection._view
          stateReadRelativeToEyeThenSetProjection._model).zeroTranslation := by
  have h1 : stateReadRelativeToEyeThenSetProjection.getModelViewProjectionRelativeToEye.1 =
      Matrix4.IDENTITY := by
    simp [stateReadRelativeToEyeThenSetProjection, UniformState.run, UniformState.call,
      UniformState.read, UniformState.setProjection,
      UniformState.getModelViewProjectionRelativeToEye,
      cleanModelViewProjectionRelativeToEye, UniformState.getModelViewRelativeToEye,
      cleanModelViewRelativeToEye, UniformState.getModelView, cleanModelView,
      UniformState.new, Matrix4.multiply_identity_left]
    simp [Matrix4.IDENTITY, Matrix4.multiply]
  have h2 : Matrix4.multiply stateReadRelativeToEyeThenSetProjection._projection
        (Matrix4.multiply stateReadRelativeToEyeThenSetProjection._view
          stateReadRelativeToEyeThenSetProjection._model).zeroTranslation =
      sampleProjection := by
    simp [stateReadRelativeToEyeThenSetProjection, UniformState.run, UniformState.call,
      UniformState.read, UniformState.setProjection, sampleProjection,
      UniformState.getModelViewProjectionRelativeToEye,
      cleanModelViewProjectionRelativeToEye, UniformState.getModelViewRelativeToEye,
      cleanModelViewRelativeToEye, UniformState.getModelView, cleanModelView,
      UniformState.new, Matrix4.zeroTranslation,
      Matrix4.fromScale, Matrix4.multiply, Matrix4.IDENTITY]
  refine ⟨⟨_, rfl⟩, h1, h2, ?_⟩
  rw [h1, h2]
  intro h
  have h0 := congrArg Matrix4.m0 h
  norm_num [Matrix4.IDENTITY, sampleProjection, Matrix4.fromScale] at h0

/-- C10: in every reachable state `getModelView()` equals `view * model`, the
view matrix being the left factor; and with `view` the identity,
`getModelView()` after `setModel(M)` equals `M`. -/
theorem getModelView_eq_view_multiply_model (core : CoreNumerics) (s : UniformState)
    (h : Reachable core s) :
    s.getModelView.1 = Matrix4.multiply s._view s._model ∧
    ∀ M : Matrix4, s._view = Matrix4.IDENTITY → (s.setModel M).getModelView.1 = M := by
  have hc := (coherent_of_reachable core s h).modelView
  constructor
  · unfold UniformState.getModelView cleanModelView
    by_cases hd : s._modelViewDirty = true
    · simp [hd]
    · simp only [if_neg hd]
      exact hc (by simpa using hd)
  · intro M hv
    simp [UniformState.getModelView, cleanModelView, UniformState.setModel, hv,
      Matrix4.multiply_identity_left]

/-- Witness for C10: the state after `setModel` of the translation by
`(10, 0, 0)` on a new object is reachable, its view is the identity, and
`getModelView()` returns that translation. -/
theorem getModelView_eq_view_multiply_model_witness :
    Reachable CoreNumerics.sample stateModelTranslated ∧
    stateModelTranslated._view = Matrix4.IDENTITY ∧
    stateModelTranslated.getModelView.1 =
      Matrix4.multiply stateModelTranslated._view stateModelTranslated._model ∧
    (stateModelTranslated.setModel (Matrix4.fromTranslation ⟨10, 0, 0⟩)).getModelView.1 =
      Matrix4.fromTranslation ⟨10, 0, 0⟩ :=
  ⟨⟨_, rfl⟩, rfl,
    (getModelView_eq_view_multiply_model CoreNumerics.sample stateModelTranslated
      ⟨_, rfl⟩).1,
    (getModelView_eq_view_multiply_model CoreNumerics.sample stateModelTranslated
      ⟨_, rfl⟩).2 _ rfl⟩

/-! ## Getter results and call outcomes -/

theorem UniformState.get_snd (core : CoreNumerics) (s : UniformState) (g : Getter) :
    (s.get core g).2 = s.read core g := by
  cases g <;> rfl

theorem UniformState.call_eq_tryCall (core : CoreNumerics) (s : UniformState) (c : Call) :
    s.call core c =
      match s.tryCall core c with
      | .ok t => t
      | .error _ => s := by
  cases c <;> rfl

/-! ## Cleaning twice -/

theorem cleanViewport_flag (s : UniformState) :
    (cleanViewport s)._viewportDirty = false := by
  by_cases hd : s._viewportDirty = true
  · simp only [cleanViewport, hd, if_true]
  · simp only [cleanViewport, if_neg hd]
    simpa using hd

theorem cleanViewport_idem (s : UniformState) :
    cleanViewport (cleanViewport s) = cleanViewport s := by
  have h := cleanViewport_flag s
  generalize cleanViewport s = t at h ⊢
  unfold cleanViewport
  rw [if_neg (by simp [h])]

theorem cleanInverseProjection_flag (s : UniformState) :
    (cleanInverseProjection s)._inverseProjectionDirty = false := by
  by_cases hd : s._inverseProjectionDirty = true
  · simp only [cleanInverseProjection, hd, if_true]
  · simp only [cleanInverseProjection, if_neg hd]
    simpa using hd

theorem cleanInverseProjection_idem (s : UniformState) :
    cleanInverseProjection (cleanInverseProjection s) = cleanInverseProjection s := by
  have h := cleanInverseProjection_flag s
  generalize cleanInverseProjection s = t at h ⊢
  unfold cleanInverseProjection
  rw [if_neg (by simp [h])]

theorem cleanModelView_flag (s : UniformState) :
    (cleanModelView s)._modelViewDirty = false := by
  by_cases hd : s._modelViewDirty = true
  · simp only [cleanModelView, hd, if_true]
  · simp only [cleanModelView, if_neg hd]
    simpa using hd

theorem cleanModelView_idem (s : UniformState) :
    cleanModelView (cleanModelView s) = cleanModelView s := by
  have h := cleanModelView_flag s
  generalize cleanModelView s = t at h ⊢
  unfold cleanModelView
  rw [if_neg (by simp [h])]

theorem cleanModelViewRelativeToEye_flag (s : UniformState) :
    (cleanModelViewRelativeToEye s)._modelViewRelativeToEyeDirty = false := by
  by_cases hd : s._modelViewRelativeToEyeDirty = true
  · by_cases hn0 : s._modelViewDirty = true <;>
      simp only [cleanModelViewRelativeToEye, UniformState.getModelView, cleanModelView, hd, hn0, if_true, if_false,
        Bool.false_eq_true]
  · simp only [cleanModelViewRelativeToEye, if_neg hd]
    simpa using hd

theorem cleanModelViewRelativeToEye_idem (s : UniformState) :
    cleanModelViewRelativeToEye (cleanModelViewRelativeToEye s) = cleanModelViewRelativeToEye s := by
  have h := cleanModelViewRelativeToEye_flag s
  generalize cleanModelViewRelativeToEye s = t at h ⊢
  unfold cleanModelViewRelativeToEye
  rw [if_neg (by simp [h])]

theorem cleanInverseModelView_flag (s : UniformState) :
    (cleanInverseModelView s)._inverseModelViewDirty = false := by
  by_cases hd : s._inverseModelViewDirty = true
  · by_cases hn0 : s._modelViewDirty = true <;>
      simp only [cleanInverseModelView, UniformState.getModelView, cleanModelView, hd, hn0, if_true, if_false,
        Bool.false_eq_true]
  · simp only [cleanInverseModelView, if_neg hd]
    simpa using hd

theorem cleanInverseModelView_idem (s : UniformState) :
    cleanInverseModelView (cleanInverseModelView s) = cleanInverseModelView s := by
  have h := cleanInverseModelView_flag s
  generalize cleanInverseModelView s = t at h ⊢
  unfold cleanInverseModelView
  rw [if_neg (by simp [h])]

theorem cleanViewProjection_flag (s : UniformState) :
    (cleanViewProjection s)._viewProjectionDirty = false := by
  by_cases hd : s._viewProjectionDirty = true
  · simp only [cleanViewProjection, hd, if_true]
  · simp only [cleanViewProjection, if_neg hd]
    simpa using hd

theorem cleanViewProjection_idem (s : UniformState) :
    cleanViewProjection (cleanViewProjection s) = cleanViewProjection s := by
  have h := cleanViewProjection_flag s
  generalize cleanViewProjection s = t at h ⊢
  unfold cleanViewProjection
  rw [if_neg (by simp [h])]

theorem cleanInverseViewProjection_flag (s : UniformState) :
    (cleanInverseViewProjection s)._inverseViewProjectionDirty = false := by
  by_cases hd : s._inverseViewProjectionDirty = true
  · by_cases hn0 : s._viewProjectionDirty = true <;>
      simp only [cleanInverseViewProjection, UniformState.getViewProjection, cleanViewProjection, hd, hn0, if_true, if_false,
        Bool.false_eq_true]
  · simp only [cleanInverseViewProjection, if_neg hd]
    simpa using hd

theorem cleanInverseViewProjection_idem (s : UniformState) :
    cleanInverseViewProjection (cleanInverseViewProjection s) = cleanInverseViewProjection s := by
  have h := cleanInverseViewProjection_flag s
  generalize cleanInverseViewProjection s = t at h ⊢
  unfold cleanInverseViewProjection
  rw [if_neg (by simp [h])]

theorem cleanModelViewProjection_flag (s : UniformState) :
    (cleanModelViewProjection s)._modelViewProjectionDirty = false := by
  by_cases hd : s._modelViewProjectionDirty = true
  · by_cases hn0 : s._modelViewDirty = true <;>
      simp only [cleanModelViewProjection, UniformState.getModelView, cleanModelView, hd, hn0, if_true, if_false,
        Bool.false_eq_true]
  · simp only [cleanModelViewProjection, if_neg hd]
    simpa using hd

theorem cleanModelViewProjection_idem (s : UniformState) :
    cleanModelViewProjection (cleanModelViewProjection s) = cleanModelViewProjection s := by
  have h := cleanModelViewProjection_flag s
  generalize cleanModelViewProjection s = t at h ⊢
  unfold cleanModelViewProjection
  rw [if_neg (by simp [h])]

theorem cleanInverseModelViewProjection_flag (s : UniformState) :
    (cleanInverseModelViewProjection s)._inverseModelViewProjectionDirty = false := by
  by_cases hd : s._inverseModelViewProjectionDirty = true
  · by_cases hn0 : s._modelViewProjectionDirty = true <;>
      by_cases hn1 : s._modelViewDirty = true <;>
      simp only [cleanInverseModelViewProjection, UniformState.getModelViewProjection, cleanModelViewProjection, UniformState.getModelView, cleanModelView, hd, hn0, hn1, if_true, if_false,
        Bool.false_eq_true]
  · simp only [cleanInverseModelViewProjection, if_neg hd]
    simpa using hd

theorem cleanInverseModelViewProjection_idem (s : UniformState) :
    cleanInverseModelViewProjection (cleanInverseModelViewProjection s) = cleanInverseModelViewProjection s := by
  have h := cleanInverseModelViewProjection_flag s
  generalize cleanInverseModelViewProjection s = t at h ⊢
  unfold cleanInverseModelViewProjection
  rw [if_neg (by simp [h])]

theorem cleanModelViewProjectionRelativeToEye_flag (s : UniformState) :
    (cleanModelViewProjectionRelativeToEye s)._modelViewProjectionRelativeToEyeDirty = false := by
  by_cases hd : s._modelViewProjectionRelativeToEyeDirty = true
  · by_cases hn0 : s._modelViewRelativeToEyeDirty = true <;>
      by_cases hn1 : s._modelViewDirty = true <;>
      simp only [cleanModelViewProjectionRelativeToEye, UniformState.getModelViewRelativeToEye, cleanModelViewRelativeToEye, UniformState.getModelView, cleanModelView, hd, hn0, hn1, if_true, if_false,
        Bool.false_eq_true]
  · simp only [cleanModelViewProjectionRelativeToEye, if_neg hd]
    simpa using hd

theorem cleanModelViewProjectionRelativeToEye_idem (s : UniformState) :
    cleanModelViewProjectionRelativeToEye (cleanModelViewProjectionRelativeToEye s) = cleanModelViewProjectionRelativeToEye s := by
  have h := cleanModelViewProjectionRelativeToEye_flag s
  generalize cleanModelViewProjectionRelativeToEye s = t at h ⊢
  unfold cleanModelViewProjectionRelativeToEye
  rw [if_neg (by simp [h])]

theorem cleanModelViewInfiniteProjection_flag (s : UniformState) :
    (cleanModelViewInfiniteProjection s)._modelViewInfiniteProjectionDirty = false := by
  by_cases hd : s._modelViewInfiniteProjectionDirty = true
  · by_cases hn0 : s._modelViewDirty = true <;>
      simp only [cleanModelViewInfiniteProjection, UniformState.getModelView, cleanModelView, hd, hn0, if_true, if_false,
        Bool.false_eq_true]
  · simp only [cleanModelViewInfiniteProjection, if_neg hd]
    simpa using hd

theorem cleanModelViewInfiniteProjection_idem (s : UniformState) :
    cleanModelViewInfiniteProjection (cleanModelViewInfiniteProjection s) = cleanModelViewInfiniteProjection s := by
  have h := cleanModelViewInfiniteProjection_flag s
  generalize cleanModelViewInfiniteProjection s = t at h ⊢
  unfold cleanModelViewInfiniteProjection
  rw [if_neg (by simp [h])]

theorem cleanNormal_flag (s : UniformState) :
    (cleanNormal s)._normalDirty = false := by
  by_cases hd : s._normalDirty = true
  · by_cases hn0 : s._inverseModelViewDirty = true <;>
      by_cases hn1 : s._modelViewDirty = true <;>
      simp only [cleanNormal, UniformState.getInverseModelView, cleanInverseModelView, UniformState.getModelView, cleanModelView, hd, hn0, hn1, if_true, if_false,
        Bool.false_eq_true]
  · simp only [cleanNormal, if_neg hd]
    simpa using hd

theorem cleanNormal_idem (s : UniformState) :
    cleanNormal (cleanNormal s) = cleanNormal s := by
  have h := cleanNormal_flag s
  generalize cleanNormal s = t at h ⊢
  unfold cleanNormal
  rw [if_neg (by simp [h])]

theorem cleanInverseNormal_flag (s : UniformState) :
    (cleanInverseNormal s)._inverseNormalDirty = false := by
  by_cases hd : s._inverseNormalDirty = true
  · by_cases hn0 : s._inverseModelViewDirty = true <;>
      by_cases hn1 : s._modelViewDirty = true <;>
      simp only [cleanInverseNormal, UniformState.getInverseModelView, cleanInverseModelView, UniformState.getModelView, cleanModelView, hd, hn0, hn1, if_true, if_false,
        Bool.false_eq_true]
  · simp only [cleanInverseNormal, if_neg hd]
    simpa using hd

theorem cleanInverseNormal_idem (s : UniformState) :
    cleanInverseNormal (cleanInverseNormal s) = cleanInverseNormal s := by
  have h := cleanInverseNormal_flag s
  generalize cleanInverseNormal s = t at h ⊢
  unfold cleanInverseNormal
  rw [if_neg (by simp [h])]

theorem cleanSunDirectionEC_flag (core : CoreNumerics) (s : UniformState) :
    (cleanSunDirectionEC core s)._sunDirectionECDirty = false := by
  by_cases hd : s._sunDirectionECDirty = true
  · simp only [cleanSunDirectionEC, hd, if_true]
  · simp only [cleanSunDirectionEC, if_neg hd]
    simpa using hd

theorem cleanSunDirectionEC_idem (core : CoreNumerics) (s : UniformState) :
    cleanSunDirectionEC core (cleanSunDirectionEC core s) = cleanSunDirectionEC core s := by
  have h := cleanSunDirectionEC_flag core s
  generalize cleanSunDirectionEC core s = t at h ⊢
  unfold cleanSunDirectionEC
  rw [if_neg (by simp [h])]

theorem cleanSunDirectionWC_flag (core : CoreNumerics) (s : UniformState) :
    (cleanSunDirectionWC core s)._sunDirectionWCDirty = false := by
  by_cases hd : s._sunDirectionWCDirty = true
  · simp only [cleanSunDirectionWC, hd, if_true]
  · simp only [cleanSunDirectionWC, if_neg hd]
    simpa using hd

theorem cleanSunDirectionWC_idem (core : CoreNumerics) (s : UniformState) :
    cleanSunDirectionWC core (cleanSunDirectionWC core s) = cleanSunDirectionWC core s := by
  have h := cleanSunDirectionWC_flag core s
  generalize cleanSunDirectionWC core s = t at h ⊢
  unfold cleanSunDirectionWC
  rw [if_neg (by simp [h])]

theorem cleanEncodedCameraPositionMC_flag (core : CoreNumerics) (s : UniformState) :
    (cleanEncodedCameraPositionMC core s)._encodedCameraPositionMCDirty = false := by
  by_cases hd : s._encodedCameraPositionMCDirty = true
  · by_cases hn0 : s._inverseModelDirty = true <;>
      simp only [cleanEncodedCameraPositionMC, UniformState.getInverseModel, hd, hn0, if_true, if_false,
        Bool.false_eq_true]
  · simp only [cleanEncodedCameraPositionMC, if_neg hd]
    simpa using hd

theorem cleanEncodedCameraPositionMC_idem (core : CoreNumerics) (s : UniformState) :
    cleanEncodedCameraPositionMC core (cleanEncodedCameraPositionMC core s) = cleanEncodedCameraPositionMC core s := by
  have h := cleanEncodedCameraPositionMC_flag core s
  generalize cleanEncodedCameraPositionMC core s = t at h ⊢
  unfold cleanEncodedCameraPositionMC
  rw [if_neg (by simp [h])]

theorem getInverseModel_flag (s : UniformState) :
    s.getInverseModel.2._inverseModelDirty = false := by
  by_cases hd : s._inverseModelDirty = true
  · simp only [UniformState.getInverseModel, hd, if_true]
  · simp only [UniformState.getInverseModel, if_neg hd]
    simpa using hd

theorem getInverseModel_idem (s : UniformState) :
    s.getInverseModel.2.getInverseModel = s.getInverseModel := by
  have h := getInverseModel_flag s
  have hv : s.getInverseModel.1 = s.getInverseModel.2._inverseModel := rfl
  rw [Prod.ext_iff]
  rw [hv]
  generalize s.getInverseModel.2 = t at h ⊢
  unfold UniformState.getInverseModel
  simp [h]

/-! ## Preservation of viewport coherence -/

theorem viewportCoherent_new : ViewportCoherent UniformState.new :=
  fun _ => Or.inr ⟨rfl, rfl, rfl⟩

theorem viewportCoherent_cleanViewport (s : UniformState) (h : ViewportCoherent s) :
    ViewportCoherent (cleanViewport s) := by
  unfold cleanViewport
  by_cases hd : s._viewportDirty = true
  · rw [if_pos hd]
    exact fun _ => Or.inl ⟨rfl, rfl⟩
  · rw [if_neg hd]
    exact h

theorem viewportCoherent_cleanInverseProjection (s : UniformState)
    (h : ViewportCoherent s) : ViewportCoherent (cleanInverseProjection s) := by
  unfold cleanInverseProjection
  by_cases hd : s._inverseProjectionDirty = true
  · rw [if_pos hd]
    exact h
  · rw [if_neg hd]
    exact h

theorem viewportCoherent_cleanModelView (s : UniformState)
    (h : ViewportCoherent s) : ViewportCoherent (cleanModelView s) := by
  unfold cleanModelView
  by_cases hd : s._modelViewDirty = true
  · rw [if_pos hd]
    exact h
  · rw [if_neg hd]
    exact h

theorem viewportCoherent_cleanModelViewRelativeToEye (s : UniformState)
    (h : ViewportCoherent s) : ViewportCoherent (cleanModelViewRelativeToEye s) := by
  unfold cleanModelViewRelativeToEye
  by_cases hd : s._modelViewRelativeToEyeDirty = true
  · rw [if_pos hd]
    by_cases hn0 : s._modelViewDirty = true <;>
      simp only [UniformState.getModelView, cleanModelView, hn0, if_true, if_false,
        Bool.false_eq_true] <;>
      exact h
  · rw [if_neg hd]
    exact h

theorem viewportCoherent_cleanInverseModelView (s : UniformState)
    (h : ViewportCoherent s) : ViewportCoherent (cleanInverseModelView s) := by
  unfold cleanInverseModelView
  by_cases hd : s._inverseModelViewDirty = true
  · rw [if_pos hd]
    by_cases hn0 : s._modelViewDirty = true <;>
      simp only [UniformState.getModelView, cleanModelView, hn0, if_true, if_false,
        Bool.false_eq_true] <;>
      exact h
  · rw [if_neg hd]
    exact h

theorem viewportCoherent_cleanViewProjection (s : UniformState)
    (h : ViewportCoherent s) : ViewportCoherent (cleanViewProjection s) := by
  unfold cleanViewProjection
  by_cases hd : s._viewProjectionDirty = true
  · rw [if_pos hd]
    exact h
  · rw [if_neg hd]
    exact h

theorem viewportCoherent_cleanInverseViewProjection (s : UniformState)
    (h : ViewportCoherent s) : ViewportCoherent (cleanInverseViewProjection s) := by
  unfold cleanInverseViewProjection
  by_cases hd : s._inverseViewProjectionDirty = true
  · rw [if_pos hd]
    by_cases hn0 : s._viewProjectionDirty = true <;>
      simp only [UniformState.getViewProjection, cleanViewProjection, hn0, if_true, if_false,
        Bool.false_eq_true] <;>
      exact h
  · rw [if_neg hd]
    exact h

theorem viewportCoherent_cleanModelViewProjection (s : UniformState)
    (h : ViewportCoherent s) : ViewportCoherent (cleanModelViewProjection s) := by
  unfold cleanModelViewProjection
  by_cases hd : s._modelViewProjectionDirty = true
  · rw [if_pos hd]
    by_cases hn0 : s._modelViewDirty = true <;>
      simp only [UniformState.getModelView, cleanModelView, hn0, if_true, if_false,
        Bool.false_eq_true] <;>
      exact h
  · rw [if_neg hd]
    exact h

theorem viewportCoherent_cleanInverseModelViewProjection (s : UniformState)
    (h : ViewportCoherent s) : ViewportCoherent (cleanInverseModelViewProjection s) := by
  unfold cleanInverseModelViewProjection
  by_cases hd : s._inverseModelViewProjectionDirty = true
  · rw [if_pos hd]
    by_cases hn0 : s._modelViewProjectionDirty = true <;>
      by_cases hn1 : s._modelViewDirty = true <;>
      simp only [UniformState.getModelViewProjection, cleanModelViewProjection, UniformState.getModelView, cleanModelView, hn0, hn1, if_true, if_false,
        Bool.false_eq_true] <;>
      exact h
  · rw [if_neg hd]
    exact h

theorem viewportCoherent_cleanModelViewProjectionRelativeToEye (s : UniformState)
    (h : ViewportCoherent s) : ViewportCoherent (cleanModelViewProjectionRelativeToEye s) := by
  unfold cleanModelViewProjectionRelativeToEye
  by_cases hd : s._modelViewProjectionRelativeToEyeDirty = true
  · rw [if_pos hd]
    by_cases hn0 : s._modelViewRelativeToEyeDirty = true <;>
      by_cases hn1 : s._modelViewDirty = true <;>
      simp only [UniformState.getModelViewRelativeToEye, cleanModelViewRelativeToEye, UniformState.getModelView, cleanModelView, hn0, hn1, if_true, if_false,
        Bool.false_eq_true] <;>
      exact h
  · rw [if_neg hd]
    exact h

theorem viewportCoherent_cleanModelViewInfiniteProjection (s : UniformState)
    (h : ViewportCoherent s) : ViewportCoherent (cleanModelViewInfiniteProjection s) := by
  unfold cleanModelViewInfiniteProjection
  by_cases hd : s._modelViewInfiniteProjectionDirty = true
  · rw [if_pos hd]
    by_cases hn0 : s._modelViewDirty = true <;>
      simp only [UniformState.getModelView, cleanModelView, hn0, if_true, if_false,
        Bool.false_eq_true] <;>
      exact h
  · rw [if_neg hd]
    exact h

theorem viewportCoherent_cleanNormal (s : UniformState)
    (h : ViewportCoherent s) : ViewportCoherent (cleanNormal s) := by
  unfold cleanNormal
  by_cases hd : s._normalDirty = true
  · rw [if_pos hd]
    by_cases hn0 : s._inverseModelViewDirty = true <;>
      by_cases hn1 : s._modelViewDirty = true <;>
      simp only [UniformState.getInverseModelView, cleanInverseModelView, UniformState.getModelView, cleanModelView, hn0, hn1, if_true, if_false,
        Bool.false_eq_true] <;>
      exact h
  · rw [if_neg hd]
    exact h

theorem viewportCoherent_cleanInverseNormal (s : UniformState)
    (h : ViewportCoherent s) : ViewportCoherent (cleanInverseNormal s) := by
  unfold cleanInverseNormal
  by_cases hd : s._inverseNormalDirty = true
  · rw [if_pos hd]
    by_cases hn0 : s._inverseModelViewDirty = true <;>
      by_cases hn1 : s._modelViewDirty = true <;>
      simp only [UniformState.getInverseModelView, cleanInverseModelView, UniformState.getModelView, cleanModelView, hn0, hn1, if_true, if_false,
        Bool.false_eq_true] <;>
      exact h
  · rw [if_neg hd]
    exact h

theorem viewportCoherent_cleanSunDirectionEC (core : CoreNumerics) (s : UniformState)
    (h : ViewportCoherent s) : ViewportCoherent (cleanSunDirectionEC core s) := by
  unfold cleanSunDirectionEC
  by_cases hd : s._sunDirectionECDirty = true
  · rw [if_pos hd]
    exact h
  · rw [if_neg hd]
    exact h

theorem viewportCoherent_cleanSunDirectionWC (core : CoreNumerics) (s : UniformState)
    (h : ViewportCoherent s) : ViewportCoherent (cleanSunDirectionWC core s) := by
  unfold cleanSunDirectionWC
  by_cases hd : s._sunDirectionWCDirty = true
  · rw [if_pos hd]
    exact h
  · rw [if_neg hd]
    exact h

theorem viewportCoherent_cleanEncodedCameraPositionMC (core : CoreNumerics) (s : UniformState)
    (h : ViewportCoherent s) : ViewportCoherent (cleanEncodedCameraPositionMC core s) := by
  unfold cleanEncodedCameraPositionMC
  by_cases hd : s._encodedCameraPositionMCDirty = true
  · rw [if_pos hd]
    by_cases hn0 : s._inverseModelDirty = true <;>
      simp only [UniformState.getInverseModel, hn0, if_true, if_false,
        Bool.false_eq_true] <;>
      exact h
  · rw [if_neg hd]
    exact h

theorem viewportCoherent_getInverseModel (s : UniformState) (h : ViewportCoherent s) :
    ViewportCoherent s.getInverseModel.2 := by
  unfold UniformState.getInverseModel
  by_cases hd : s._inverseModelDirty = true
  · simp only [if_pos hd]
    exact h
  · simp only [if_neg hd]
    exact h

theorem viewportCoherent_read (core : CoreNumerics) (s : UniformState)
    (h : ViewportCoherent s) (g : Getter) : ViewportCoherent (s.read core g) := by
  cases g
  · exact viewportCoherent_cleanViewport s h
  · exact viewportCoherent_cleanViewport s h
  · exact viewportCoherent_getInverseModel s h
  · exact viewportCoherent_cleanInverseProjection s h
  · exact viewportCoherent_cleanModelView s h
  · exact viewportCoherent_cleanModelViewRelativeToEye s h
  · exact viewportCoherent_cleanInverseModelView s h
  · exact viewportCoherent_cleanViewProjection s h
  · exact viewportCoherent_cleanInverseViewProjection s h
  · exact viewportCoherent_cleanModelViewProjection s h
  · exact viewportCoherent_cleanInverseModelViewProjection s h
  · exact viewportCoherent_cleanModelViewProjectionRelativeToEye s h
  · exact viewportCoherent_cleanModelViewInfiniteProjection s h
  · exact viewportCoherent_cleanNormal s h
  · exact viewportCoherent_cleanInverseNormal s h
  · exact viewportCoherent_cleanSunDirectionEC core s h
  · exact viewportCoherent_cleanSunDirectionWC core s h
  · exact viewportCoherent_cleanEncodedCameraPositionMC core s h
  · exact viewportCoherent_cleanEncodedCameraPositionMC core s h

theorem viewportCoherent_call (core : CoreNumerics) (s : UniformState)
    (h : ViewportCoherent s) (c : Call) : ViewportCoherent (s.call core c) := by
  cases c with
  | update camera =>
    simp only [UniformState.call, UniformState.update, UniformState.updateFrustum]
    cases camera.frustum.infiniteProjectionMatrix <;> exact h
  | updateFrustum frustum =>
    simp only [UniformState.call, UniformState.updateFrustum]
    cases frustum.infiniteProjectionMatrix <;> exact h
  | setViewport viewport =>
    simp only [UniformState.call, UniformState.setViewport]
    split_ifs
    · exact fun hc => Bool.noConfusion hc
    · exact h
  | setModel matrix => exact h
  | setProjection matrix => exact h
  | setSunPosition sunPosition =>
    cases sunPosition with
    | none => exact h
    | some p => exact h
  | setFrameNumber frameNumber => exact h
  | read getter => exact viewportCoherent_read core s h getter

theorem viewportCoherent_run (core : CoreNumerics) (calls : List Call) (s : UniformState)
    (h : ViewportCoherent s) : ViewportCoherent (s.run core calls) := by
  induction calls generalizing s with
  | nil => exact h
  | cons c cs ih => exact ih (s.call core c) (viewportCoherent_call core s h c)

theorem viewportCoherent_of_reachable (core : CoreNumerics) (s : UniformState)
    (h : Reachable core s) : ViewportCoherent s := by
  obtain ⟨calls, rfl⟩ := h
  exact viewportCoherent_run core calls UniformState.new viewportCoherent_new

/-! ## Claims C11 to C20 -/

/-- C11: for every state (reachable or not) and every derived getter, a second
call right after the first returns the same value and leaves the whole state,
every cached value and every dirty flag, exactly as the first call left it. -/
theorem getter_twice_same_result (core : CoreNumerics) (s : UniformState) (g : Getter) :
    (s.get core g).2.get core g = s.get core g := by
  cases g <;>
    simp only [UniformState.get, UniformState.getViewportOrthographic,
      UniformState.getViewportTransformation, UniformState.getInverseProjection,
      UniformState.getModelView, UniformState.getModelViewRelativeToEye,
      UniformState.getInverseModelView, UniformState.getViewProjection,
      UniformState.getInverseViewProjection, UniformState.getModelViewProjection,
      UniformState.getInverseModelViewProjection,
      UniformState.getModelViewProjectionRelativeToEye,
      UniformState.getModelViewInfiniteProjection, UniformState.getNormal,
      UniformState.getInverseNormal, UniformState.getSunDirectionEC,
      UniformState.getSunDirectionWC, UniformState.getEncodedCameraPositionMCHigh,
      UniformState.getEncodedCameraPositionMCLow, getInverseModel_idem,
      cleanViewport_idem, cleanInverseProjection_idem, cleanModelView_idem,
      cleanModelViewRelativeToEye_idem, cleanInverseModelView_idem,
      cleanViewProjection_idem, cleanInverseViewProjection_idem,
      cleanModelViewProjection_idem, cleanInverseModelViewProjection_idem,
      cleanModelViewProjectionRelativeToEye_idem, cleanModelViewInfiniteProjection_idem,
      cleanNormal_idem, cleanInverseNormal_idem, cleanSunDirectionEC_idem,
      cleanSunDirectionWC_idem, cleanEncodedCameraPositionMC_idem]

/-- Counterexample for C12: in the state after `new UniformState();
getViewProjection()` the `viewProjection` flag is clear, and `setModel` of the
identity sets it; so `setModel` does not leave a clear flag clear. -/
theorem setModel_keeps_viewProjection_clean_counterexample :
    ¬ ∀ (s : UniformState) (M : Matrix4),
        s._viewProjectionDirty = false → (s.setModel M)._viewProjectionDirty = false := by
  intro h
  have h1 := h stateViewProjectionRead Matrix4.IDENTITY (by decide)
  exact absurd h1 (by decide)

/-- C12, amended: in every state `setModel(M)` sets the `viewProjection` dirty
flag, so the next `getViewProjection()` recomputes the entry; the value it
computes is `projection * view` for the stored matrices, whatever `M` is. -/
theorem setModel_sets_viewProjection_flag (s : UniformState) (M : Matrix4) :
    (s.setModel M)._viewProjectionDirty = true ∧
    (s.setModel M).getViewProjection.1 = Matrix4.multiply s._projection s._view ∧
    (s.setModel M).getViewProjection.2._viewProjectionDirty = false := by
  refine ⟨rfl, ?_, ?_⟩ <;>
    simp [UniformState.setModel, UniformState.getViewProjection, cleanViewProjection]

/-- C13: `setSunPosition` with an absent argument throws the `DeveloperError`
and the object is left as it was: the stored sun position, both cached sun
directions and every flag are those before the call. -/
theorem setSunPosition_absent_throws (core : CoreNumerics) (s : UniformState) :
    s.setSunPosition none = .error .sunPositionRequired ∧
    s.tryCall core (.setSunPosition none) = .error .sunPositionRequired ∧
    s.call core (.setSunPosition none) = s :=
  ⟨rfl, rfl, rfl⟩

/-- Counterexample for C14: on a new object `setProjection` with an absent
argument does not throw; the call completes with the identity stored as the
projection. -/
theorem setters_validate_counterexample :
    UniformState.new.tryCall CoreNumerics.sample (.setProjection none) =
      .ok (UniformState.new.setProjection none) ∧
    (∀ e : DeveloperError,
      UniformState.new.tryCall CoreNumerics.sample (.setProjection none) ≠ .error e) ∧
    (UniformState.new.setProjection none)._projection = Matrix4.IDENTITY := by
  refine ⟨rfl, ?_, rfl⟩
  intro e h
  simp [UniformState.tryCall] at h

/-- C14, amended: of `setProjection`, `setSunPosition` and `setFrameNumber`,
only `setSunPosition` checks that its argument is present and throws the
`DeveloperError` when it is absent; `setProjection` with an absent argument
completes and stores the identity matrix; `setFrameNumber` with an absent
argument completes and stores the absent value. -/
theorem setters_with_absent_argument (core : CoreNumerics) (s : UniformState) :
    s.tryCall core (.setSunPosition none) = .error .sunPositionRequired ∧
    s.tryCall core (.setProjection none) = .ok (s.setProjection none) ∧
    (s.setProjection none)._projection = Matrix4.IDENTITY ∧
    s.tryCall core (.setFrameNumber none) = .ok (s.setFrameNumber none) ∧
    (s.setFrameNumber none)._frameNumber = none :=
  ⟨rfl, rfl, rfl, rfl, rfl⟩

/-- C15: `setViewport(r)` with `r` equal by value (`x`, `y`, `width`, `height`)
to the stored viewport changes nothing: the whole state, with the viewport
flag and both cached viewport matrices, is the state before the call.  Hence
setting one rectangle twice, with or without a read of the viewport matrices in
between, makes the second call change nothing. -/
theorem setViewport_equal_rectangle (s : UniformState) (r : BoundingRectangle)
    (h : r.x = s._viewport.x ∧ r.y = s._viewport.y ∧ r.width = s._viewport.width ∧
      r.height = s._viewport.height) :
    s.setViewport r = s ∧
    (s.setViewport r)._viewportDirty = s._viewportDirty ∧
    (s.setViewport r)._viewportOrthographicMatrix = s._viewportOrthographicMatrix ∧
    (s.setViewport r)._viewportTransformation = s._viewportTransformation ∧
    (∀ q : BoundingRectangle, (s.setViewport q).setViewport q = s.setViewport q) ∧
    (∀ q : BoundingRectangle,
      (cleanViewport (s.setViewport q)).setViewport q = cleanViewport (s.setViewport q)) := by
  have key : ∀ (t : UniformState) (q : BoundingRectangle), q = t._viewport →
      t.setViewport q = t := by
    intro t q hq
    simp [UniformState.setViewport, BoundingRectangle.equals, hq]
  have hr : r = s._viewport := by
    ext
    · exact h.1
    · exact h.2.1
    · exact h.2.2.1
    · exact h.2.2.2
  have hv : ∀ q : BoundingRectangle, q = s._viewport ∨ (s.setViewport q)._viewport = q := by
    intro q
    by_cases hq : q = s._viewport
    · exact Or.inl hq
    · right
      have hne : BoundingRectangle.equals q s._viewport = false := by
        simp only [BoundingRectangle.equals, Bool.and_eq_false_iff, decide_eq_false_iff_not]
        by_contra hc
        push_neg at hc
        apply hq
        ext
        · exact hc.1.1.1
        · exact hc.1.1.2
        · exact hc.1.2
        · exact hc.2
      simp [UniformState.setViewport, hne]
  have hset : ∀ q : BoundingRectangle, (s.setViewport q)._viewport = q := by
    intro q
    rcases hv q with hq | hq
    · rw [key s q hq, hq]
    · exact hq
  have hclean : ∀ t : UniformState, (cleanViewport t)._viewport = t._viewport := by
    intro t
    unfold cleanViewport
    split_ifs <;> rfl
  rw [key s r hr]
  refine ⟨rfl, rfl, rfl, rfl, ?_, ?_⟩
  · intro q
    exact key _ q (hset q).symm
  · intro q
    exact key _ q (by rw [hclean, hset q])

/-- Witness for C15: after `setViewport(sampleViewport)` on a new object the
stored viewport is that rectangle, and setting it a second time changes
nothing. -/
theorem setViewport_equal_rectangle_witness :
    (sampleViewport.x = stateViewportSet._viewport.x ∧
      sampleViewport.y = stateViewportSet._viewport.y ∧
      sampleViewport.width = stateViewportSet._viewport.width ∧
      sampleViewport.height = stateViewportSet._viewport.height) ∧
    stateViewportSet.setViewport sampleViewport = stateViewportSet :=
  have h : sampleViewport.x = stateViewportSet._viewport.x ∧
      sampleViewport.y = stateViewportSet._viewport.y ∧
      sampleViewport.width = stateViewportSet._viewport.width ∧
      sampleViewport.height = stateViewportSet._viewport.height := by
    simp [stateViewportSet, UniformState.run, UniformState.call, UniformState.setViewport,
      BoundingRectangle.equals, sampleViewport, UniformState.new, BoundingRectangle.ZERO]
  ⟨h, (setViewport_equal_rectangle stateViewportSet sampleViewport h).1⟩

/-- Counterexample for C16: the newly constructed state is reachable, its
`getViewportTransformation()` returns the identity, and the viewport
transformation of its stored viewport `(0, 0, 0, 0)` with depth range `[0, 1]`
is another matrix (entry 0 is half the width, zero). -/
theorem viewport_getters_new_counterexample :
    Reachable CoreNumerics.sample UniformState.new ∧
    UniformState.new.getViewportTransformation.1 = Matrix4.IDENTITY ∧
    Formula.viewportTransformation UniformState.new =
      ⟨0, 0, 0, 0, 0, 0, 0, 0, 0, 0, 1 / 2, 0, 0, 0, 1 / 2, 1⟩ ∧
    UniformState.new.getViewportTransformation.1 ≠
      Formula.viewportTransformation UniformState.new := by
  have h1 : UniformState.new.getViewportTransformation.1 = Matrix4.IDENTITY := by
    simp [UniformState.getViewportTransformation, cleanViewport, UniformState.new]
  have h2 : Formula.viewportTransformation UniformState.new =
      ⟨0, 0, 0, 0, 0, 0, 0, 0, 0, 0, 1 / 2, 0, 0, 0, 1 / 2, 1⟩ := by
    simp [Formula.viewportTransformation, Matrix4.computeViewportTransformation,
      UniformState.new, BoundingRectangle.ZERO]
  refine ⟨⟨[], rfl⟩, h1, h2, ?_⟩
  rw [h1, h2]
  intro h
  have h0 := congrArg Matrix4.m0 h
  norm_num [Matrix4.IDENTITY] at h0

/-- C16, amended: in every reachable state whose stored viewport is not the
rectangle `(0, 0, 0, 0)` of the constructor, `getViewportOrthographic()` is the
orthographic off-center matrix for `left = x`, `right = x + width`,
`bottom = y`, `top = y + height`, `near = 0`, `far = 1` of the stored viewport
and `getViewportTransformation()` is its viewport transformation with depth
range `[0, 1]`; in a reachable state whose viewport is `(0, 0, 0, 0)` the two
getters return either those matrices or the identity; in the newly constructed
state both return the identity. -/
theorem viewport_getters_formula (core : CoreNumerics) (s : UniformState)
    (h : Reachable core s) :
    (s._viewport ≠ BoundingRectangle.ZERO →
      s.getViewportOrthographic.1 = Formula.viewportOrthographic s ∧
      s.getViewportTransformation.1 = Formula.viewportTransformation s) ∧
    ((s.getViewportOrthographic.1 = Formula.viewportOrthographic s ∧
        s.getViewportTransformation.1 = Formula.viewportTransformation s) ∨
      (s._viewport = BoundingRectangle.ZERO ∧
        s.getViewportOrthographic.1 = Matrix4.IDENTITY ∧
        s.getViewportTransformation.1 = Matrix4.IDENTITY)) ∧
    UniformState.new.getViewportOrthographic.1 = Matrix4.IDENTITY ∧
    UniformState.new.getViewportTransformation.1 = Matrix4.IDENTITY := by
  have hc := viewportCoherent_of_reachable core s h
  have hor : (s.getViewportOrthographic.1 = Formula.viewportOrthographic s ∧
        s.getViewportTransformation.1 = Formula.viewportTransformation s) ∨
      (s._viewport = BoundingRectangle.ZERO ∧
        s.getViewportOrthographic.1 = Matrix4.IDENTITY ∧
        s.getViewportTransformation.1 = Matrix4.IDENTITY) := by
    unfold UniformState.getViewportOrthographic UniformState.getViewportTransformation
      cleanViewport
    by_cases hd : s._viewportDirty = true
    · simp only [if_pos hd]
      exact Or.inl ⟨rfl, rfl⟩
    · simp only [if_neg hd]
      exact hc (by simpa using hd)
  refine ⟨?_, hor, ?_, ?_⟩
  · intro hne
    rcases hor with h1 | h1
    · exact h1
    · exact absurd h1.1 hne
  · simp [UniformState.getViewportOrthographic, cleanViewport, UniformState.new]
  · simp [UniformState.getViewportTransformation, cleanViewport, UniformState.new]

/-- Witness for C16: the state after `setViewport(sampleViewport)` on a new
object is reachable, its viewport is not `(0, 0, 0, 0)`, and both viewport
getters return the matrices of the formulas. -/
theorem viewport_getters_formula_witness :
    Reachable CoreNumerics.sample stateViewportSet ∧
    stateViewportSet._viewport ≠ BoundingRectangle.ZERO ∧
    stateViewportSet.getViewportOrthographic.1 =
      Formula.viewportOrthographic stateViewportSet ∧
    stateViewportSet.getViewportTransformation.1 =
      Formula.viewportTransformation stateViewportSet :=
  have hne : stateViewportSet._viewport ≠ BoundingRectangle.ZERO := by
    intro h
    have hw := congrArg BoundingRectangle.width h
    simp [stateViewportSet, UniformState.run, UniformState.call, UniformState.setViewport,
      BoundingRectangle.equals, sampleViewport, UniformState.new, BoundingRectangle.ZERO]
      at hw
  ⟨⟨_, rfl⟩, hne,
    (viewport_getters_formula CoreNumerics.sample stateViewportSet ⟨_, rfl⟩).1 hne⟩

/-- Counterexample for C17: immediately after construction the flag of the
viewport-derived matrices is clear, not set. -/
theorem new_viewport_flag_counterexample :
    ¬ (UniformState.new._viewportDirty = true) := by
  decide

/-- C17, amended: immediately after construction the sixteen flagged cache
entries are dirty (`inverseModel`, `inverseProjection`, `modelView`,
`modelViewRelativeToEye`, `inverseModelView`, `viewProjection`,
`inverseViewProjection`, `modelViewProjection`, `inverseModelViewProjection`,
`modelViewProjectionRelativeToEye`, `modelViewInfiniteProjection`, `normal`,
`inverseNormal`, `encodedCameraPosition`, `sunDirectionEC`, `sunDirectionWC`),
while the flag of the viewport-derived matrices is clear and both of them hold
the identity. -/
theorem new_flags :
    UniformState.new._inverseModelDirty = true ∧
    UniformState.new._inverseProjectionDirty = true ∧
    UniformState.new._modelViewDirty = true ∧
    UniformState.new._modelViewRelativeToEyeDirty = true ∧
    UniformState.new._inverseModelViewDirty = true ∧
    UniformState.new._viewProjectionDirty = true ∧
    UniformState.new._inverseViewProjectionDirty = true ∧
    UniformState.new._modelViewProjectionDirty = true ∧
    UniformState.new._inverseModelViewProjectionDirty = true ∧
    UniformState.new._modelViewProjectionRelativeToEyeDirty = true ∧
    UniformState.new._modelViewInfiniteProjectionDirty = true ∧
    UniformState.new._normalDirty = true ∧
    UniformState.new._inverseNormalDirty = true ∧
    UniformState.new._encodedCameraPositionMCDirty = true ∧
    UniformState.new._sunDirectionECDirty = true ∧
    UniformState.new._sunDirectionWCDirty = true ∧
    UniformState.new._viewportDirty = false ∧
    UniformState.new._viewportOrthographicMatrix = Matrix4.IDENTITY ∧
    UniformState.new._viewportTransformation = Matrix4.IDENTITY :=
  ⟨rfl, rfl, rfl, rfl, rfl, rfl, rfl, rfl, rfl, rfl, rfl, rfl, rfl, rfl, rfl, rfl, rfl, rfl,
    rfl⟩

/-- C18: immediately after construction `getModel()`, `getView()`,
`getInverseView()`, `getProjection()` and `getInfiniteProjection()` each return
the 4x4 identity matrix and `getFrameNumber()` returns 1. -/
theorem new_primary_getters :
    UniformState.new.getModel = Matrix4.IDENTITY ∧
    UniformState.new.getView = Matrix4.IDENTITY ∧
    UniformState.new.getInverseView = Matrix4.IDENTITY ∧
    UniformState.new.getProjection = Matrix4.IDENTITY ∧
    UniformState.new.getInfiniteProjection = Matrix4.IDENTITY ∧
    UniformState.new.getFrameNumber = some 1 :=
  ⟨rfl, rfl, rfl, rfl, rfl, rfl⟩

/-- C19: in every state and for every camera, after `update(camera)`
`getView()` is the camera's view matrix, `getInverseView()` its inverse-view
matrix, the stored camera position its world position and `getProjection()`
the projection matrix of `camera.frustum`; model, sun position, viewport and
frame number are those before the call. -/
theorem update_primary_fields (s : UniformState) (camera : Camera) :
    (s.update camera).getView = camera.viewMatrix ∧
    (s.update camera).getInverseView = camera.inverseViewMatrix ∧
    (s.update camera)._cameraPosition = camera.positionWC ∧
    (s.update camera).getProjection = camera.frustum.projectionMatrix ∧
    (s.update camera).getModel = s.getModel ∧
    (s.update camera).getSunPosition = s.getSunPosition ∧
    (s.update camera).getViewport = s.getViewport ∧
    (s.update camera).getFrameNumber = s.getFrameNumber := by
  unfold UniformState.update UniformState.updateFrustum
  cases camera.frustum.infiniteProjectionMatrix <;>
    exact ⟨rfl, rfl, rfl, rfl, rfl, rfl, rfl, rfl⟩

/-- C20: in every state, `updateFrustum` with a frustum that supplies no
infinite-projection matrix leaves the stored infinite projection, the cached
`modelViewInfiniteProjection` value and its dirty flag as they were; with a
frustum that supplies one, `getInfiniteProjection()` afterwards equals it and
`modelViewInfiniteProjection` is dirty. -/
theorem updateFrustum_infinite_projection (s : UniformState) (P m : Matrix4) :
    (s.updateFrustum ⟨P, none⟩)._infiniteProjection = s._infiniteProjection ∧
    (s.updateFrustum ⟨P, none⟩)._modelViewInfiniteProjection =
      s._modelViewInfiniteProjection ∧
    (s.updateFrustum ⟨P, none⟩)._modelViewInfiniteProjectionDirty =
      s._modelViewInfiniteProjectionDirty ∧
    (s.updateFrustum ⟨P, some m⟩).getInfiniteProjection = m ∧
    (s.updateFrustum ⟨P, some m⟩)._modelViewInfiniteProjectionDirty = true :=
  ⟨rfl, rfl, rfl, rfl, rfl⟩

/-! ## What a read leaves alone -/

theorem frame_cleanViewport (s : UniformState) :
    SamePrimary s (cleanViewport s) ∧ SameRotations s (cleanViewport s) ∧ NoFlagRaised s (cleanViewport s) := by
  unfold cleanViewport
  by_cases hd : s._viewportDirty = true
  · rw [if_pos hd]
    refine ⟨⟨rfl, rfl, rfl, rfl, rfl, rfl, rfl, rfl, rfl⟩, ⟨rfl, rfl⟩, ?_⟩ <;>
      (constructor <;> first | exact id | (intro hc; exact Bool.noConfusion hc) | (intro _; assumption))
  · rw [if_neg hd]
    refine ⟨⟨rfl, rfl, rfl, rfl, rfl, rfl, rfl, rfl, rfl⟩, ⟨rfl, rfl⟩, ?_⟩ <;>
      (constructor <;> first | exact id | (intro hc; exact Bool.noConfusion hc) | (intro _; assumption))

theorem frame_cleanInverseProjection (s : UniformState) :
    SamePrimary s (cleanInverseProjection s) ∧ SameRotations s (cleanInverseProjection s) ∧ NoFlagRaised s (cleanInverseProjection s) := by
  unfold cleanInverseProjection
  by_cases hd : s._inverseProjectionDirty = true
  · rw [if_pos hd]
    refine ⟨⟨rfl, rfl, rfl, rfl, rfl, rfl, rfl, rfl, rfl⟩, ⟨rfl, rfl⟩, ?_⟩ <;>
      (constructor <;> first | exact id | (intro hc; exact Bool.noConfusion hc) | (intro _; assumption))
  · rw [if_neg hd]
    refine ⟨⟨rfl, rfl, rfl, rfl, rfl, rfl, rfl, rfl, rfl⟩, ⟨rfl, rfl⟩, ?_⟩ <;>
      (constructor <;> first | exact id | (intro hc; exact Bool.noConfusion hc) | (intro _; assumption))

theorem frame_cleanModelView (s : UniformState) :
    SamePrimary s (cleanModelView s) ∧ SameRotations s (cleanModelView s) ∧ NoFlagRaised s (cleanModelView s) := by
  unfold cleanModelView
  by_cases hd : s._modelViewDirty = true
  · rw [if_pos hd]
    refine ⟨⟨rfl, rfl, rfl, rfl, rfl, rfl, rfl, rfl, rfl⟩, ⟨rfl, rfl⟩, ?_⟩ <;>
      (constructor <;> first | exact id | (intro hc; exact Bool.noConfusion hc) | (intro _; assumption))
  · rw [if_neg hd]
    refine ⟨⟨rfl, rfl, rfl, rfl, rfl, rfl, rfl, rfl, rfl⟩, ⟨rfl, rfl⟩, ?_⟩ <;>
      (constructor <;> first | exact id | (intro hc; exact Bool.noConfusion hc) | (intro _; assumption))

theorem frame_cleanModelViewRelativeToEye (s : UniformState) :
    SamePrimary s (cleanModelViewRelativeToEye s) ∧ SameRotations s (cleanModelViewRelativeToEye s) ∧ NoFlagRaised s (cleanModelViewRelativeToEye s) := by
  unfold cleanModelViewRelativeToEye
  by_cases hd : s._modelViewRelativeToEyeDirty = true
  · rw [if_pos hd]
    by_cases hn0 : s._modelViewDirty = true <;>
      simp only [UniformState.getModelView, cleanModelView, hn0, if_true, if_false,
        Bool.false_eq_true] <;>
      refine ⟨⟨rfl, rfl, rfl, rfl, rfl, rfl, rfl, rfl, rfl⟩, ⟨rfl, rfl⟩, ?_⟩ <;>
      (constructor <;> first | exact id | (intro hc; exact Bool.noConfusion hc) | (intro _; assumption))
  · rw [if_neg hd]
    refine ⟨⟨rfl, rfl, rfl, rfl, rfl, rfl, rfl, rfl, rfl⟩, ⟨rfl, rfl⟩, ?_⟩ <;>
      (constructor <;> first | exact id | (intro hc; exact Bool.noConfusion hc) | (intro _; assumption))

theorem frame_cleanInverseModelView (s : UniformState) :
    SamePrimary s (cleanInverseModelView s) ∧ SameRotations s (cleanInverseModelView s) ∧ NoFlagRaised s (cleanInverseModelView s) := by
  unfold cleanInverseModelView
  by_cases hd : s._inverseModelViewDirty = true
  · rw [if_pos hd]
    by_cases hn0 : s._modelViewDirty = true <;>
      simp only [UniformState.getModelView, cleanModelView, hn0, if_true, if_false,
        Bool.false_eq_true] <;>
      refine ⟨⟨rfl, rfl, rfl, rfl, rfl, rfl, rfl, rfl, rfl⟩, ⟨rfl, rfl⟩, ?_⟩ <;>
      (constructor <;> first | exact id | (intro hc; exact Bool.noConfusion hc) | (intro _; assumption))
  · rw [if_neg hd]
    refine ⟨⟨rfl, rfl, rfl, rfl, rfl, rfl, rfl, rfl, rfl⟩, ⟨rfl, rfl⟩, ?_⟩ <;>
      (constructor <;> first | exact id | (intro hc; exact Bool.noConfusion hc) | (intro _; assumption))

theorem frame_cleanViewProjection (s : UniformState) :
    SamePrimary s (cleanViewProjection s) ∧ SameRotations s (cleanViewProjection s) ∧ NoFlagRaised s (cleanViewProjection s) := by
  unfold cleanViewProjection
  by_cases hd : s._viewProjectionDirty = true
  · rw [if_pos hd]
    refine ⟨⟨rfl, rfl, rfl, rfl, rfl, rfl, rfl, rfl, rfl⟩, ⟨rfl, rfl⟩, ?_⟩ <;>
      (constructor <;> first | exact id | (intro hc; exact Bool.noConfusion hc) | (intro _; assumption))
  · rw [if_neg hd]
    refine ⟨⟨rfl, rfl, rfl, rfl, rfl, rfl, rfl, rfl, rfl⟩, ⟨rfl, rfl⟩, ?_⟩ <;>
      (constructor <;> first | exact id | (intro hc; exact Bool.noConfusion hc) | (intro _; assumption))

theorem frame_cleanInverseViewProjection (s : UniformState) :
    SamePrimary s (cleanInverseViewProjection s) ∧ SameRotations s (cleanInverseViewProjection s) ∧ NoFlagRaised s (cleanInverseViewProjection s) := by
  unfold cleanInverseViewProjection
  by_cases hd : s._inverseViewProjectionDirty = true
  · rw [if_pos hd]
    by_cases hn0 : s._viewProjectionDirty = true <;>
      simp only [UniformState.getViewProjection, cleanViewProjection, hn0, if_true, if_false,
        Bool.false_eq_true] <;>
      refine ⟨⟨rfl, rfl, rfl, rfl, rfl, rfl, rfl, rfl, rfl⟩, ⟨rfl, rfl⟩, ?_⟩ <;>
      (constructor <;> first | exact id | (intro hc; exact Bool.noConfusion hc) | (intro _; assumption))
  · rw [if_neg hd]
    refine ⟨⟨rfl, rfl, rfl, rfl, rfl, rfl, rfl, rfl, rfl⟩, ⟨rfl, rfl⟩, ?_⟩ <;>
      (constructor <;> first | exact id | (intro hc; exact Bool.noConfusion hc) | (intro _; assumption))

theorem frame_cleanModelViewProjection (s : UniformState) :
    SamePrimary s (cleanModelViewProjection s) ∧ SameRotations s (cleanModelViewProjection s) ∧ NoFlagRaised s (cleanModelViewProjection s) := by
  unfold cleanModelViewProjection
  by_cases hd : s._modelViewProjectionDirty = true
  · rw [if_pos hd]
    by_cases hn0 : s._modelViewDirty = true <;>
      simp only [UniformState.getModelView, cleanModelView, hn0, if_true, if_false,
        Bool.false_eq_true] <;>
      refine ⟨⟨rfl, rfl, rfl, rfl, rfl, rfl, rfl, rfl, rfl⟩, ⟨rfl, rfl⟩, ?_⟩ <;>
      (constructor <;> first | exact id | (intro hc; exact Bool.noConfusion hc) | (intro _; assumption))
  · rw [if_neg hd]
    refine ⟨⟨rfl, rfl, rfl, rfl, rfl, rfl, rfl, rfl, rfl⟩, ⟨rfl, rfl⟩, ?_⟩ <;>
      (constructor <;> first | exact id | (intro hc; exact Bool.noConfusion hc) | (intro _; assumption))

theorem frame_cleanInverseModelViewProjection (s : UniformState) :
    SamePrimary s (cleanInverseModelViewProjection s) ∧ SameRotations s (cleanInverseModelViewProjection s) ∧ NoFlagRaised s (cleanInverseModelViewProjection s) := by
  unfold cleanInverseModelViewProjection
  by_cases hd : s._inverseModelViewProjectionDirty = true
  · rw [if_pos hd]
    by_cases hn0 : s._modelViewProjectionDirty = true <;>
      by_cases hn1 : s._modelViewDirty = true <;>
      simp only [UniformState.getModelViewProjection, cleanModelViewProjection, UniformState.getModelView, cleanModelView, hn0, hn1, if_true, if_false,
        Bool.false_eq_true] <;>
      refine ⟨⟨rfl, rfl, rfl, rfl, rfl, rfl, rfl, rfl, rfl⟩, ⟨rfl, rfl⟩, ?_⟩ <;>
      (constructor <;> first | exact id | (intro hc; exact Bool.noConfusion hc) | (intro _; assumption))
  · rw [if_neg hd]
    refine ⟨⟨rfl, rfl, rfl, rfl, rfl, rfl, rfl, rfl, rfl⟩, ⟨rfl, rfl⟩, ?_⟩ <;>
      (constructor <;> first | exact id | (intro hc; exact Bool.noConfusion hc) | (intro _; assumption))

theorem frame_cleanModelViewProjectionRelativeToEye (s : UniformState) :
    SamePrimary s (cleanModelViewProjectionRelativeToEye s) ∧ SameRotations s (cleanModelViewProjectionRelativeToEye s) ∧ NoFlagRaised s (cleanModelViewProjectionRelativeToEye s) := by
  unfold cleanModelViewProjectionRelativeToEye
  by_cases hd : s._modelViewProjectionRelativeToEyeDirty = true
  · rw [if_pos hd]
    by_cases hn0 : s._modelViewRelativeToEyeDirty = true <;>
      by_cases hn1 : s._modelViewDirty = true <;>
      simp only [UniformState.getModelViewRelativeToEye, cleanModelViewRelativeToEye, UniformState.getModelView, cleanModelView, hn0, hn1, if_true, if_false,
        Bool.false_eq_true] <;>
      refine ⟨⟨rfl, rfl, rfl, rfl, rfl, rfl, rfl, rfl, rfl⟩, ⟨rfl, rfl⟩, ?_⟩ <;>
      (constructor <;> first | exact id | (intro hc; exact Bool.noConfusion hc) | (intro _; assumption))
  · rw [if_neg hd]
    refine ⟨⟨rfl, rfl, rfl, rfl, rfl, rfl, rfl, rfl, rfl⟩, ⟨rfl, rfl⟩, ?_⟩ <;>
      (constructor <;> first | exact id | (intro hc; exact Bool.noConfusion hc) | (intro _; assumption))

theorem frame_cleanModelViewInfiniteProjection (s : UniformState) :
    SamePrimary s (cleanModelViewInfiniteProjection s) ∧ SameRotations s (cleanModelViewInfiniteProjection s) ∧ NoFlagRaised s (cleanModelViewInfiniteProjection s) := by
  unfold cleanModelViewInfiniteProjection
  by_cases hd : s._modelViewInfiniteProjectionDirty = true
  · rw [if_pos hd]
    by_cases hn0 : s._modelViewDirty = true <;>
      simp only [UniformState.getModelView, cleanModelView, hn0, if_true, if_false,
        Bool.false_eq_true] <;>
      refine ⟨⟨rfl, rfl, rfl, rfl, rfl, rfl, rfl, rfl, rfl⟩, ⟨rfl, rfl⟩, ?_⟩ <;>
      (constructor <;> first | exact id | (intro hc; exact Bool.noConfusion hc) | (intro _; assumption))
  · rw [if_neg hd]
    refine ⟨⟨rfl, rfl, rfl, rfl, rfl, rfl, rfl, rfl, rfl⟩, ⟨rfl, rfl⟩, ?_⟩ <;>
      (constructor <;> first | exact id | (intro hc; exact Bool.noConfusion hc) | (intro _; assumption))

theorem frame_cleanNormal (s : UniformState) :
    SamePrimary s (cleanNormal s) ∧ SameRotations s (cleanNormal s) ∧ NoFlagRaised s (cleanNormal s) := by
  unfold cleanNormal
  by_cases hd : s._normalDirty = true
  · rw [if_pos hd]
    by_cases hn0 : s._inverseModelViewDirty = true <;>
      by_cases hn1 : s._modelViewDirty = true <;>
      simp only [UniformState.getInverseModelView, cleanInverseModelView, UniformState.getModelView, cleanModelView, hn0, hn1, if_true, if_false,
        Bool.false_eq_true] <;>
      refine ⟨⟨rfl, rfl, rfl, rfl, rfl, rfl, rfl, rfl, rfl⟩, ⟨rfl, rfl⟩, ?_⟩ <;>
      (constructor <;> first | exact id | (intro hc; exact Bool.noConfusion hc) | (intro _; assumption))
  · rw [if_neg hd]
    refine ⟨⟨rfl, rfl, rfl, rfl, rfl, rfl, rfl, rfl, rfl⟩, ⟨rfl, rfl⟩, ?_⟩ <;>
      (constructor <;> first | exact id | (intro hc; exact Bool.noConfusion hc) | (intro _; assumption))

theorem frame_cleanInverseNormal (s : UniformState) :
    SamePrimary s (cleanInverseNormal s) ∧ SameRotations s (cleanInverseNormal s) ∧ NoFlagRaised s (cleanInverseNormal s) := by
  unfold cleanInverseNormal
  by_cases hd : s._inverseNormalDirty = true
  · rw [if_pos hd]
    by_cases hn0 : s._inverseModelViewDirty = true <;>
      by_cases hn1 : s._modelViewDirty = true <;>
      simp only [UniformState.getInverseModelView, cleanInverseModelView, UniformState.getModelView, cleanModelView, hn0, hn1, if_true, if_false,
        Bool.false_eq_true] <;>
      refine ⟨⟨rfl, rfl, rfl, rfl, rfl, rfl, rfl, rfl, rfl⟩, ⟨rfl, rfl⟩, ?_⟩ <;>
      (constructor <;> first | exact id | (intro hc; exact Bool.noConfusion hc) | (intro _; assumption))
  · rw [if_neg hd]
    refine ⟨⟨rfl, rfl, rfl, rfl, rfl, rfl, rfl, rfl, rfl⟩, ⟨rfl, rfl⟩, ?_⟩ <;>
      (constructor <;> first | exact id | (intro hc; exact Bool.noConfusion hc) | (intro _; assumption))

theorem frame_cleanSunDirectionEC (core : CoreNumerics) (s : UniformState) :
    SamePrimary s (cleanSunDirectionEC core s) ∧ SameRotations s (cleanSunDirectionEC core s) ∧ NoFlagRaised s (cleanSunDirectionEC core s) := by
  unfold cleanSunDirectionEC
  by_cases hd : s._sunDirectionECDirty = true
  · rw [if_pos hd]
    refine ⟨⟨rfl, rfl, rfl, rfl, rfl, rfl, rfl, rfl, rfl⟩, ⟨rfl, rfl⟩, ?_⟩ <;>
      (constructor <;> first | exact id | (intro hc; exact Bool.noConfusion hc) | (intro _; assumption))
  · rw [if_neg hd]
    refine ⟨⟨rfl, rfl, rfl, rfl, rfl, rfl, rfl, rfl, rfl⟩, ⟨rfl, rfl⟩, ?_⟩ <;>
      (constructor <;> first | exact id | (intro hc; exact Bool.noConfusion hc) | (intro _; assumption))

theorem frame_cleanSunDirectionWC (core : CoreNumerics) (s : UniformState) :
    SamePrimary s (cleanSunDirectionWC core s) ∧ SameRotations s (cleanSunDirectionWC core s) ∧ NoFlagRaised s (cleanSunDirectionWC core s) := by
  unfold cleanSunDirectionWC
  by_cases hd : s._sunDirectionWCDirty = true
  · rw [if_pos hd]
    refine ⟨⟨rfl, rfl, rfl, rfl, rfl, rfl, rfl, rfl, rfl⟩, ⟨rfl, rfl⟩, ?_⟩ <;>
      (constructor <;> first | exact id | (intro hc; exact Bool.noConfusion hc) | (intro _; assumption))
  · rw [if_neg hd]
    refine ⟨⟨rfl, rfl, rfl, rfl, rfl, rfl, rfl, rfl, rfl⟩, ⟨rfl, rfl⟩, ?_⟩ <;>
      (constructor <;> first | exact id | (intro hc; exact Bool.noConfusion hc) | (intro _; assumption))

theorem frame_cleanEncodedCameraPositionMC (core : CoreNumerics) (s : UniformState) :
    SamePrimary s (cleanEncodedCameraPositionMC core s) ∧ SameRotations s (cleanEncodedCameraPositionMC core s) ∧ NoFlagRaised s (cleanEncodedCameraPositionMC core s) := by
  unfold cleanEncodedCameraPositionMC
  by_cases hd : s._encodedCameraPositionMCDirty = true
  · rw [if_pos hd]
    by_cases hn0 : s._inverseModelDirty = true <;>
      simp only [UniformState.getInverseModel, hn0, if_true, if_false,
        Bool.false_eq_true] <;>
      refine ⟨⟨rfl, rfl, rfl, rfl, rfl, rfl, rfl, rfl, rfl⟩, ⟨rfl, rfl⟩, ?_⟩ <;>
      (constructor <;> first | exact id | (intro hc; exact Bool.noConfusion hc) | (intro _; assumption))
  · rw [if_neg hd]
    refine ⟨⟨rfl, rfl, rfl, rfl, rfl, rfl, rfl, rfl, rfl⟩, ⟨rfl, rfl⟩, ?_⟩ <;>
      (constructor <;> first | exact id | (intro hc; exact Bool.noConfusion hc) | (intro _; assumption))

theorem frame_getInverseModel (s : UniformState) :
    SamePrimary s (s.getInverseModel.2) ∧ SameRotations s (s.getInverseModel.2) ∧ NoFlagRaised s (s.getInverseModel.2) := by
  unfold UniformState.getInverseModel
  by_cases hd : s._inverseModelDirty = true
  · simp only [if_pos hd]
    refine ⟨⟨rfl, rfl, rfl, rfl, rfl, rfl, rfl, rfl, rfl⟩, ⟨rfl, rfl⟩, ?_⟩ <;>
      (constructor <;> first | exact id | (intro hc; exact Bool.noConfusion hc) | (intro _; assumption))
  · simp only [if_neg hd]
    refine ⟨⟨rfl, rfl, rfl, rfl, rfl, rfl, rfl, rfl, rfl⟩, ⟨rfl, rfl⟩, ?_⟩ <;>
      (constructor <;> first | exact id | (intro hc; exact Bool.noConfusion hc) | (intro _; assumption))

theorem frame_read (core : CoreNumerics) (s : UniformState) (g : Getter) :
    SamePrimary s (s.read core g) ∧ SameRotations s (s.read core g) ∧ NoFlagRaised s (s.read core g) := by
  cases g
  · exact frame_cleanViewport s
  · exact frame_cleanViewport s
  · exact frame_getInverseModel s
  · exact frame_cleanInverseProjection s
  · exact frame_cleanModelView s
  · exact frame_cleanModelViewRelativeToEye s
  · exact frame_cleanInverseModelView s
  · exact frame_cleanViewProjection s
  · exact frame_cleanInverseViewProjection s
  · exact frame_cleanModelViewProjection s
  · exact frame_cleanInverseModelViewProjection s
  · exact frame_cleanModelViewProjectionRelativeToEye s
  · exact frame_cleanModelViewInfiniteProjection s
  · exact frame_cleanNormal s
  · exact frame_cleanInverseNormal s
  · exact frame_cleanSunDirectionEC core s
  · exact frame_cleanSunDirectionWC core s
  · exact frame_cleanEncodedCameraPositionMC core s
  · exact frame_cleanEncodedCameraPositionMC core s

theorem read_flag (core : CoreNumerics) (s : UniformState) (g : Getter) :
    g.flag (s.read core g) = false := by
  cases g
  · exact cleanViewport_flag s
  · exact cleanViewport_flag s
  · exact getInverseModel_flag s
  · exact cleanInverseProjection_flag s
  · exact cleanModelView_flag s
  · exact cleanModelViewRelativeToEye_flag s
  · exact cleanInverseModelView_flag s
  · exact cleanViewProjection_flag s
  · exact cleanInverseViewProjection_flag s
  · exact cleanModelViewProjection_flag s
  · exact cleanInverseModelViewProjection_flag s
  · exact cleanModelViewProjectionRelativeToEye_flag s
  · exact cleanModelViewInfiniteProjection_flag s
  · exact cleanNormal_flag s
  · exact cleanInverseNormal_flag s
  · exact cleanSunDirectionEC_flag core s
  · exact cleanSunDirectionWC_flag core s
  · exact cleanEncodedCameraPositionMC_flag core s
  · exact cleanEncodedCameraPositionMC_flag core s

/-! ## The view rotation -/

theorem rotationSynced_update (s : UniformState) (camera : Camera) :
    RotationSynced (s.update camera) := by
  unfold UniformState.update UniformState.updateFrustum
  cases camera.frustum.infiniteProjectionMatrix <;> rfl

theorem rotationSynced_call (core : CoreNumerics) (s : UniformState)
    (h : RotationSynced s) (c : Call) : RotationSynced (s.call core c) := by
  cases c with
  | update camera => exact rotationSynced_update s camera
  | updateFrustum frustum =>
    simp only [UniformState.call, UniformState.updateFrustum]
    cases frustum.infiniteProjectionMatrix <;> exact h
  | setViewport viewport =>
    simp only [UniformState.call, UniformState.setViewport]
    split_ifs <;> exact h
  | setModel matrix => exact h
  | setProjection matrix => exact h
  | setSunPosition sunPosition =>
    cases sunPosition with
    | none => exact h
    | some p => exact h
  | setFrameNumber frameNumber => exact h
  | read getter =>
    have hf := frame_read core s getter
    unfold RotationSynced
    simp only [UniformState.call]
    rw [hf.2.1.viewRotation, hf.1.view]
    exact h

theorem rotationSynced_run (core : CoreNumerics) (calls : List Call) (s : UniformState)
    (h : RotationSynced s) : RotationSynced (s.run core calls) := by
  induction calls generalizing s with
  | nil => exact h
  | cons c cs ih => exact ih (s.call core c) (rotationSynced_call core s h c)

/-! ## Values returned in a coherent state -/

theorem getInverseProjection_formula (core : CoreNumerics) (s : UniformState)
    (h : Coherent core s) : s.getInverseProjection.1 = Formula.inverseProjection s := by
  have hc := coherent_cleanInverseProjection core s h
  have hf := cleanInverseProjection_flag s
  have hp := (frame_cleanInverseProjection s).1
  show (cleanInverseProjection s)._inverseProjection = _
  rw [hc.inverseProjection hf]
  simp only [Formula.inverseModel, Formula.inverseProjection, Formula.modelView,
    Formula.modelViewRelativeToEye, Formula.inverseModelView, Formula.viewProjection,
    Formula.modelViewProjection, Formula.modelViewInfiniteProjection, Formula.normal,
    Formula.inverseNormal, Formula.sunDirectionWC, Formula.encodedCameraPosition, hp.model, hp.view, hp.projection, hp.infiniteProjection, hp.sunPosition,
    hp.cameraPosition]

theorem getModelView_formula (core : CoreNumerics) (s : UniformState)
    (h : Coherent core s) : s.getModelView.1 = Formula.modelView s := by
  have hc := coherent_cleanModelView core s h
  have hf := cleanModelView_flag s
  have hp := (frame_cleanModelView s).1
  show (cleanModelView s)._modelView = _
  rw [hc.modelView hf]
  simp only [Formula.inverseModel, Formula.inverseProjection, Formula.modelView,
    Formula.modelViewRelativeToEye, Formula.inverseModelView, Formula.viewProjection,
    Formula.modelViewProjection, Formula.modelViewInfiniteProjection, Formula.normal,
    Formula.inverseNormal, Formula.sunDirectionWC, Formula.encodedCameraPosition, hp.model, hp.view, hp.projection, hp.infiniteProjection, hp.sunPosition,
    hp.cameraPosition]

theorem getModelViewRelativeToEye_formula (core : CoreNumerics) (s : UniformState)
    (h : Coherent core s) : s.getModelViewRelativeToEye.1 = Formula.modelViewRelativeToEye s := by
  have hc := coherent_cleanModelViewRelativeToEye core s h
  have hf := cleanModelViewRelativeToEye_flag s
  have hp := (frame_cleanModelViewRelativeToEye s).1
  show (cleanModelViewRelativeToEye s)._modelViewRelativeToEye = _
  rw [hc.modelViewRelativeToEye hf]
  simp only [Formula.inverseModel, Formula.inverseProjection, Formula.modelView,
    Formula.modelViewRelativeToEye, Formula.inverseModelView, Formula.viewProjection,
    Formula.modelViewProjection, Formula.modelViewInfiniteProjection, Formula.normal,
    Formula.inverseNormal, Formula.sunDirectionWC, Formula.encodedCameraPosition, hp.model, hp.view, hp.projection, hp.infiniteProjection, hp.sunPosition,
    hp.cameraPosition]

theorem getInverseModelView_formula (core : CoreNumerics) (s : UniformState)
    (h : Coherent core s) : s.getInverseModelView.1 = Formula.inverseModelView s := by
  have hc := coherent_cleanInverseModelView core s h
  have hf := cleanInverseModelView_flag s
  have hp := (frame_cleanInverseModelView s).1
  show (cleanInverseModelView s)._inverseModelView = _
  rw [hc.inverseModelView hf]
  simp only [Formula.inverseModel, Formula.inverseProjection, Formula.modelView,
    Formula.modelViewRelativeToEye, Formula.inverseModelView, Formula.viewProjection,
    Formula.modelViewProjection, Formula.modelViewInfiniteProjection, Formula.normal,
    Formula.inverseNormal, Formula.sunDirectionWC, Formula.encodedCameraPosition, hp.model, hp.view, hp.projection, hp.infiniteProjection, hp.sunPosition,
    hp.cameraPosition]

theorem getViewProjection_formula (core : CoreNumerics) (s : UniformState)
    (h : Coherent core s) : s.getViewProjection.1 = Formula.viewProjection s := by
  have hc := coherent_cleanViewProjection core s h
  have hf := cleanViewProjection_flag s
  have hp := (frame_cleanViewProjection s).1
  show (cleanViewProjection s)._viewProjection = _
  rw [hc.viewProjection hf]
  simp only [Formula.inverseModel, Formula.inverseProjection, Formula.modelView,
    Formula.modelViewRelativeToEye, Formula.inverseModelView, Formula.viewProjection,
    Formula.modelViewProjection, Formula.modelViewInfiniteProjection, Formula.normal,
    Formula.inverseNormal, Formula.sunDirectionWC, Formula.encodedCameraPosition, hp.model, hp.view, hp.projection, hp.infiniteProjection, hp.sunPosition,
    hp.cameraPosition]

theorem getModelViewProjection_formula (core : CoreNumerics) (s : UniformState)
    (h : Coherent core s) : s.getModelViewProjection.1 = Formula.modelViewProjection s := by
  have hc := coherent_cleanModelViewProjection core s h
  have hf := cleanModelViewProjection_flag s
  have hp := (frame_cleanModelViewProjection s).1
  show (cleanModelViewProjection s)._modelViewProjection = _
  rw [hc.modelViewProjection hf]
  simp only [Formula.inverseModel, Formula.inverseProjection, Formula.modelView,
    Formula.modelViewRelativeToEye, Formula.inverseModelView, Formula.viewProjection,
    Formula.modelViewProjection, Formula.modelViewInfiniteProjection, Formula.normal,
    Formula.inverseNormal, Formula.sunDirectionWC, Formula.encodedCameraPosition, hp.model, hp.view, hp.projection, hp.infiniteProjection, hp.sunPosition,
    hp.cameraPosition]

theorem getModelViewInfiniteProjection_formula (core : CoreNumerics) (s : UniformState)
    (h : Coherent core s) : s.getModelViewInfiniteProjection.1 = Formula.modelViewInfiniteProjection s := by
  have hc := coherent_cleanModelViewInfiniteProjection core s h
  have hf := cleanModelViewInfiniteProjection_flag s
  have hp := (frame_cleanModelViewInfiniteProjection s).1
  show (cleanModelViewInfiniteProjection s)._modelViewInfiniteProjection = _
  rw [hc.modelViewInfiniteProjection hf]
  simp only [Formula.inverseModel, Formula.inverseProjection, Formula.modelView,
    Formula.modelViewRelativeToEye, Formula.inverseModelView, Formula.viewProjection,
    Formula.modelViewProjection, Formula.modelViewInfiniteProjection, Formula.normal,
    Formula.inverseNormal, Formula.sunDirectionWC, Formula.encodedCameraPosition, hp.model, hp.view, hp.projection, hp.infiniteProjection, hp.sunPosition,
    hp.cameraPosition]

theorem getNormal_formula (core : CoreNumerics) (s : UniformState)
    (h : Coherent core s) : s.getNormal.1 = Formula.normal s := by
  have hc := coherent_cleanNormal core s h
  have hf := cleanNormal_flag s
  have hp := (frame_cleanNormal s).1
  show (cleanNormal s)._normal = _
  rw [hc.normal hf]
  simp only [Formula.inverseModel, Formula.inverseProjection, Formula.modelView,
    Formula.modelViewRelativeToEye, Formula.inverseModelView, Formula.viewProjection,
    Formula.modelViewProjection, Formula.modelViewInfiniteProjection, Formula.normal,
    Formula.inverseNormal, Formula.sunDirectionWC, Formula.encodedCameraPosition, hp.model, hp.view, hp.projection, hp.infiniteProjection, hp.sunPosition,
    hp.cameraPosition]

theorem getInverseNormal_formula (core : CoreNumerics) (s : UniformState)
    (h : Coherent core s) : s.getInverseNormal.1 = Formula.inverseNormal s := by
  have hc := coherent_cleanInverseNormal core s h
  have hf := cleanInverseNormal_flag s
  have hp := (frame_cleanInverseNormal s).1
  show (cleanInverseNormal s)._inverseNormal = _
  rw [hc.inverseNormal hf]
  simp only [Formula.inverseModel, Formula.inverseProjection, Formula.modelView,
    Formula.modelViewRelativeToEye, Formula.inverseModelView, Formula.viewProjection,
    Formula.modelViewProjection, Formula.modelViewInfiniteProjection, Formula.normal,
    Formula.inverseNormal, Formula.sunDirectionWC, Formula.encodedCameraPosition, hp.model, hp.view, hp.projection, hp.infiniteProjection, hp.sunPosition,
    hp.cameraPosition]

theorem getSunDirectionWC_formula (core : CoreNumerics) (s : UniformState)
    (h : Coherent core s) : (s.getSunDirectionWC core).1 = Formula.sunDirectionWC core s := by
  have hc := coherent_cleanSunDirectionWC core s h
  have hf := cleanSunDirectionWC_flag core s
  have hp := (frame_cleanSunDirectionWC core s).1
  show (cleanSunDirectionWC core s)._sunDirectionWC = _
  rw [hc.sunDirectionWC hf]
  simp only [Formula.inverseModel, Formula.inverseProjection, Formula.modelView,
    Formula.modelViewRelativeToEye, Formula.inverseModelView, Formula.viewProjection,
    Formula.modelViewProjection, Formula.modelViewInfiniteProjection, Formula.normal,
    Formula.inverseNormal, Formula.sunDirectionWC, Formula.encodedCameraPosition, hp.model, hp.view, hp.projection, hp.infiniteProjection, hp.sunPosition,
    hp.cameraPosition]

theorem getInverseModel_formula (core : CoreNumerics) (s : UniformState)
    (h : Coherent core s) : s.getInverseModel.1 = Formula.inverseModel s := by
  have hc := coherent_getInverseModel core s h
  have hf := getInverseModel_flag s
  have hp := (frame_getInverseModel s).1
  show s.getInverseModel.2._inverseModel = _
  rw [hc.inverseModel hf]
  simp only [Formula.inverseModel, Formula.inverseProjection, Formula.modelView,
    Formula.modelViewRelativeToEye, Formula.inverseModelView, Formula.viewProjection,
    Formula.modelViewProjection, Formula.modelViewInfiniteProjection, Formula.normal,
    Formula.inverseNormal, Formula.sunDirectionWC, Formula.encodedCameraPosition, hp.model, hp.view, hp.projection, hp.infiniteProjection, hp.sunPosition,
    hp.cameraPosition]

theorem getEncodedCameraPositionMC_formula (core : CoreNumerics) (s : UniformState)
    (h : Coherent core s) :
    (s.getEncodedCameraPositionMCHigh core).1 = (Formula.encodedCameraPosition core s).high ∧
    (s.getEncodedCameraPositionMCLow core).1 = (Formula.encodedCameraPosition core s).low := by
  have hc := coherent_cleanEncodedCameraPositionMC core s h
  have hf := cleanEncodedCameraPositionMC_flag core s
  have hp := (frame_cleanEncodedCameraPositionMC core s).1
  have he : (cleanEncodedCameraPositionMC core s)._encodedCameraPositionMC =
      Formula.encodedCameraPosition core s := by
    rw [hc.encodedCameraPosition hf]
    simp only [Formula.inverseModel, Formula.inverseProjection, Formula.modelView,
    Formula.modelViewRelativeToEye, Formula.inverseModelView, Formula.viewProjection,
    Formula.modelViewProjection, Formula.modelViewInfiniteProjection, Formula.normal,
    Formula.inverseNormal, Formula.sunDirectionWC, Formula.encodedCameraPosition, hp.model, hp.view, hp.projection, hp.infiniteProjection, hp.sunPosition,
    hp.cameraPosition]
  constructor
  · show (cleanEncodedCameraPositionMC core s)._encodedCameraPositionMC.high = _
    rw [he]
  · show (cleanEncodedCameraPositionMC core s)._encodedCameraPositionMC.low = _
    rw [he]

theorem getSunDirectionEC_stored_rotation (core : CoreNumerics) (s : UniformState)
    (h : Coherent core s) :
    (s.getSunDirectionEC core).1 =
      core.normalize (s._viewRotation.multiplyByVector s._sunPosition) := by
  have hc := coherent_cleanSunDirectionEC core s h
  have hf := cleanSunDirectionEC_flag core s
  have hp := (frame_cleanSunDirectionEC core s).1
  have hr := (frame_cleanSunDirectionEC core s).2.1
  show (cleanSunDirectionEC core s)._sunDirectionEC = _
  rw [hc.sunDirectionEC hf, hr.viewRotation, hp.sunPosition]

theorem getSunDirectionEC_formula (core : CoreNumerics) (s : UniformState)
    (h : Coherent core s) (hr : RotationSynced s) :
    (s.getSunDirectionEC core).1 = Formula.sunDirectionEC core s := by
  rw [getSunDirectionEC_stored_rotation core s h, Formula.sunDirectionEC, ← hr]

theorem getInverseViewProjection_formula_of_dirty (core : CoreNumerics) (s : UniformState)
    (h : Coherent core s) (hd : s._inverseViewProjectionDirty = true) :
    s.getInverseViewProjection.1 = Formula.inverseViewProjection s := by
  by_cases hn0 : s._viewProjectionDirty = true <;>
    simp only [UniformState.getInverseViewProjection, cleanInverseViewProjection,
      UniformState.getViewProjection, cleanViewProjection, hd, hn0, if_true, if_false,
      Bool.false_eq_true] <;>
    first
    | rfl
    | (rw [h.viewProjection (by simpa using hn0)]; rfl)

theorem getInverseModelViewProjection_formula_of_dirty (core : CoreNumerics)
    (s : UniformState) (h : Coherent core s)
    (hd : s._inverseModelViewProjectionDirty = true) :
    s.getInverseModelViewProjection.1 = Formula.inverseModelViewProjection s := by
  by_cases hn0 : s._modelViewProjectionDirty = true <;>
    by_cases hn1 : s._modelViewDirty = true <;>
    simp only [UniformState.getInverseModelViewProjection, cleanInverseModelViewProjection,
      UniformState.getModelViewProjection, cleanModelViewProjection,
      UniformState.getModelView, cleanModelView, hd, hn0, hn1, if_true, if_false,
      Bool.false_eq_true] <;>
    first
    | rfl
    | (rw [h.modelViewProjection (by simpa using hn0)]; rfl)
    | (rw [h.modelView (by simpa using hn1)]; rfl)

theorem getModelViewProjectionRelativeToEye_formula_of_dirty (core : CoreNumerics)
    (s : UniformState) (h : Coherent core s)
    (hd : s._modelViewProjectionRelativeToEyeDirty = true) :
    s.getModelViewProjectionRelativeToEye.1 = Formula.modelViewProjectionRelativeToEye s := by
  by_cases hn0 : s._modelViewRelativeToEyeDirty = true <;>
    by_cases hn1 : s._modelViewDirty = true <;>
    simp only [UniformState.getModelViewProjectionRelativeToEye,
      cleanModelViewProjectionRelativeToEye, UniformState.getModelViewRelativeToEye,
      cleanModelViewRelativeToEye, UniformState.getModelView, cleanModelView, hd, hn0, hn1,
      if_true, if_false, Bool.false_eq_true] <;>
    first
    | rfl
    | (rw [h.modelViewRelativeToEye (by simpa using hn0)]; rfl)
    | (rw [h.modelView (by simpa using hn1)]; rfl)

/-- In a reachable state every getter of a flagged entry returns the value of
its formula, with three provisos: `getInverseViewProjection`,
`getInverseModelViewProjection` and `getModelViewProjectionRelativeToEye` do so
when their flag is set, and `getSunDirectionEC` uses the stored view
rotation. -/
theorem reachable_getter_values (core : CoreNumerics) (s : UniformState)
    (h : Reachable core s) :
    s.getInverseModel.1 = Formula.inverseModel s ∧
    s.getInverseProjection.1 = Formula.inverseProjection s ∧
    s.getModelView.1 = Formula.modelView s ∧
    s.getModelViewRelativeToEye.1 = Formula.modelViewRelativeToEye s ∧
    s.getInverseModelView.1 = Formula.inverseModelView s ∧
    s.getViewProjection.1 = Formula.viewProjection s ∧
    s.getModelViewProjection.1 = Formula.modelViewProjection s ∧
    s.getModelViewInfiniteProjection.1 = Formula.modelViewInfiniteProjection s ∧
    s.getNormal.1 = Formula.normal s ∧
    s.getInverseNormal.1 = Formula.inverseNormal s ∧
    (s.getSunDirectionWC core).1 = Formula.sunDirectionWC core s ∧
    (s.getEncodedCameraPositionMCHigh core).1 = (Formula.encodedCameraPosition core s).high ∧
    (s.getEncodedCameraPositionMCLow core).1 = (Formula.encodedCameraPosition core s).low ∧
    (s.getSunDirectionEC core).1 =
      core.normalize (s._viewRotation.multiplyByVector s._sunPosition) ∧
    (s._inverseViewProjectionDirty = true →
      s.getInverseViewProjection.1 = Formula.inverseViewProjection s) ∧
    (s._inverseModelViewProjectionDirty = true →
      s.getInverseModelViewProjection.1 = Formula.inverseModelViewProjection s) ∧
    (s._modelViewProjectionRelativeToEyeDirty = true →
      s.getModelViewProjectionRelativeToEye.1 =
        Formula.modelViewProjectionRelativeToEye s) := by
  have hc := coherent_of_reachable core s h
  exact ⟨getInverseModel_formula core s hc, getInverseProjection_formula core s hc,
    getModelView_formula core s hc, getModelViewRelativeToEye_formula core s hc,
    getInverseModelView_formula core s hc, getViewProjection_formula core s hc,
    getModelViewProjection_formula core s hc,
    getModelViewInfiniteProjection_formula core s hc, getNormal_formula core s hc,
    getInverseNormal_formula core s hc, getSunDirectionWC_formula core s hc,
    (getEncodedCameraPositionMC_formula core s hc).1,
    (getEncodedCameraPositionMC_formula core s hc).2,
    getSunDirectionEC_stored_rotation core s hc,
    getInverseViewProjection_formula_of_dirty core s hc,
    getInverseModelViewProjection_formula_of_dirty core s hc,
    getModelViewProjectionRelativeToEye_formula_of_dirty core s hc⟩

/-! ## Claims C21 to C30 -/

/-- C21: in every state reached from a reachable state by `update(camera)`
followed by any sequence of setters and getter reads, `getSunDirectionEC()` is
the normalized image of the stored sun position under the rotation of the
stored view matrix. -/
theorem getSunDirectionEC_after_update (core : CoreNumerics) (s0 : UniformState)
    (h : Reachable core s0) (camera : Camera) (calls : List Call) :
    (((s0.update camera).run core calls).getSunDirectionEC core).1 =
      core.normalize
        (((s0.update camera).run core calls)._view.getRotation.multiplyByVector
          ((s0.update camera).run core calls)._sunPosition) :=
  getSunDirectionEC_formula core _
    (coherent_run core calls _ (coherent_update core s0 (coherent_of_reachable core s0 h) camera))
    (rotationSynced_run core calls _ (rotationSynced_update s0 camera))

/-- Witness for C21: the new object is reachable, and after
`update(sampleCamera)` the sun direction in eye coordinates is the formula
value. -/
theorem getSunDirectionEC_after_update_witness :
    Reachable CoreNumerics.sample UniformState.new ∧
    (((UniformState.new.update sampleCamera).run CoreNumerics.sample
        []).getSunDirectionEC CoreNumerics.sample).1 =
      CoreNumerics.sample.normalize
        (((UniformState.new.update sampleCamera).run CoreNumerics.sample
            [])._view.getRotation.multiplyByVector
          ((UniformState.new.update sampleCamera).run CoreNumerics.sample
            [])._sunPosition) :=
  ⟨⟨[], rfl⟩,
    getSunDirectionEC_after_update CoreNumerics.sample UniformState.new ⟨[], rfl⟩
      sampleCamera []⟩

/-- C22: in every reachable state `getEncodedCameraPositionMCHigh()` and
`getEncodedCameraPositionMCLow()` are the high and the low part of one
encoding, that of the stored camera position transformed as a point by the
inverse of the stored model matrix; a read of the low part after a read of the
high part returns the low part of that same encoding. -/
theorem getEncodedCameraPositionMC_parts (core : CoreNumerics) (s : UniformState)
    (h : Reachable core s) :
    (s.getEncodedCameraPositionMCHigh core).1 =
      (core.fromCartesian (s._model.inverse.multiplyByPoint s._cameraPosition)).high ∧
    (s.getEncodedCameraPositionMCLow core).1 =
      (core.fromCartesian (s._model.inverse.multiplyByPoint s._cameraPosition)).low ∧
    ((s.getEncodedCameraPositionMCHigh core).2.getEncodedCameraPositionMCLow core).1 =
      (core.fromCartesian (s._model.inverse.multiplyByPoint s._cameraPosition)).low := by
  have hc := coherent_of_reachable core s h
  have h1 := getEncodedCameraPositionMC_formula core s hc
  have h2 := getEncodedCameraPositionMC_formula core (cleanEncodedCameraPositionMC core s)
    (coherent_cleanEncodedCameraPositionMC core s hc)
  have hp := (frame_cleanEncodedCameraPositionMC core s).1
  refine ⟨h1.1, h1.2, ?_⟩
  show ((cleanEncodedCameraPositionMC core s).getEncodedCameraPositionMCLow core).1 = _
  rw [h2.2]
  simp only [Formula.encodedCameraPosition, Formula.inverseModel, hp.model,
    hp.cameraPosition]

/-- Witness for C22: the state after `update(sampleCamera)` on a new object is
reachable, and both getters return the parts of the encoding of the camera
position in model coordinates. -/
theorem getEncodedCameraPositionMC_parts_witness :
    Reachable CoreNumerics.sample stateUpdated ∧
    (stateUpdated.getEncodedCameraPositionMCHigh CoreNumerics.sample).1 =
      (CoreNumerics.sample.fromCartesian
        (stateUpdated._model.inverse.multiplyByPoint stateUpdated._cameraPosition)).high ∧
    (stateUpdated.getEncodedCameraPositionMCLow CoreNumerics.sample).1 =
      (CoreNumerics.sample.fromCartesian
        (stateUpdated._model.inverse.multiplyByPoint stateUpdated._cameraPosition)).low :=
  ⟨⟨_, rfl⟩,
    (getEncodedCameraPositionMC_parts CoreNumerics.sample stateUpdated ⟨_, rfl⟩).1,
    (getEncodedCameraPositionMC_parts CoreNumerics.sample stateUpdated ⟨_, rfl⟩).2.1⟩

/-- C23: in every reachable state and for every matrix `M`,
`getViewProjection()` read after `setModel(M)` returns the value that
`getViewProjection()` returns in that state without the `setModel` call. -/
theorem getViewProjection_after_setModel (core : CoreNumerics) (s : UniformState)
    (h : Reachable core s) (M : Matrix4) :
    (s.setModel M).getViewProjection.1 = s.getViewProjection.1 := by
  rw [getViewProjection_formula core s (coherent_of_reachable core s h)]
  simp [UniformState.setModel, UniformState.getViewProjection, cleanViewProjection,
    Formula.viewProjection]

/-- Witness for C23: the state after a read of `getViewProjection()` on a new
object is reachable, and `setModel` of a translation does not change what
`getViewProjection()` returns. -/
theorem getViewProjection_after_setModel_witness :
    Reachable CoreNumerics.sample stateViewProjectionRead ∧
    (stateViewProjectionRead.setModel
        (Matrix4.fromTranslation ⟨10, 0, 0⟩)).getViewProjection.1 =
      stateViewProjectionRead.getViewProjection.1 :=
  ⟨⟨_, rfl⟩,
    getViewProjection_after_setModel CoreNumerics.sample stateViewProjectionRead ⟨_, rfl⟩ _⟩

/-- C24 (`getViewRotation()` is the rotation of `getView()` in every reachable
state, the newly constructed one included), at the failing input
`new UniformState()`: the state is reachable, `getViewRotation()` returns the
zero matrix, and the rotation of `getView()`, the identity, is the 3x3
identity. -/
theorem getViewRotation_new_not_rotation :
    Reachable CoreNumerics.sample UniformState.new ∧
    UniformState.new.getViewRotation = Matrix3.ZERO ∧
    UniformState.new.getView.getRotation = Matrix3.IDENTITY ∧
    UniformState.new.getViewRotation ≠ UniformState.new.getView.getRotation := by
  refine ⟨⟨[], rfl⟩, rfl, rfl, ?_⟩
  intro h
  have h0 := congrArg Matrix3.m0 h
  norm_num [UniformState.getViewRotation, UniformState.getView, UniformState.new,
    Matrix3.ZERO, Matrix4.getRotation, Matrix4.IDENTITY] at h0

/-- Counterexample for C25: `update` changes a field that is neither a primary
field nor a dirty flag.  In the state after `update(sampleCamera)` the stored
view rotation is the identity; `update(sampleTurnedCamera)` replaces it by the
quarter turn. -/
theorem update_changes_viewRotation_counterexample :
    stateUpdated._viewRotation = Matrix3.IDENTITY ∧
    (stateUpdated.update sampleTurnedCamera)._viewRotation =
      ⟨0, 1, 0, -1, 0, 0, 0, 0, 1⟩ ∧
    (stateUpdated.update sampleTurnedCamera)._viewRotation ≠ stateUpdated._viewRotation := by
  have h1 : stateUpdated._viewRotation = Matrix3.IDENTITY := rfl
  have h2 : (stateUpdated.update sampleTurnedCamera)._viewRotation =
      ⟨0, 1, 0, -1, 0, 0, 0, 0, 1⟩ := rfl
  refine ⟨h1, h2, ?_⟩
  rw [h1, h2]
  intro h
  have h0 := congrArg Matrix3.m0 h
  norm_num [Matrix3.IDENTITY] at h0

/-- C25, amended: in every state, each state-changing call (`update`,
`updateFrustum`, `setViewport`, `setModel`, `setProjection`, `setSunPosition`,
`setFrameNumber`) leaves the stored value of every flagged cache entry, the two
viewport matrices included, as it was; apart from primary fields and dirty
flags, the only fields a call changes are the two unflagged rotation matrices,
which `update` alone stores, eagerly, as the rotations of the camera's view and
inverse-view matrices. -/
theorem setters_keep_cached_values (core : CoreNumerics) (s : UniformState) :
    (∀ camera : Camera, SameCached s (s.update camera) ∧
      (s.update camera)._viewRotation = camera.viewMatrix.getRotation ∧
      (s.update camera)._inverseViewRotation = camera.inverseViewMatrix.getRotation) ∧
    (∀ frustum : Frustum, SameCached s (s.updateFrustum frustum) ∧
      SameRotations s (s.updateFrustum frustum)) ∧
    (∀ viewport : BoundingRectangle, SameCached s (s.setViewport viewport) ∧
      SameRotations s (s.setViewport viewport)) ∧
    (∀ matrix : Matrix4, SameCached s (s.setModel matrix) ∧
      SameRotations s (s.setModel matrix)) ∧
    (∀ matrix : Option Matrix4, SameCached s (s.setProjection matrix) ∧
      SameRotations s (s.setProjection matrix)) ∧
    (∀ sunPosition : Option Cartesian3,
      SameCached s (s.call core (.setSunPosition sunPosition)) ∧
      SameRotations s (s.call core (.setSunPosition sunPosition))) ∧
    (∀ frameNumber : Option ℚ, SameCached s (s.setFrameNumber frameNumber) ∧
      SameRotations s (s.setFrameNumber frameNumber)) := by
  refine ⟨?_, ?_, ?_, ?_, ?_, ?_, ?_⟩
  · intro camera
    unfold UniformState.update UniformState.updateFrustum
    cases camera.frustum.infiniteProjectionMatrix <;>
      exact ⟨by constructor <;> rfl, rfl, rfl⟩
  · intro frustum
    unfold UniformState.updateFrustum
    cases frustum.infiniteProjectionMatrix <;>
      exact ⟨by constructor <;> rfl, by constructor <;> rfl⟩
  · intro viewport
    unfold UniformState.setViewport
    split_ifs <;> exact ⟨by constructor <;> rfl, by constructor <;> rfl⟩
  · intro matrix
    exact ⟨by constructor <;> rfl, by constructor <;> rfl⟩
  · intro matrix
    exact ⟨by constructor <;> rfl, by constructor <;> rfl⟩
  · intro sunPosition
    cases sunPosition <;> exact ⟨by constructor <;> rfl, by constructor <;> rfl⟩
  · intro frameNumber
    exact ⟨by constructor <;> rfl, by constructor <;> rfl⟩

/-- C26: for every state and every getter, the primary fields (model, view,
inverse view, projection, infinite projection, camera position, sun position,
viewport, frame number) are the same after the getter call as before it. -/
theorem getter_keeps_primary_fields (core : CoreNumerics) (s : UniformState) (g : Getter) :
    (s.get core g).2._model = s._model ∧
    (s.get core g).2._view = s._view ∧
    (s.get core g).2._inverseView = s._inverseView ∧
    (s.get core g).2._projection = s._projection ∧
    (s.get core g).2._infiniteProjection = s._infiniteProjection ∧
    (s.get core g).2._cameraPosition = s._cameraPosition ∧
    (s.get core g).2._sunPosition = s._sunPosition ∧
    (s.get core g).2._viewport = s._viewport ∧
    (s.get core g).2._frameNumber = s._frameNumber := by
  rw [UniformState.get_snd]
  have hp := (frame_read core s g).1
  exact ⟨hp.model, hp.view, hp.inverseView, hp.projection, hp.infiniteProjection,
    hp.cameraPosition, hp.sunPosition, hp.viewport, hp.frameNumber⟩

theorem CoreNumerics.sample_fromCartesian :
    CoreNumerics.sample.fromCartesian = EncodedCartesian3.encode sampleRound := by
  funext p
  rfl

/-- C27, against the spec's codec: if `fromCartesian` is the precision-split
codec of the spec for some rounding to the lower precision, then in every
reachable state `getEncodedCameraPositionMCHigh() +
getEncodedCameraPositionMCLow()` is the camera position in model coordinates,
exactly; so each component is reconstructed within the relative tolerance
`1e-7`. -/
theorem encoded_camera_position_round_trip (core : CoreNumerics) (round : ℚ → ℚ)
    (hcodec : core.fromCartesian = EncodedCartesian3.encode round) (s : UniformState)
    (h : Reachable core s) :
    Cartesian3.add (s.getEncodedCameraPositionMCHigh core).1
        (s.getEncodedCameraPositionMCLow core).1 = Formula.cameraPositionMC s ∧
    |(Cartesian3.add (s.getEncodedCameraPositionMCHigh core).1
        (s.getEncodedCameraPositionMCLow core).1).x - (Formula.cameraPositionMC s).x| ≤
      1 / 10 ^ 7 * |(Formula.cameraPositionMC s).x| ∧
    |(Cartesian3.add (s.getEncodedCameraPositionMCHigh core).1
        (s.getEncodedCameraPositionMCLow core).1).y - (Formula.cameraPositionMC s).y| ≤
      1 / 10 ^ 7 * |(Formula.cameraPositionMC s).y| ∧
    |(Cartesian3.add (s.getEncodedCameraPositionMCHigh core).1
        (s.getEncodedCameraPositionMCLow core).1).z - (Formula.cameraPositionMC s).z| ≤
      1 / 10 ^ 7 * |(Formula.cameraPositionMC s).z| := by
  have hp := getEncodedCameraPositionMC_formula core s (coherent_of_reachable core s h)
  have hsum : Cartesian3.add (s.getEncodedCameraPositionMCHigh core).1
      (s.getEncodedCameraPositionMCLow core).1 = Formula.cameraPositionMC s := by
    rw [hp.1, hp.2]
    simp only [Formula.encodedCameraPosition, Formula.inverseModel, hcodec,
      EncodedCartesian3.encode, Cartesian3.add, Formula.cameraPositionMC]
    ext <;> simp
  refine ⟨hsum, ?_, ?_, ?_⟩ <;>
    · rw [hsum, sub_self, abs_zero]
      positivity

/-- Witness for C27: the sample `fromCartesian` is the codec of the spec with
the sample rounding, the state after `update(sampleCamera)` on a new object is
reachable, and there the two parts add up to the camera position in model
coordinates. -/
theorem encoded_camera_position_round_trip_witness :
    CoreNumerics.sample.fromCartesian = EncodedCartesian3.encode sampleRound ∧
    Reachable CoreNumerics.sample stateUpdated ∧
    Cartesian3.add (stateUpdated.getEncodedCameraPositionMCHigh CoreNumerics.sample).1
        (stateUpdated.getEncodedCameraPositionMCLow CoreNumerics.sample).1 =
      Formula.cameraPositionMC stateUpdated :=
  ⟨CoreNumerics.sample_fromCartesian, ⟨_, rfl⟩,
    (encoded_camera_position_round_trip CoreNumerics.sample sampleRound
      CoreNumerics.sample_fromCartesian stateUpdated ⟨_, rfl⟩).1⟩

/-- C28 (a read leaves clean every derived entry it reads), at the failing
input `new UniformState(); getInverseViewProjection(); update(sampleCamera)`:
the state is reachable, and after the next `getInverseViewProjection()` the
flag of that entry is clear while the flag of `viewProjection`, the entry its
computation reads, is still set.  What holds in every state: a read leaves the
flag of its own entry clear, and no read sets a flag. -/
theorem read_leaves_input_dirty :
    Reachable CoreNumerics.sample stateReadThenUpdate ∧
    stateReadThenUpdate.getInverseViewProjection.2._inverseViewProjectionDirty = false ∧
    stateReadThenUpdate.getInverseViewProjection.2._viewProjectionDirty = true ∧
    (∀ (core : CoreNumerics) (s : UniformState) (g : Getter),
      g.flag (s.get core g).2 = false) ∧
    (∀ (core : CoreNumerics) (s : UniformState) (g : Getter),
      NoFlagRaised s (s.get core g).2) := by
  refine ⟨⟨_, rfl⟩, by decide, by decide, ?_, ?_⟩
  · intro core s g
    rw [UniformState.get_snd]
    exact read_flag core s g
  · intro core s g
    rw [UniformState.get_snd]
    exact (frame_read core s g).2.2

/-- C29 (a getter whose flag is set returns the value of its formula), at the
failing input `new UniformState(); getSunDirectionEC()`: the state is
reachable and the flag of `sunDirectionEC` is set, yet the getter normalizes
the zero vector (the stored view rotation is the zero matrix), whereas the
formula normalizes the sun position (the rotation of the identity view is the
identity); with the sample `normalize` the two results differ. -/
theorem getSunDirectionEC_new_not_formula :
    Reachable CoreNumerics.sample UniformState.new ∧
    UniformState.new._sunDirectionECDirty = true ∧
    (∀ core : CoreNumerics,
      (UniformState.new.getSunDirectionEC core).1 = core.normalize ⟨0, 0, 0⟩) ∧
    (∀ core : CoreNumerics,
      Formula.sunDirectionEC core UniformState.new =
        core.normalize ⟨defaultSunPositionX, 0, 0⟩) ∧
    (UniformState.new.getSunDirectionEC CoreNumerics.sample).1 ≠
      Formula.sunDirectionEC CoreNumerics.sample UniformState.new := by
  have h1 : ∀ core : CoreNumerics,
      (UniformState.new.getSunDirectionEC core).1 = core.normalize ⟨0, 0, 0⟩ := by
    intro core
    simp [UniformState.getSunDirectionEC, cleanSunDirectionEC, UniformState.new,
      Matrix3.multiplyByVector, Matrix3.ZERO]
  have h2 : ∀ core : CoreNumerics,
      Formula.sunDirectionEC core UniformState.new =
        core.normalize ⟨defaultSunPositionX, 0, 0⟩ := by
    intro core
    simp [Formula.sunDirectionEC, UniformState.new, Matrix3.multiplyByVector,
      Matrix4.getRotation, Matrix4.IDENTITY]
  refine ⟨⟨[], rfl⟩, rfl, h1, h2, ?_⟩
  rw [h1, h2]
  intro h
  have h0 := congrArg Cartesian3.x h
  norm_num [CoreNumerics.sample, defaultSunPositionX] at h0

/-- C30: in every reachable state and for every matrix `M`, right after
`setModel(M)` each of `getInverseModel`, `getModelView`,
`getModelViewRelativeToEye`, `getInverseModelView`, `getInverseProjection`,
`getViewProjection`, `getInverseViewProjection`, `getModelViewProjection`,
`getInverseModelViewProjection`, `getModelViewProjectionRelativeToEye`,
`getModelViewInfiniteProjection`, `getNormal` and `getInverseNormal` returns
the value of its formula for the stored model, view, projection and infinite
projection. -/
theorem setModel_resynchronises (core : CoreNumerics) (s : UniformState)
    (h : Reachable core s) (M : Matrix4) : FamilyFresh (s.setModel M) := by
  have hc := coherent_setModel core s (coherent_of_reachable core s h) M
  exact
    { inverseModel := getInverseModel_formula core _ hc
      modelView := getModelView_formula core _ hc
      modelViewRelativeToEye := getModelViewRelativeToEye_formula core _ hc
      inverseModelView := getInverseModelView_formula core _ hc
      inverseProjection := getInverseProjection_formula core _ hc
      viewProjection := getViewProjection_formula core _ hc
      inverseViewProjection := getInverseViewProjection_formula_of_dirty core _ hc rfl
      modelViewProjection := getModelViewProjection_formula core _ hc
      inverseModelViewProjection :=
        getInverseModelViewProjection_formula_of_dirty core _ hc rfl
      modelViewProjectionRelativeToEye :=
        getModelViewProjectionRelativeToEye_formula_of_dirty core _ hc rfl
      modelViewInfiniteProjection := getModelViewInfiniteProjection_formula core _ hc
      normal := getNormal_formula core _ hc
      inverseNormal := getInverseNormal_formula core _ hc }

/-- Witness for C30: the state after `getInverseViewProjection()` and
`update(sampleCamera)` on a new object is reachable (its cached inverse
view-projection is stale), and after `setModel` of a translation every getter
of the family returns the value of its formula. -/
theorem setModel_resynchronises_witness :
    Reachable CoreNumerics.sample stateReadThenUpdate ∧
    FamilyFresh (stateReadThenUpdate.setModel (Matrix4.fromTranslation ⟨10, 0, 0⟩)) :=
  ⟨⟨_, rfl⟩,
    setModel_resynchronises CoreNumerics.sample stateReadThenUpdate ⟨_, rfl⟩ _⟩

/-! ## Claim C1: consistency of the derived getters -/

/-- Counterexample for C1: the state after `update(sampleCamera)` on a new
object is reachable, its stored viewport is still the rectangle `(0, 0, 0, 0)`
of the constructor, `getViewportTransformation()` returns the identity the
constructor stored, and the viewport transformation of the stored viewport is
another matrix. -/
theorem consistency_viewport_counterexample :
    Reachable CoreNumerics.sample stateUpdated ∧
    stateUpdated.getViewportTransformation.1 = Matrix4.IDENTITY ∧
    Formula.viewportTransformation stateUpdated =
      ⟨0, 0, 0, 0, 0, 0, 0, 0, 0, 0, 1 / 2, 0, 0, 0, 1 / 2, 1⟩ ∧
    stateUpdated.getViewportTransformation.1 ≠
      Formula.viewportTransformation stateUpdated := by
  have h1 : stateUpdated.getViewportTransformation.1 = Matrix4.IDENTITY := by
    simp [stateUpdated, UniformState.run, UniformState.call, UniformState.update,
      UniformState.updateFrustum, setView, setInverseView, setCameraPosition,
      setProjection, sampleCamera, sampleFrustum, UniformState.getViewportTransformation,
      cleanViewport, UniformState.new]
  have h2 : Formula.viewportTransformation stateUpdated =
      ⟨0, 0, 0, 0, 0, 0, 0, 0, 0, 0, 1 / 2, 0, 0, 0, 1 / 2, 1⟩ := by
    simp [stateUpdated, UniformState.run, UniformState.call, UniformState.update,
      UniformState.updateFrustum, setView, setInverseView, setCameraPosition,
      setProjection, sampleCamera, sampleFrustum, Formula.viewportTransformation,
      Matrix4.computeViewportTransformation, UniformState.new, BoundingRectangle.ZERO]
  refine ⟨⟨_, rfl⟩, h1, h2, ?_⟩
  rw [h1, h2]
  intro h
  have h0 := congrArg Matrix4.m0 h
  norm_num [Matrix4.IDENTITY] at h0

/-- C1, amended: in every state reached from a newly constructed object by a
sequence of state-changing calls and getter reads, `getInverseModel`,
`getInverseProjection`, `getModelView`, `getModelViewRelativeToEye`,
`getInverseModelView`, `getViewProjection`, `getModelViewProjection`,
`getModelViewInfiniteProjection`, `getNormal`, `getInverseNormal`,
`getSunDirectionWC` and the two `getEncodedCameraPositionMC` getters return the
values of their formulas for the primary state at the time of the read, and so
do `getViewportOrthographic` and `getViewportTransformation` when the stored
viewport is not the rectangle `(0, 0, 0, 0)` of the constructor; on a newly
constructed object the two viewport getters return the identity. -/
theorem consistency_of_derived_getters (core : CoreNumerics) (s : UniformState)
    (h : Reachable core s) :
    s.getInverseModel.1 = Formula.inverseModel s ∧
    s.getInverseProjection.1 = Formula.inverseProjection s ∧
    s.getModelView.1 = Formula.modelView s ∧
    s.getModelViewRelativeToEye.1 = Formula.modelViewRelativeToEye s ∧
    s.getInverseModelView.1 = Formula.inverseModelView s ∧
    s.getViewProjection.1 = Formula.viewProjection s ∧
    s.getModelViewProjection.1 = Formula.modelViewProjection s ∧
    s.getModelViewInfiniteProjection.1 = Formula.modelViewInfiniteProjection s ∧
    s.getNormal.1 = Formula.normal s ∧
    s.getInverseNormal.1 = Formula.inverseNormal s ∧
    (s.getSunDirectionWC core).1 = Formula.sunDirectionWC core s ∧
    (s.getEncodedCameraPositionMCHigh core).1 = (Formula.encodedCameraPosition core s).high ∧
    (s.getEncodedCameraPositionMCLow core).1 = (Formula.encodedCameraPosition core s).low ∧
    (s._viewport ≠ BoundingRectangle.ZERO →
      s.getViewportOrthographic.1 = Formula.viewportOrthographic s ∧
      s.getViewportTransformation.1 = Formula.viewportTransformation s) ∧
    UniformState.new.getViewportOrthographic.1 = Matrix4.IDENTITY ∧
    UniformState.new.getViewportTransformation.1 = Matrix4.IDENTITY := by
  have hc := coherent_of_reachable core s h
  have hv := viewportCoherent_of_reachable core s h
  refine ⟨getInverseModel_formula core s hc, getInverseProjection_formula core s hc,
    getModelView_formula core s hc, getModelViewRelativeToEye_formula core s hc,
    getInverseModelView_formula core s hc, getViewProjection_formula core s hc,
    getModelViewProjection_formula core s hc,
    getModelViewInfiniteProjection_formula core s hc, getNormal_formula core s hc,
    getInverseNormal_formula core s hc, getSunDirectionWC_formula core s hc,
    (getEncodedCameraPositionMC_formula core s hc).1,
    (getEncodedCameraPositionMC_formula core s hc).2, ?_, ?_, ?_⟩
  · intro hne
    unfold UniformState.getViewportOrthographic UniformState.getViewportTransformation
      cleanViewport
    by_cases hd : s._viewportDirty = true
    · simp only [if_pos hd]
      exact ⟨rfl, rfl⟩
    · simp only [if_neg hd]
      rcases hv (by simpa using hd) with h1 | h1
      · exact h1
      · exact absurd h1.1 hne
  · simp [UniformState.getViewportOrthographic, cleanViewport, UniformState.new]
  · simp [UniformState.getViewportTransformation, cleanViewport, UniformState.new]

/-- Witness for C1: the state after `setViewport(sampleViewport)` on a new
object is reachable, its viewport is not `(0, 0, 0, 0)`, `getModelView()`
returns `view * model` and both viewport getters return the matrices of the
formulas. -/
theorem consistency_of_derived_getters_witness :
    Reachable CoreNumerics.sample stateViewportSet ∧
    stateViewportSet._viewport ≠ BoundingRectangle.ZERO ∧
    stateViewportSet.getModelView.1 = Formula.modelView stateViewportSet ∧
    stateViewportSet.getViewportOrthographic.1 =
      Formula.viewportOrthographic stateViewportSet ∧
    stateViewportSet.getViewportTransformation.1 =
      Formula.viewportTransformation stateViewportSet :=
  have hne : stateViewportSet._viewport ≠ BoundingRectangle.ZERO := by
    intro h
    have hw := congrArg BoundingRectangle.width h
    simp [stateViewportSet, UniformState.run, UniformState.call, UniformState.setViewport,
      BoundingRectangle.equals, sampleViewport, UniformState.new, BoundingRectangle.ZERO]
      at hw
  ⟨⟨_, rfl⟩, hne,
    (consistency_of_derived_getters CoreNumerics.sample stateViewportSet ⟨_, rfl⟩).2.2.1,
    (consistency_of_derived_getters CoreNumerics.sample stateViewportSet
      ⟨_, rfl⟩).2.2.2.2.2.2.2.2.2.2.2.2.2.1 hne⟩
